import Mathlib

/-!
Braid-over-HTTP transport of Redwood: signed cookies, identity resolution, AUTHORIZE, the
state GET, the tx GET and PUT, start-up and the lookup of providers.

A shallow embedding of `swarm/braidhttp/transport.go` and `crypto/signer.go`.

* Go byte slices are lists of `Fin 256`; Go strings are Lean strings, read through their
  character list.
* Go `(value, error)` results are `Except Error value`.
* Packages that are not part of the embedded sources (key store, peer store, JWT parsing,
  go-ethereum, keccak, randomness, the clock) are fields of `Collaborators`.
* The peer store is represented by the history of the mutating calls made to it.
-/

set_option autoImplicit false

namespace Redwood

abbrev Byte := Fin 256

abbrev Bytes := List Byte

/-! ## errors -/

/-- Error values. The first five are the sentinel values compared with `==` in the source,
the next two are the errors of `encoding/hex`, `New` is any other error value
(`errors.New`, `errors.Errorf`, an error of a collaborator), and the last two are the
wrappers of the `errors` package. -/
inductive Error where
  | Err403
  | Err404
  | ErrBadCookie
  | ErrPeerIsSelf
  | ErrNoCookie
  | ErrLength
  | InvalidByteError (c : Char)
  | New (msg : String)
  | Wrapf (cause : Error) (msg : String)
  | WithStack (cause : Error)
  deriving DecidableEq, Repr

instance {ε α : Type} [DecidableEq ε] [DecidableEq α] : DecidableEq (Except ε α)
  | .ok a, .ok b => if h : a = b then isTrue (by rw [h]) else isFalse (by simpa using h)
  | .error a, .error b => if h : a = b then isTrue (by rw [h]) else isFalse (by simpa using h)
  | .ok _, .error _ => isFalse (by simp)
  | .error _, .ok _ => isFalse (by simp)

namespace errors

/-- Embeds `errors.Cause`: unwraps `Wrapf` and `WithStack` down to the innermost error. -/
def Cause : Error → Error
  | .Wrapf e _ => Cause e
  | .WithStack e => Cause e
  | e => e

end errors

/-! ## encoding/hex -/

namespace hex

/-- The table `hextable = "0123456789abcdef"`, indexed by a nibble. -/
def hextable (n : Nat) : Char :=
  "0123456789abcdef".data.getD n '0'

/-- The reverse table of `encoding/hex`: the value of a hexadecimal digit (either case),
`none` where the table holds `0xff`. -/
def fromHexChar (c : Char) : Option Nat :=
  if '0'.toNat ≤ c.toNat ∧ c.toNat ≤ '9'.toNat then some (c.toNat - '0'.toNat)
  else if 'a'.toNat ≤ c.toNat ∧ c.toNat ≤ 'f'.toNat then some (c.toNat - 'a'.toNat + 10)
  else if 'A'.toNat ≤ c.toNat ∧ c.toNat ≤ 'F'.toNat then some (c.toNat - 'A'.toNat + 10)
  else none

/-- Embeds `hex.Encode`: two digits per byte, high nibble first. -/
def Encode : Bytes → List Char
  | [] => []
  | v :: vs => hextable (v.val >>> 4) :: hextable (v.val &&& 0x0f) :: Encode vs

/-- Embeds `hex.Decode`: digits are consumed in pairs; an invalid digit is reported before an odd
length. -/
def Decode : List Char → Except Error Bytes
  | [] => .ok []
  | [p] =>
    match fromHexChar p with
    | none => .error (.InvalidByteError p)
    | some _ => .error .ErrLength
  | p :: q :: rest =>
    match fromHexChar p with
    | none => .error (.InvalidByteError p)
    | some a =>
      match fromHexChar q with
      | none => .error (.InvalidByteError q)
      | some b =>
        match Decode rest with
        | .error e => .error e
        | .ok bs => .ok (Fin.ofNat ((a <<< 4) ||| b) :: bs)

/-- Embeds `hex.EncodeToString`. -/
def EncodeToString (src : Bytes) : String :=
  ⟨Encode src⟩

/-- Embeds `hex.DecodeString`. -/
def DecodeString (s : String) : Except Error Bytes :=
  Decode s.data

end hex

/-! ## strings -/

namespace strings

/-- The pieces of a character list between the occurrences of a separator character. -/
def splitChars (sep : Char) : List Char → List (List Char)
  | [] => [[]]
  | c :: cs =>
    if c = sep then [] :: splitChars sep cs
    else
      match splitChars sep cs with
      | [] => [[c]]
      | p :: ps => (c :: p) :: ps

/-- Embeds `strings.Split(s, sep)` for a separator of one character, which is how the transport
calls it (`":"`). A string without the separator, the empty string included, gives one
piece. -/
def Split (s : String) (sep : Char) : List String :=
  (splitChars sep s.data).map String.mk

/-- Whether the second character list starts the first. -/
def hasPrefixChars : List Char → List Char → Bool
  | _, [] => true
  | [], _ :: _ => false
  | c :: s, p :: ps => c == p && hasPrefixChars s ps

/-- Embeds `strings.HasPrefix(s, p)`. -/
def HasPrefix (s p : String) : Bool :=
  hasPrefixChars s.data p.data

end strings

/-! ## Go maps -/

/-- A Go `map[K]V`, as an association list holding at most one entry per key. -/
abbrev GoMap (κ ν : Type) := List (κ × ν)

namespace GoMap

variable {κ ν : Type} [DecidableEq κ]

/-- Embeds `v, exists := m[k]`. -/
def get (m : GoMap κ ν) (k : κ) : Option ν :=
  match m with
  | [] => none
  | (k', v) :: rest => if k' = k then some v else get rest k

/-- Embeds `delete(m, k)`. -/
def delete (m : GoMap κ ν) (k : κ) : GoMap κ ν :=
  match m with
  | [] => []
  | (k', v) :: rest => if k' = k then delete rest k else (k', v) :: delete rest k

/-- Embeds `m[k] = v`. -/
def set (m : GoMap κ ν) (k : κ) (v : ν) : GoMap κ ν :=
  (k, v) :: delete m k

end GoMap

/-! ## types -/

/-- Embeds `types.Address`, a `[20]byte`. -/
abbrev Address := Bytes

/-- Embeds `types.Hash`, a `[32]byte`. -/
abbrev Hash := Bytes

/-- Embeds `types.ID`, a `[32]byte`. -/
abbrev ID := Bytes

/-- The zero value `types.Address{}`. -/
def Address.zero : Address := List.replicate 20 0

/-- Embeds `Address.IsZero`. -/
def Address.IsZero (a : Address) : Bool := decide (a = Address.zero)

/-- The zero value `types.ID{}`. -/
def ID.zero : ID := List.replicate 32 0

/-- Embeds `ID.Hex`. -/
def ID.Hex (id : ID) : String := hex.EncodeToString id

/-- Go `copy(dst[:], src)` into a zeroed array of `n` bytes. -/
def copyInto (n : Nat) (src : Bytes) : Bytes :=
  (src ++ List.replicate n 0).take n

/-! ## net/http -/

/-- An `http.Header`, keyed by canonical header name. -/
abbrev Header := List (String × List String)

/-- Embeds `Header.Get`: the first value under the key, `""` when there is none. -/
def Header.Get (h : Header) (key : String) : String :=
  match GoMap.get h key with
  | some (v :: _) => v
  | _ => ""

/-- Embeds `Header.Set`. -/
def Header.Set (h : Header) (key value : String) : Header :=
  GoMap.set h key [value]

/-- An `http.Cookie`, with the fields the transport fills in. `Expires` is a time in the
unit of the clock of `Collaborators`. -/
structure Cookie where
  Name : String := ""
  Value : String := ""
  Path : String := ""
  Expires : Nat := 0
  deriving DecidableEq, Repr

/-- An incoming `http.Request`. `Cookies` are the cookies of its `Cookie` header in order,
`TLSPeerCertificates` is `r.TLS.PeerCertificates` (empty when `r.TLS` is nil), each
certificate standing for its public key. -/
structure Request where
  Method : String := "GET"
  Path : String := "/"
  Header : Header := []
  Cookies : List Cookie := []
  TLSPeerCertificates : List Bytes := []
  RawQuery : String := ""
  Body : String := ""
  deriving DecidableEq, Repr

/-- Embeds `Request.Cookie(name)`: the first cookie of that name, `http.ErrNoCookie` when there is
none. -/
def Request.Cookie (r : Request) (name : String) : Except Error Cookie :=
  match r.Cookies.find? (fun c => c.Name = name) with
  | some c => .ok c
  | none => .error .ErrNoCookie

/-- An `http.ResponseWriter`. `header` is the live header map without its `Set-Cookie`
entry, which is kept as the list `cookies`; `status` is set by the first `WriteHeader`
and `sentHeader`, `sentCookies` are what the header map held at that moment. -/
structure ResponseWriter where
  header : Header := []
  cookies : List Cookie := []
  status : Option Nat := none
  sentHeader : Header := []
  sentCookies : List Cookie := []
  body : String := ""
  deriving DecidableEq, Repr

namespace ResponseWriter

/-- Embeds `w.WriteHeader(code)`: only the first call takes effect. -/
def WriteHeader (w : ResponseWriter) (code : Nat) : ResponseWriter :=
  match w.status with
  | some _ => w
  | none => { w with status := some code, sentHeader := w.header, sentCookies := w.cookies }

/-- Embeds `w.Write(data)`: writes the header with status 200 when none was written yet.
The writer accepts every write; the source only logs a failed one. -/
def Write (w : ResponseWriter) (data : String) : ResponseWriter :=
  let w1 := w.WriteHeader 200
  { w1 with body := w1.body ++ data }

end ResponseWriter

namespace http

def StatusBadRequest : Nat := 400

def StatusMethodNotAllowed : Nat := 405

def StatusInternalServerError : Nat := 500

/-- Embeds `http.Error(w, error, code)`. -/
def Error (w : ResponseWriter) (error : String) (code : Nat) : ResponseWriter :=
  let h := (w.header.Set "Content-Type" "text/plain; charset=utf-8").Set
    "X-Content-Type-Options" "nosniff"
  (ResponseWriter.WriteHeader { w with header := h } code).Write (error ++ "\n")

/-- Embeds `http.SetCookie(w, cookie)`: adds a `Set-Cookie` value. -/
def SetCookie (w : ResponseWriter) (cookie : Cookie) : ResponseWriter :=
  { w with cookies := w.cookies ++ [cookie] }

end http

/-! ## crypto (signer.go) -/

/-- An `ecdsa.PublicKey`, by its coordinates. -/
structure ECDSAPublicKey where
  X : Nat
  Y : Nat
  deriving DecidableEq, Repr

/-- An `ecdsa.PrivateKey`: its public key and the secret scalar. -/
structure ECDSAPrivateKey where
  PublicKey : ECDSAPublicKey
  D : Nat
  deriving DecidableEq, Repr

/-- The functions of `github.com/ethereum/go-ethereum/crypto` that signer.go calls. -/
structure Ethereum where
  Sign : Hash → ECDSAPrivateKey → Except Error Bytes
  SigToPub : Hash → Bytes → Except Error ECDSAPublicKey
  PubkeyToAddress : ECDSAPublicKey → Bytes
  FromECDSAPub : ECDSAPublicKey → Bytes
  VerifySignature : Bytes → Bytes → Bytes → Bool

/-- The struct `signingPublicKey`. -/
structure signingPublicKey where
  PublicKey : ECDSAPublicKey
  deriving DecidableEq, Repr

namespace signingPublicKey

/-- Embeds `signingPublicKey.Bytes`. -/
def Bytes (eth : Ethereum) (pubkey : signingPublicKey) : Redwood.Bytes :=
  eth.FromECDSAPub pubkey.PublicKey

/-- Embeds `signingPublicKey.Address`. -/
def Address (eth : Ethereum) (pubkey : signingPublicKey) : Redwood.Address :=
  copyInto 20 (eth.PubkeyToAddress pubkey.PublicKey)

/-- Embeds `signingPublicKey.VerifySignature`: the last byte of the signature, the recovery
id, is cut off before the check. The result is `none` where the slice expression
`signature[:len(signature)-1]` panics, which is on the empty signature. -/
def VerifySignature (eth : Ethereum) (pubkey : signingPublicKey) (hash : Hash)
    (signature : Redwood.Bytes) : Option Bool :=
  if signature.length = 0 then none
  else
    let signatureNoRecoverID := signature.take (signature.length - 1)
    some (eth.VerifySignature (pubkey.Bytes eth) hash signatureNoRecoverID)

end signingPublicKey

/-- The struct `signingPrivateKey`. -/
structure signingPrivateKey where
  PrivateKey : ECDSAPrivateKey
  deriving DecidableEq, Repr

/-- Embeds `signingPrivateKey.SignHash`. -/
def signingPrivateKey.SignHash (eth : Ethereum) (privkey : signingPrivateKey) (hash : Hash) :
    Except Error Bytes :=
  match eth.Sign hash privkey.PrivateKey with
  | .error err => .error (.WithStack err)
  | .ok sig => .ok sig

/-- The struct `SigKeypair`. -/
structure SigKeypair where
  SigningPrivateKey : signingPrivateKey
  SigningPublicKey : signingPublicKey
  deriving DecidableEq, Repr

namespace crypto

/-- Embeds `crypto.RecoverSigningPubkey`. -/
def RecoverSigningPubkey (eth : Ethereum) (hash : Hash) (signature : Bytes) :
    Except Error signingPublicKey :=
  match eth.SigToPub hash signature with
  | .error err => .error (.WithStack err)
  | .ok ecdsaPubkey => .ok ⟨ecdsaPubkey⟩

end crypto

/-! ## swarm: peer store and key store -/

def TransportName : String := "braidhttp"

/-- Embeds `swarm.PeerDialInfo`. -/
structure PeerDialInfo where
  TransportName : String
  DialAddr : String
  deriving DecidableEq, Repr

/-- A mutating call on the `swarm.PeerStore`, with its arguments; a nil public key is
`none`, and an encryption public key is given by its bytes. -/
inductive PeerStoreCall where
  | AddDialInfo (dialInfo : PeerDialInfo) (deviceUniqueID : String)
  | AddVerifiedCredentials (dialInfo : PeerDialInfo) (deviceUniqueID : String)
      (address : Address) (sigpubkey : Option signingPublicKey) (encpubkey : Option Bytes)
  deriving DecidableEq, Repr

/-- The peer store, as the calls made to it so far, oldest first. -/
abbrev PeerStore := List PeerStoreCall

/-- The `swarm.PeerEndpoint` a peer store call returned: the call, and the calls before
it. -/
structure PeerEndpoint where
  call : PeerStoreCall
  before : PeerStore
  deriving DecidableEq, Repr

/-- Embeds `peerStore.AddDialInfo`. -/
def PeerStore.AddDialInfo (ps : PeerStore) (dialInfo : PeerDialInfo)
    (deviceUniqueID : String) : PeerStore × PeerEndpoint :=
  let call := PeerStoreCall.AddDialInfo dialInfo deviceUniqueID
  (ps ++ [call], ⟨call, ps⟩)

/-- Embeds `peerStore.AddVerifiedCredentials`. -/
def PeerStore.AddVerifiedCredentials (ps : PeerStore) (dialInfo : PeerDialInfo)
    (deviceUniqueID : String) (address : Address) (sigpubkey : Option signingPublicKey)
    (encpubkey : Option Bytes) : PeerStore × PeerEndpoint :=
  let call :=
    PeerStoreCall.AddVerifiedCredentials dialInfo deviceUniqueID address sigpubkey encpubkey
  (ps ++ [call], ⟨call, ps⟩)

/-- Embeds `identity.PublicIdentity`, by the address of its signing public key. -/
structure PublicIdentity where
  address : Address
  deriving DecidableEq, Repr

/-- Embeds `PublicIdentity.Address`. -/
def PublicIdentity.Address (p : PublicIdentity) : Address := p.address

/-- The methods of `identity.KeyStore` that the cookie code calls. -/
structure KeyStore where
  DefaultPublicIdentity : Except Error PublicIdentity
  SignHash : Address → Hash → Except Error Bytes
  VerifySignature : Address → Hash → Bytes → Except Error Bool

/-- Modelled from the spec: the key store (package `identity`, absent), which offers
"default identity, sign hash, verify signature". It holds signing key pairs, the first
being the default identity; `SignHash` and `VerifySignature` look the key pair up by
address and sign with its private key, respectively verify under its public key, through
the methods of signer.go. A panic of `signingPublicKey.VerifySignature` is rendered as an
error result. -/
def keyStoreOf (eth : Ethereum) (identities : List SigKeypair) : KeyStore where
  DefaultPublicIdentity :=
    match identities with
    | [] => .error (.New "no identity")
    | kp :: _ => .ok ⟨kp.SigningPublicKey.Address eth⟩
  SignHash := fun usingIdentity hash =>
    match identities.find? (fun kp => kp.SigningPublicKey.Address eth = usingIdentity) with
    | none => .error (.New "no identity")
    | some kp => kp.SigningPrivateKey.SignHash eth hash
  VerifySignature := fun usingIdentity hash signature =>
    match identities.find? (fun kp => kp.SigningPublicKey.Address eth = usingIdentity) with
    | none => .error (.New "no identity")
    | some kp =>
      match kp.SigningPublicKey.VerifySignature eth hash signature with
      | none => .error (.New "runtime error: slice bounds out of range [:-1]")
      | some valid => .ok valid

/-! ## the transport -/

/-- The mutable part of the struct `transport`, with the fields the embedded code reads.
`ownURLs` is a `types.StringSet`, `peerStore` the history of the calls on the peer
store. -/
structure transport where
  ownURLs : List String := []
  defaultStateURI : String := ""
  listenAddr : String := ""
  listenAddrSSL : String := ""
  cookieSecret : Bytes := List.replicate 32 0
  jwtSecret : Bytes := []
  pendingAuthorizations : GoMap ID Bytes := []
  peerStore : PeerStore := []
  deriving DecidableEq, Repr

/-- The struct `peerConn`: the session id, whether a stream writer and flusher are attached,
and the endpoint the peer store returned. -/
structure peerConn where
  sessionID : ID
  streamWriter : Bool
  streamFlusher : Bool
  PeerEndpoint : PeerEndpoint
  deriving DecidableEq, Repr

/-- Modelled from the spec: `peerConn.DialInfo` (peer_conn.go is absent), the target dial
address the handle carries, which is the one its endpoint was asked for. -/
def peerConn.DialInfo (p : peerConn) : PeerDialInfo :=
  match p.PeerEndpoint.call with
  | .AddDialInfo dialInfo _ => dialInfo
  | .AddVerifiedCredentials dialInfo _ _ _ _ => dialInfo

/-- Modelled from the spec: `peerConn.DeviceUniqueID` (peer_conn.go is absent), the device
unique id the handle carries, which is the one its endpoint was asked for. -/
def peerConn.DeviceUniqueID (p : peerConn) : String :=
  match p.PeerEndpoint.call with
  | .AddDialInfo _ deviceUniqueID => deviceUniqueID
  | .AddVerifiedCredentials _ deviceUniqueID _ _ _ => deviceUniqueID

/-- A value of a JWT claims map, as far as the type assertion `.(string)` tells them
apart. -/
inductive ClaimValue where
  | string (s : String)
  | other
  deriving DecidableEq, Repr

/-- The claims of a JWT, a `map[string]interface{}`. -/
abbrev Claims := GoMap String ClaimValue

/-- The endpoint handlers `ServeHTTP` chooses between. -/
inductive Endpoint where
  | serveChallengeIdentityResponse
  | serveChallengeIdentity
  | serveChallengeIdentityCheckResponse
  | serveWSSubscription
  | serveHTTPSubscription
  | serveRedwoodJS
  | serveGetTx
  | serveGetState
  | servePostBlob
  | serveAck
  | servePostPrivateTx
  | servePostTx
  deriving DecidableEq, Repr

/-- Everything the embedded code calls that lies outside the embedded sources, together
with the values that randomness and the clock produce during the request at hand.

* `errText` is `err.Error()`.
* `RandomID` is the result of `types.RandomID()`, `GenerateChallengeMsg` that of
  `protoauth.GenerateChallengeMsg()`, `timeNow` that of `time.Now()`.
* `UnmarshalJWT` is `utils.UnmarshalHTTPRequest` on the struct with the single field
  `JWT`, read from the `Authorization` header or the `ucan` query parameter.
* `ParseJWT` gives `.error err`, `.ok none` for `exists = false`, or `.ok (some claims)`.
* `forEachAltSvcHeaderPeer` gives the `(transportName, dialAddr)` pairs the callback is
  called with, in order.
* `HandleChallengeIdentity` is the callback of `protoauth.BaseAuthTransport`; it answers
  through the writer of the peer connection.
* `serve` runs the endpoint handler `ServeHTTP` has chosen; `transport.serveEndpoint` gives
  the handlers of the source. -/
structure Collaborators where
  keyStore : KeyStore
  eth : Ethereum
  HashBytes : Bytes → Hash
  AddressFromBytes : Bytes → Address
  AddressFromHex : String → Except Error Address
  IDFromBytes : Bytes → ID
  errText : Error → String
  RandomID : ID
  GenerateChallengeMsg : Except Error Bytes
  timeNow : Nat
  AddDate : Nat → Int → Int → Int → Nat
  UnmarshalJWT : Request → Except Error String
  ParseJWT : String → Bytes → Except Error (Option Claims)
  DeviceIDFromX509Pubkey : Bytes → String
  AllDialInfos : PeerStore → List PeerDialInfo
  makeAltSvcHeader : List PeerDialInfo → String
  forEachAltSvcHeaderPeer : String → List (String × String)
  HandleChallengeIdentity :
    Bytes → peerConn → transport → ResponseWriter → Option Error × transport × ResponseWriter
  serve :
    Endpoint → transport → Request → peerConn → Address → ResponseWriter →
      transport × ResponseWriter

namespace transport

/-- Embeds `transport.makePeerConn`. -/
def makePeerConn (t : transport) (writer flusher : Bool) (dialAddr : String)
    (sessionID : ID) (deviceUniqueID : String) (address : Address) : transport × peerConn :=
  let ps1 :=
    if !address.IsZero then
      (t.peerStore.AddVerifiedCredentials ⟨TransportName, dialAddr⟩ deviceUniqueID address
        none none).1
    else t.peerStore
  let (ps2, endpoint) := PeerStore.AddDialInfo ps1 ⟨TransportName, dialAddr⟩ deviceUniqueID
  ({ t with peerStore := ps2 },
    { sessionID := sessionID, streamWriter := writer, streamFlusher := flusher,
      PeerEndpoint := endpoint })

/-- Embeds `transport.NewPeerConn`. -/
def NewPeerConn (t : transport) (dialAddr : String) : transport × Except Error peerConn :=
  if dialAddr ∈ t.ownURLs ∨ strings.HasPrefix dialAddr "localhost" = true then
    (t, .error (.WithStack .ErrPeerIsSelf))
  else
    let (t1, peer) := t.makePeerConn false false dialAddr ID.zero "" Address.zero
    (t1, .ok peer)

/-- Embeds `transport.makeSignedCookie`. -/
def makeSignedCookie (c : Collaborators) (t : transport) (name : String) (value : Bytes) :
    Except Error Cookie :=
  match c.keyStore.DefaultPublicIdentity with
  | .error err => .error err
  | .ok publicIdentity =>
    match c.keyStore.SignHash publicIdentity.Address (c.HashBytes (value ++ t.cookieSecret)) with
    | .error err => .error err
    | .ok sig =>
      .ok { Name := name
            Value := hex.EncodeToString value ++ ":" ++ hex.EncodeToString sig
            Expires := c.AddDate c.timeNow 0 0 1
            Path := "/" }

/-- Embeds `transport.signedCookie`. -/
def signedCookie (c : Collaborators) (t : transport) (r : Request) (name : String) :
    Except Error Bytes :=
  match r.Cookie name with
  | .error err =>
    if errors.Cause err = .ErrNoCookie then .error .Err404 else .error err
  | .ok cookie =>
    let parts := strings.Split cookie.Value ':'
    match parts with
    | [part0, part1] =>
      match hex.DecodeString part0 with
      | .error err =>
        .error (.Wrapf .ErrBadCookie
          ("cookie '" ++ name ++ "' bad hex value: " ++ c.errText err))
      | .ok value =>
        match hex.DecodeString part1 with
        | .error err =>
          .error (.Wrapf .ErrBadCookie
            ("cookie '" ++ name ++ "' bad hex signature: " ++ c.errText err))
        | .ok sig =>
          match c.keyStore.DefaultPublicIdentity with
          | .error err => .error err
          | .ok publicIdentity =>
            match c.keyStore.VerifySignature publicIdentity.Address
                (c.HashBytes (value ++ t.cookieSecret)) sig with
            | .error err => .error err
            | .ok valid =>
              if !valid then
                .error (.Wrapf .ErrBadCookie
                  ("cookie '" ++ name ++ "' has invalid signature (value: " ++
                    hex.EncodeToString value ++ ")"))
              else .ok value
    | _ =>
      .error (.Wrapf .ErrBadCookie
        ("cookie '" ++ name ++ "' has " ++ toString parts.length ++ " parts"))

/-- Embeds `transport.setSignedCookieOnResponse`. -/
def setSignedCookieOnResponse (c : Collaborators) (t : transport) (w : ResponseWriter)
    (name : String) (value : Bytes) : Option Error × ResponseWriter :=
  let w1 := { w with cookies := [] }
  match makeSignedCookie c t name value with
  | .error err => (some err, w1)
  | .ok cookie => (none, http.SetCookie w1 cookie)

/-- Embeds `transport.setSessionIDCookieOnResponse`: the session id is returned next to the
error. -/
def setSessionIDCookieOnResponse (c : Collaborators) (t : transport) (w : ResponseWriter) :
    ID × Option Error × ResponseWriter :=
  let sessionID := c.RandomID
  let (err, w1) := setSignedCookieOnResponse c t w "sessionid" sessionID
  (sessionID, err, w1)

/-- Embeds `transport.ensureSessionIDCookieOnResponse`. -/
def ensureSessionIDCookieOnResponse (c : Collaborators) (t : transport) (w : ResponseWriter)
    (r : Request) : ID × Option Error × ResponseWriter :=
  match signedCookie c t r "sessionid" with
  | .error _ => setSessionIDCookieOnResponse c t w
  | .ok sessionIDBytes => (c.IDFromBytes sessionIDBytes, none, w)

/-- Embeds `transport.addressFromRequest`. -/
def addressFromRequest (c : Collaborators) (t : transport) (r : Request) :
    Except Error Address :=
  match c.UnmarshalJWT r with
  | .error err => .error err
  | .ok jwt =>
    let parsed : Except Error (Option Claims) :=
      match c.ParseJWT jwt t.jwtSecret with
      | .error err => .error err
      | .ok none => c.ParseJWT jwt t.jwtSecret
      | .ok (some claims) => .ok (some claims)
    match parsed with
    | .error err => .error err
    | .ok (some claims) =>
      match GoMap.get claims "address" with
      | some (.string addrHex) =>
        match c.AddressFromHex addrHex with
        | .error err => .error (.Wrapf err "jwt 'address' claim contains invalid data")
        | .ok addr => .ok addr
      | _ => .error (.New "jwt does not contain 'address' claim")
    | .ok none =>
      match signedCookie c t r "address" with
      | .error err =>
        if errors.Cause err = .Err404 then .ok Address.zero else .error err
      | .ok addressBytes => .ok (c.AddressFromBytes addressBytes)

/-- Embeds `transport.storeAltSvcHeaderPeers`. -/
def storeAltSvcHeaderPeers (c : Collaborators) (t : transport) (h : Header) : transport :=
  let altSvcHeader := h.Get "Alt-Svc"
  if altSvcHeader ≠ "" then
    (c.forEachAltSvcHeaderPeer altSvcHeader).foldl
      (fun t1 peer =>
        { t1 with peerStore := (t1.peerStore.AddDialInfo ⟨peer.1, peer.2⟩ "").1 })
      t
  else t

/-- Embeds `transport.serveChallengeIdentityResponse` (phase 1). -/
def serveChallengeIdentityResponse (c : Collaborators) (t : transport) (w : ResponseWriter)
    (peerConn : peerConn) (challengeMsgHex : String) : transport × ResponseWriter :=
  match hex.DecodeString challengeMsgHex with
  | .error _ => (t, http.Error w "Challenge header: bad challenge message" http.StatusBadRequest)
  | .ok challengeMsg =>
    match c.HandleChallengeIdentity challengeMsg peerConn t w with
    | (some err, t1, w1) => (t1, http.Error w1 (c.errText err) http.StatusInternalServerError)
    | (none, t1, w1) => (t1, w1)

/-- Embeds `transport.serveChallengeIdentity` (phase 2a). -/
def serveChallengeIdentity (c : Collaborators) (t : transport) (w : ResponseWriter)
    (peerConn : peerConn) : transport × ResponseWriter :=
  match c.GenerateChallengeMsg with
  | .error err => (t, http.Error w (c.errText err) http.StatusInternalServerError)
  | .ok challenge =>
    let t1 := { t with
      pendingAuthorizations := GoMap.set t.pendingAuthorizations peerConn.sessionID challenge }
    let challengeHex := hex.EncodeToString challenge
    (t1, w.Write challengeHex)

/-- Embeds `transport.serveChallengeIdentityCheckResponse` (phase 2b). -/
def serveChallengeIdentityCheckResponse (c : Collaborators) (t : transport)
    (w : ResponseWriter) (peerConn : peerConn) (responseHex : String) :
    transport × ResponseWriter :=
  match GoMap.get t.pendingAuthorizations peerConn.sessionID with
  | none => (t, http.Error w "no pending authorization" http.StatusBadRequest)
  | some challenge =>
    match hex.DecodeString responseHex with
    | .error err => (t, http.Error w (c.errText err) http.StatusBadRequest)
    | .ok sig =>
      match crypto.RecoverSigningPubkey c.eth (c.HashBytes challenge) sig with
      | .error err => (t, http.Error w (c.errText err) http.StatusBadRequest)
      | .ok sigpubkey =>
        let addr := sigpubkey.Address c.eth
        match setSignedCookieOnResponse c t w "address" addr with
        | (some err, w1) => (t, http.Error w1 (c.errText err) http.StatusInternalServerError)
        | (none, w1) =>
          let ps := (t.peerStore.AddVerifiedCredentials ⟨TransportName, ""⟩
            peerConn.DeviceUniqueID addr (some sigpubkey) none).1
          ({ t with
              peerStore := ps
              pendingAuthorizations := GoMap.delete t.pendingAuthorizations peerConn.sessionID },
            w1)

/-- What one call of `ServeHTTP` leaves behind: the transport, the response, and the
endpoint handlers that were invoked, in order. -/
structure Served where
  t : transport
  w : ResponseWriter
  ran : List Endpoint
  deriving DecidableEq, Repr

/-- The `case "AUTHORIZE"` of the method switch of `ServeHTTP`. -/
def serveAuthorize (c : Collaborators) (t : transport) (w : ResponseWriter) (r : Request)
    (peerConn : peerConn) : Served :=
  let challengeMsgHex := r.Header.Get "Challenge"
  if challengeMsgHex ≠ "" then
    let (t1, w1) := serveChallengeIdentityResponse c t w peerConn challengeMsgHex
    ⟨t1, w1, [.serveChallengeIdentityResponse]⟩
  else
    let responseHex := r.Header.Get "Response"
    if responseHex = "" then
      let (t1, w1) := serveChallengeIdentity c t w peerConn
      ⟨t1, w1, [.serveChallengeIdentity]⟩
    else
      let (t1, w1) := serveChallengeIdentityCheckResponse c t w peerConn responseHex
      ⟨t1, w1, [.serveChallengeIdentityCheckResponse]⟩

/-- An endpoint handler called by `ServeHTTP`, run through `Collaborators.serve`. -/
def runEndpoint (c : Collaborators) (e : Endpoint) (t : transport) (w : ResponseWriter)
    (r : Request) (peerConn : peerConn) (address : Address) : Served :=
  let (t1, w1) := c.serve e t r peerConn address w
  ⟨t1, w1, [e]⟩

/-- Embeds `transport.ServeHTTP`. The request dump behind `HTTP_DUMP_REQUESTS` and the log lines
are left out, they touch neither the transport nor the response. -/
def ServeHTTP (c : Collaborators) (t : transport) (w : ResponseWriter) (r : Request) :
    Served :=
  match ensureSessionIDCookieOnResponse c t w r with
  | (_, some err, w1) =>
    ⟨t, http.Error w1 (c.errText err) http.StatusInternalServerError, []⟩
  | (sessionID, none, w1) =>
    match addressFromRequest c t r with
    | .error err => ⟨t, http.Error w1 (c.errText err) http.StatusBadRequest, []⟩
    | .ok address =>
      let duID :=
        match r.TLSPeerCertificates with
        | cert :: _ => c.DeviceIDFromX509Pubkey cert
        | [] => ID.Hex sessionID
      let (t1, peerConn) := t.makePeerConn true false "" sessionID duID address
      let altSvcHeader := c.makeAltSvcHeader (c.AllDialInfos t1.peerStore)
      let w2 := { w1 with header := w1.header.Set "Alt-Svc" altSvcHeader }
      let t2 := storeAltSvcHeaderPeers c t1 r.Header
      if r.Method = "HEAD" then ⟨t2, w2, []⟩
      else if r.Method = "OPTIONS" then ⟨t2, w2, []⟩
      else if r.Method = "AUTHORIZE" then serveAuthorize c t2 w2 r peerConn
      else if r.Method = "GET" then
        if r.Path = "/ws" then runEndpoint c .serveWSSubscription t2 w2 r peerConn address
        else if r.Header.Get "Subscribe" ≠ "" then
          runEndpoint c .serveHTTPSubscription t2 w2 r peerConn address
        else if r.Path = "/redwood.js" then
          runEndpoint c .serveRedwoodJS t2 w2 r peerConn address
        else if strings.HasPrefix r.Path "/__tx/" = true then
          runEndpoint c .serveGetTx t2 w2 r peerConn address
        else runEndpoint c .serveGetState t2 w2 r peerConn address
      else if r.Method = "POST" then
        if r.Header.Get "Blob" = "true" then
          runEndpoint c .servePostBlob t2 w2 r peerConn address
        else ⟨t2, w2, []⟩
      else if r.Method = "ACK" then runEndpoint c .serveAck t2 w2 r peerConn address
      else if r.Method = "PUT" then
        if r.Header.Get "Private" = "true" then
          runEndpoint c .servePostPrivateTx t2 w2 r peerConn address
        else runEndpoint c .servePostTx t2 w2 r peerConn address
      else ⟨t2, http.Error w2 "unsupported method" http.StatusMethodNotAllowed, []⟩

end transport

/-! ## Bit flips -/

/-- The byte string with bit `i` flipped, bits counted from the lowest bit of the first
byte; unchanged when `i` is past the end. -/
def flipBit : Bytes → Nat → Bytes
  | [], _ => []
  | b :: bs, i => if i < 8 then Fin.ofNat (b.val ^^^ (1 <<< i)) :: bs else b :: flipBit bs (i - 8)

/-! ## A concrete node, for evaluating the definitions -/

namespace Example

/-- A stand-in signature scheme: the signature of a hash under the secret scalar `D` is
the hash with `D` added to every byte, followed by a recovery id byte `0`. -/
def eth : Ethereum where
  Sign := fun hash priv => .ok (hash.map (fun b => b + Fin.ofNat priv.D) ++ [0])
  SigToPub := fun hash sig =>
    match hash, sig with
    | h :: _, s :: _ =>
      if sig.length = hash.length + 1 ∧
          sig.take hash.length = hash.map (fun b => b + (s - h)) then
        .ok ⟨(s - h).val, 0⟩
      else .error (.New "recovery failed")
    | _, _ => .error (.New "invalid signature length")
  PubkeyToAddress := fun pub => [Fin.ofNat pub.X]
  FromECDSAPub := fun pub => [Fin.ofNat pub.X]
  VerifySignature := fun pubkey hash sig =>
    match pubkey with
    | [k] => decide (sig = hash.map (fun b => b + k))
    | _ => false

/-- The key pair of the node: secret scalar 7. -/
def keypair : SigKeypair :=
  ⟨⟨⟨⟨7, 0⟩, 7⟩⟩, ⟨⟨7, 0⟩⟩⟩

/-- A stand-in hash: the sum of the bytes, and the length. -/
def HashBytes (bs : Bytes) : Hash :=
  [bs.foldl (fun a b => a + b) 0, Fin.ofNat bs.length]

/-- A JWT stand-in: the token `"jwt-noaddr"` validates with an empty claims map, the token
`"jwt-addr"` with an `address` claim, the empty token does not exist, anything else is
invalid. -/
def ParseJWT (jwt : String) (_secret : Bytes) : Except Error (Option Claims) :=
  if jwt = "" then .ok none
  else if jwt = "jwt-noaddr" then .ok (some [])
  else if jwt = "jwt-addr" then .ok (some [("address", .string "0909")])
  else .error (.New "invalid token")

/-- The collaborators of the example node. -/
def c : Collaborators where
  keyStore := keyStoreOf eth [keypair]
  eth := eth
  HashBytes := HashBytes
  AddressFromBytes := copyInto 20
  AddressFromHex := fun s =>
    match hex.DecodeString s with
    | .error err => .error err
    | .ok bs => .ok (copyInto 20 bs)
  IDFromBytes := copyInto 32
  errText := fun _ => "error"
  RandomID := copyInto 32 [5]
  GenerateChallengeMsg := .ok [0xc0, 0xff, 0xee]
  timeNow := 1000
  AddDate := fun now _ _ d => now + 86400 * d.toNat
  UnmarshalJWT := fun r => .ok (r.Header.Get "Authorization")
  ParseJWT := ParseJWT
  DeviceIDFromX509Pubkey := fun cert => hex.EncodeToString cert
  AllDialInfos := fun ps =>
    ps.map fun call =>
      match call with
      | .AddDialInfo d _ => d
      | .AddVerifiedCredentials d _ _ _ _ => d
  makeAltSvcHeader := fun ds => String.intercalate "," (ds.map fun d => d.DialAddr)
  forEachAltSvcHeaderPeer := fun _ => []
  HandleChallengeIdentity := fun _ _ t w => (none, t, w)
  serve := fun _ t _ _ _ w => (t, w)

/-- The example node: one own URL and the cookie secret 1, 2, 3, ... -/
def t : transport :=
  { ownURLs := ["https://localhost:21232"], cookieSecret := [1, 2, 3] }

/-- A session id. -/
def session : ID := copyInto 32 [5]

/-- A peer connection of that session, as `ServeHTTP` makes it. -/
def peer : peerConn :=
  (transport.makePeerConn t true false "" session "device" Address.zero).2

end Example


/-! ## More of the example node -/

namespace Example

/-- The collaborators of a node whose key store holds no identity, so that no cookie can
be signed. -/
def cNoIdentity : Collaborators :=
  { c with keyStore := keyStoreOf eth [] }

/-- The `sessionid` cookie the example node mints for the session `session`. -/
def sessionCookie : Cookie :=
  ⟨"sessionid", "0500000000000000000000000000000000000000000000000000000000000000:122a00",
    "/", 87400⟩

end Example

namespace Example

/-- The example collaborators with an `Alt-Svc` encoding that shows the number of dial
infos. -/
def cGossip : Collaborators :=
  { c with makeAltSvcHeader := fun ds => "peers=" ++ toString ds.length }

end Example

/-! ## strings, strconv, bufio, utils

From here on strings are sliced by byte position, so a character stands for one byte of
the Go string. -/

namespace strings

/-- The text before and the text after the first occurrence of a separator character,
`none` when it does not occur (`strings.Cut`). -/
def cutChars (sep : Char) : List Char → Option (List Char × List Char)
  | [] => none
  | c :: cs =>
    if c = sep then some ([], cs)
    else
      match cutChars sep cs with
      | none => none
      | some (a, b) => some (c :: a, b)

/-- Embeds `strings.SplitN(s, sep, 2)` for a separator of one character: the string is cut
at the first separator, and comes back whole when there is none. -/
def SplitN2 (s : String) (sep : Char) : List String :=
  match cutChars sep s.data with
  | none => [s]
  | some (a, b) => [⟨a⟩, ⟨b⟩]

/-- Embeds `strings.Join(elems, sep)`. -/
def Join : List String → String → String
  | [], _ => ""
  | [a], _ => a
  | a :: b :: rest, sep => a ++ sep ++ Join (b :: rest) sep

end strings

namespace strconv

/-- The value of a non-empty string of decimal digits, `none` for anything else. -/
def parseDigits : List Char → Option Nat
  | [] => none
  | cs =>
    cs.foldl
      (fun acc c =>
        match acc with
        | none => none
        | some n =>
          if '0'.toNat ≤ c.toNat ∧ c.toNat ≤ '9'.toNat then some (n * 10 + (c.toNat - '0'.toNat))
          else none)
      (some 0)

/-- Embeds `strconv.ParseInt(s, 10, 64)`: an optional sign, then decimal digits; the value
has to lie between `-2^63` and `2^63 - 1`. -/
def ParseInt (s : String) : Except Error Int :=
  match s.data with
  | [] => .error (.New "invalid syntax")
  | c :: cs =>
    let neg := decide (c = '-')
    let digits := if c = '+' ∨ c = '-' then cs else c :: cs
    match parseDigits digits with
    | none => .error (.New "invalid syntax")
    | some un =>
      if !neg ∧ un ≥ 2 ^ 63 then .error (.New "value out of range")
      else if neg ∧ un > 2 ^ 63 then .error (.New "value out of range")
      else .ok (if neg then -(un : Int) else (un : Int))

end strconv

namespace utils

/-- Embeds `utils.FilterEmptyStrings`. -/
def FilterEmptyStrings : List String → List String
  | [] => []
  | s :: rest => if s = "" then FilterEmptyStrings rest else s :: FilterEmptyStrings rest

end utils

namespace bufio

/-- The constant `bufio.MaxScanTokenSize`. -/
def MaxScanTokenSize : Nat := 64 * 1024

/-- The function `dropCR` of `bufio`: a final carriage return is dropped. -/
def dropCR (line : List Char) : List Char :=
  match line.getLast? with
  | some '\r' => line.dropLast
  | _ => line

/-- The raw lines of a text, as `bufio.ScanLines` cuts them: each newline ends a line, and
text after the last newline is a line when it is not empty. `cur` holds the characters of
the line being read, last first. -/
def rawLines : List Char → List Char → List (List Char)
  | [], cur => if cur = [] then [] else [cur.reverse]
  | c :: cs, cur => if c = '\n' then cur.reverse :: rawLines cs [] else rawLines cs (c :: cur)

/-- A `bufio.Scanner` with the default split function run over a whole text: the tokens
`Scan` yields, in order, and the error `Err` reports afterwards. A raw line of
`MaxScanTokenSize` bytes or more ends the scan with `bufio.ErrTooLong`. -/
def scan (text : String) : List String × Option Error :=
  let raw := rawLines text.data []
  let good := raw.takeWhile (fun l => l.length < MaxScanTokenSize)
  (good.map (fun l => ⟨dropCR l⟩),
    if good.length < raw.length then some (.New "bufio.Scanner: token too long") else none)

end bufio

/-! ## state, tree -/

/-- A `state.Keypath`. -/
abbrev Keypath := String

/-- A `state.Version`, a `[32]byte`. -/
abbrev Version := Bytes

/-- Embeds `Version.Hex`. -/
def Version.Hex (v : Version) : String := hex.EncodeToString v

/-- A `state.Range`. -/
structure Range where
  Start : Int
  End : Int
  deriving DecidableEq, Repr

/-- A parsed `tree.Patch`, by its rendering. -/
abbrev Patch := String

/-- A `tree.Tx`. -/
structure Tx where
  ID : Version := []
  Parents : List Version := []
  From : Address := Address.zero
  Sig : Bytes := []
  Patches : List Patch := []
  Attachment : Bytes := []
  StateURI : String := ""
  Checkpoint : Bool := false
  deriving DecidableEq, Repr

namespace Keypath

/-- Modelled from the spec: `state.KeypathSeparator` (package `state` is absent); a keypath
is "a slash-separated path into a state node". -/
def Separator : String := "/"

/-- Modelled from the spec: `Keypath.Parts` (package `state` is absent), the parts between
the separators; the empty keypath has none. -/
def Parts (k : Keypath) : List Keypath :=
  if k = "" then [] else strings.Split k '/'

/-- Modelled from the spec: `state.JoinKeypaths` (package `state` is absent), the parts
with the separator between them. -/
def JoinKeypaths (parts : List Keypath) (sep : String) : Keypath :=
  strings.Join parts sep

/-- The position of the first occurrence of a character, `none` when there is none. -/
def indexChars (c : Char) : List Char → Option Nat
  | [] => none
  | x :: xs => if x = c then some 0 else (indexChars c xs).map (· + 1)

/-- Embeds `Keypath.IndexByte`, which is `bytes.IndexByte`; `none` stands for the result
`-1`. -/
def IndexByte (k : Keypath) (c : Char) : Option Nat :=
  indexChars c k.data

end Keypath

namespace Keypath

/-- Modelled from the spec: `Keypath.Push` (package `state` is absent), the keypath with one
more part at its end. -/
def Push (k part : Keypath) : Keypath :=
  if k = "" then part else k ++ Separator ++ part

/-- Modelled from the spec: `Keypath.Part(-1)` (package `state` is absent), the last part
of a keypath, empty for the empty keypath. -/
def lastPart (k : Keypath) : Keypath :=
  (Parts k).getLast?.getD ""

end Keypath

/-- Embeds `Header.Add`: one more value under the key. -/
def Header.Add (h : Header) (key value : String) : Header :=
  GoMap.set h key ((GoMap.get h key).getD [] ++ [value])

/-! ## the state GET handler -/

/-- A `state.Node` held by the controller hub, by a handle. -/
structure Node where
  handle : Nat
  deriving DecidableEq, Repr

/-- A value read from a node (an `interface{}`), by its rendering. -/
abbrev NodeValue := String

/-- A call that resolves state: on the controller hub, or `nelson.Seek`. -/
inductive HubCall where
  | Leaves (stateURI : String)
  | FetchTx (stateURI : String) (id : Version)
  | QueryIndex (stateURI : String) (version : Option Version) (keypath indexName : Keypath)
      (indexArg : Option Keypath) (rng : Option Range)
  | StateAtVersion (stateURI : String) (version : Option Version)
  | Seek (node : Node) (keypath : Keypath)
  deriving DecidableEq, Repr

/-- What `serveGetState` and `serveGetTx` call outside the embedded sources.

* `UnmarshalGetState` is `utils.UnmarshalHTTPRequest` on the struct with the fields
  `StateURI` and `Version`.
* `QueryGet` is `r.URL.Query().Get(key)`.
* `Seek` gives `.error err`, `.ok none` for `exists = false`, or `.ok (some node)`; the
  same holds for `GetValueRecursive` and `Value`.
* `GetReadCloser` gives `none` for `ok = false`, else what the reader yields and the error
  it ends with, if any; `io.Copy` writes what it yields, when that is not empty.
* `jsonMarshal` is `json.Marshal`. -/
structure StateDeps where
  UnmarshalGetState : Request → Except Error (String × Option Version)
  QueryGet : Request → String → String
  EncodeSliceIndex : Nat → Keypath
  Leaves : String → Except Error (List Version)
  FetchTx : String → Version → Except Error Tx
  parseIndexParams : Request → String × String
  parseRawParam : Request → Except Error Bool
  QueryIndex :
    String → Option Version → Keypath → Keypath → Option Keypath → Option Range →
      Except Error Node
  StateAtVersion : String → Option Version → Except Error Node
  NodeAt : Node → Keypath → Option Range → Node
  Seek : Node → Keypath → Except Error (Option Node)
  Exists : Node → Keypath → Except Error Bool
  GetContentType : Node → Except Error String
  GuessContentTypeFromFilename : String → String
  GetContentLength : Node → Except Error Int
  Length : Node → Except Error Nat
  GetValueRecursive : Node → Except Error (Option NodeValue)
  Value : Node → Except Error (Option NodeValue)
  GetReadCloser : NodeValue → Option (String × Option Error)
  jsonMarshal : NodeValue → Except Error String

/-- What a handler leaves behind: the response, the state-resolving calls it made, in
order, and the message of the run-time panic it ended with, if any. -/
structure Handled where
  w : ResponseWriter
  calls : List HubCall := []
  panicked : Option String := none
  deriving DecidableEq, Repr

/-- The outcome of a step of a handler: a value to go on with, the answer 400 with a
message, or a run-time panic with its message. -/
inductive Step (α : Type) where
  | ok (a : α)
  | badRequest (msg : String)
  | panic (msg : String)
  deriving DecidableEq, Repr

namespace transport

/-- The body of the loop over the keypath parts in `serveGetState`: a part with a `[` gives
the text before it and the encoded number between the `[` and the last byte of the part; a
part without gives itself. The slice `part[idx+1:len(part)-1]` panics when the first `[`
is the last byte. -/
def getStatePart (d : StateDeps) (part : Keypath) : Step (List Keypath) :=
  match part.IndexByte '[' with
  | some idx =>
    if idx + 1 > part.length - 1 then
      .panic ("slice bounds out of range [" ++ toString (idx + 1) ++ ":" ++
        toString (part.length - 1) ++ "]")
    else
      match strconv.ParseInt ⟨(part.data.drop (idx + 1)).take (part.length - 1 - (idx + 1))⟩ with
      | .error _ => .badRequest "bad slice index"
      | .ok x => .ok [⟨part.data.take idx⟩, d.EncodeSliceIndex (x % 2 ^ 64).toNat]
  | none => .ok [part]

/-- The loop over the keypath parts in `serveGetState`, which stops at the first part that
fails. -/
def getStateParts (d : StateDeps) : List Keypath → Step (List Keypath)
  | [] => .ok []
  | part :: rest =>
    match getStatePart d part with
    | .ok new =>
      match getStateParts d rest with
      | .ok newRest => .ok (new ++ newRest)
      | other => other
    | other => other

/-- The keypath of a state GET, lines 626 to 651 of `serveGetState`; `pathTail` is
`r.URL.Path[1:]`. -/
def getStateKeypath (d : StateDeps) (pathTail : String) : Step Keypath :=
  let keypathStrs := utils.FilterEmptyStrings (strings.Split pathTail '/')
  let keypathStr := strings.Join keypathStrs Keypath.Separator
  let parts := Keypath.Parts keypathStr
  match getStateParts d parts with
  | .ok newParts => .ok (Keypath.JoinKeypaths newParts "/")
  | .badRequest msg => .badRequest msg
  | .panic msg => .panic msg

/-- The range of a state GET, lines 653 to 682 of `serveGetState`; the error is the
message of the answer 400. -/
def getStateRange (rstr : String) : Except String (Option Range) :=
  if rstr ≠ "" ∧ rstr ≠ "bytes=0-" then
    match strings.SplitN2 rstr '=' with
    | [part0, part1] =>
      if part0 ≠ "json" then .error "bad Range header"
      else
        match strings.SplitN2 part1 ':' with
        | [s, e] =>
          match strconv.ParseInt s with
          | .error _ => .error "bad Range header"
          | .ok start =>
            match strconv.ParseInt e with
            | .error _ => .error "bad Range header"
            | .ok end_ => .ok (some ⟨start, end_⟩)
        | _ => .error "bad Range header"
    | _ => .error "bad Range header"
  else .ok none

/-- The second half of `serveGetState`, from line 711 on: the node is resolved and sent.
`calls` are the state-resolving calls made so far. The source names `stateURI` and
`version` in the index query, which are the fields of the request. The flag `anyMissing`
is never set in the source, so the status 206 is never written. -/
def serveGetStateNode (c : Collaborators) (d : StateDeps) (w : ResponseWriter) (r : Request)
    (stateURI : String) (version : Option Version) (keypath : Keypath) (rng : Option Range)
    (calls : List HubCall) : Handled :=
  let (indexName, indexArg) := d.parseIndexParams r
  match d.parseRawParam r with
  | .error err => ⟨http.Error w ("error: " ++ c.errText err) http.StatusBadRequest, calls, none⟩
  | .ok raw =>
    let resolved : Except Handled (Node × Keypath × List HubCall) :=
      if indexName ≠ "" then
        let indexArgKeypath : Option Keypath := if indexArg ≠ "*" then some indexArg else none
        let calls1 := calls ++ [.QueryIndex stateURI version keypath indexName indexArgKeypath rng]
        match d.QueryIndex stateURI version keypath indexName indexArgKeypath rng with
        | .error err =>
          if errors.Cause err = .Err404 then
            .error ⟨http.Error w ("not found: " ++ c.errText err) 404, calls1, none⟩
          else
            .error ⟨http.Error w ("error: " ++ c.errText err) http.StatusInternalServerError,
              calls1, none⟩
        | .ok node => .ok (node, keypath, calls1)
      else
        let calls1 := calls ++ [.StateAtVersion stateURI version]
        match d.StateAtVersion stateURI version with
        | .error err => .error ⟨http.Error w ("not found: " ++ c.errText err) 404, calls1, none⟩
        | .ok node =>
          if raw then .ok (d.NodeAt node keypath rng, keypath, calls1)
          else
            let calls2 := calls1 ++ [.Seek node keypath]
            match d.Seek node keypath with
            | .error err =>
              .error ⟨http.Error w ("error: " ++ c.errText err) http.StatusInternalServerError,
                calls2, none⟩
            | .ok none => .error ⟨http.Error w ("not found: " ++ keypath) 404, calls2, none⟩
            | .ok (some node1) =>
              match d.Exists node1 (Keypath.Push "" "index.html") with
              | .error err =>
                .error ⟨http.Error w ("error: " ++ c.errText err)
                  http.StatusInternalServerError, calls2, none⟩
              | .ok indexHTMLExists =>
                if indexHTMLExists then
                  .ok (d.NodeAt node1 "index.html" none, Keypath.Push "" "index.html", calls2)
                else .ok (node1, "", calls2)
    match resolved with
    | .error handled => handled
    | .ok (node, keypath1, calls1) =>
      match d.GetContentType node with
      | .error err =>
        ⟨http.Error w ("error getting content type: " ++ c.errText err)
          http.StatusInternalServerError, calls1, none⟩
      | .ok contentType0 =>
        let contentType :=
          if contentType0 = "application/octet-stream" then
            d.GuessContentTypeFromFilename (Keypath.lastPart keypath1)
          else contentType0
        let w1 := { w with header := w.header.Set "Content-Type" contentType }
        match d.GetContentLength node with
        | .error err =>
          ⟨http.Error w1 ("error getting content length: " ++ c.errText err)
            http.StatusInternalServerError, calls1, none⟩
        | .ok contentLength =>
          let w2 :=
            if contentLength > 0 then
              { w1 with header := w1.header.Set "Content-Length" (toString contentLength) }
            else w1
          match d.Length node with
          | .error err =>
            ⟨http.Error w2 ("error getting length: " ++ c.errText err)
              http.StatusInternalServerError, calls1, none⟩
          | .ok resourceLength =>
            let w3 :=
              { w2 with header := w2.header.Set "Resource-Length" (toString resourceLength) }
            match (if !raw then d.GetValueRecursive node else d.Value node) with
            | .error err =>
              ⟨http.Error w3 ("error: " ++ c.errText err) http.StatusBadRequest, calls1, none⟩
            | .ok none => ⟨http.Error w3 "not found: <nil>" 404, calls1, none⟩
            | .ok (some val) =>
              let body : Except Error (String × String × Option Error) :=
                match d.GetReadCloser val with
                | some (data, readErr) => .ok (contentType, data, readErr)
                | none =>
                  match d.jsonMarshal val with
                  | .error err => .error err
                  | .ok j => .ok ("application/json", j, none)
              match body with
              | .error err => ⟨w3, calls1, some (c.errText err)⟩
              | .ok (contentType1, data, readErr) =>
                let w4 :=
                  if contentType1 = "application/json" ∨ contentType1 = "application/js" ∨
                      contentType1 = "text/plain" then
                    { w3 with header := w3.header.Set "Subscribe" "Allow" }
                  else w3
                let w5 := if data = "" then w4 else w4.Write data
                match readErr with
                | some _ =>
                  ⟨http.Error w5 "could not copy response" http.StatusInternalServerError,
                    calls1, none⟩
                | none => ⟨w5, calls1, none⟩

/-- Embeds `transport.serveGetState`. -/
def serveGetState (c : Collaborators) (d : StateDeps) (t : transport) (w : ResponseWriter)
    (r : Request) : Handled :=
  match d.UnmarshalGetState r with
  | .error err => ⟨http.Error w (c.errText err) http.StatusBadRequest, [], none⟩
  | .ok (reqStateURI, version) =>
    let stateURI := if reqStateURI = "" then t.defaultStateURI else reqStateURI
    match r.Path.data with
    | [] => ⟨w, [], some "slice bounds out of range [1:0]"⟩
    | _ :: pathTail =>
      let fileName := d.QueryGet r "filename"
      let w1 :=
        if fileName.length ≠ 0 then
          { w with
            header := w.header.Set "Content-Disposition" ("attachment; filename=" ++ fileName) }
        else w
      match getStateKeypath d ⟨pathTail⟩ with
      | .panic msg => ⟨w1, [], some msg⟩
      | .badRequest msg => ⟨http.Error w1 msg http.StatusBadRequest, [], none⟩
      | .ok keypath =>
        match getStateRange (r.Header.Get "Range") with
        | .error msg => ⟨http.Error w1 msg http.StatusBadRequest, [], none⟩
        | .ok rng =>
          match d.Leaves stateURI with
          | .error err => ⟨http.Error w1 (c.errText err) 404, [.Leaves stateURI], none⟩
          | .ok [] =>
            serveGetStateNode c d { w1 with header := w1.header.Add "Parents" "" } r stateURI
              version keypath rng [.Leaves stateURI]
          | .ok (leaf :: _) =>
            match d.FetchTx stateURI leaf with
            | .error err =>
              ⟨http.Error w1
                  ("can't fetch tx " ++ Version.Hex leaf ++ ": " ++ c.errText err) 404,
                [.Leaves stateURI, .FetchTx stateURI leaf], none⟩
            | .ok tx =>
              let parentStrs := tx.Parents.map Version.Hex
              serveGetStateNode c d
                { w1 with header := w1.header.Add "Parents" (strings.Join parentStrs ",") } r
                stateURI version keypath rng [.Leaves stateURI, .FetchTx stateURI leaf]

end transport

/-! ## the tx PUT handler -/

/-- What `servePostTx` calls outside the embedded sources.

* `multipart` stands for `r.ParseMultipartForm`, `r.FormFile("attachment")`, the opening
  and reading of that file, and `r.MultipartForm.Value["patches"]`: the error of the first
  of the four steps that fails (each is answered in the same way), or the bytes of the
  attachment and the form values.
* `RandomVersion` is the result of `state.RandomVersion()`.
* `TxHash` is `tx.Hash()`. -/
structure PostTxDeps where
  SignatureFromHex : String → Except Error Bytes
  VersionFromHex : String → Except Error Version
  RandomVersion : Version
  TrimSpace : String → String
  multipart : Request → Except Error (Bytes × List String)
  ParsePatch : String → Except Error Patch
  TxHash : Tx → Hash

/-- What `servePostTx` leaves behind: the response, and the tx handed to
`HandleTxReceived`, if any. -/
structure PostTxHandled where
  w : ResponseWriter
  handed : Option Tx := none
  deriving DecidableEq, Repr

/-- The text `fmt.Sprintf("%v", line)` gives for a byte slice: the bytes in decimal between
brackets. -/
def fmtByteSlice (line : String) : String :=
  "[" ++ strings.Join (line.data.map fun c => toString c.toNat) " " ++ "]"

namespace transport

/-- The parents of a tx PUT, lines 946 to 958 of `servePostTx`: the comma-separated
versions of the `Parents` header. -/
def postTxParents (p : PostTxDeps) : List String → Except Error (List Version)
  | [] => .ok []
  | pstr :: rest =>
    match p.VersionFromHex (p.TrimSpace pstr) with
    | .error err => .error err
    | .ok parentID =>
      match postTxParents p rest with
      | .error err => .error err
      | .ok parents => .ok (parentID :: parents)

/-- The loop over the scanned lines in `servePostTx`: each line is parsed in turn, and the
first line that fails to parse ends the loop. -/
def postTxPatches (p : PostTxDeps) : List String → Except String (List Patch)
  | [] => .ok []
  | line :: rest =>
    match p.ParsePatch line with
    | .error _ => .error line
    | .ok patch =>
      match postTxPatches p rest with
      | .error bad => .error bad
      | .ok patches => .ok (patch :: patches)

/-- Embeds `transport.servePostTx`. -/
def servePostTx (c : Collaborators) (p : PostTxDeps) (t : transport) (w : ResponseWriter)
    (r : Request) : PostTxHandled :=
  let sigHeaderStr := r.Header.Get "Signature"
  if sigHeaderStr = "" then ⟨http.Error w "missing Signature header" http.StatusBadRequest, none⟩
  else
    match p.SignatureFromHex sigHeaderStr with
    | .error _ => ⟨http.Error w "bad Signature header" http.StatusBadRequest, none⟩
    | .ok sig =>
      let txIDStr := r.Header.Get "Version"
      match (if txIDStr = "" then .ok p.RandomVersion else p.VersionFromHex txIDStr) with
      | .error _ => ⟨http.Error w "bad Version header" http.StatusBadRequest, none⟩
      | .ok txID =>
        let parentsStr := r.Header.Get "Parents"
        match (if parentsStr ≠ "" then postTxParents p (strings.Split parentsStr ',')
               else .ok []) with
        | .error _ => ⟨http.Error w "bad Parents header" http.StatusBadRequest, none⟩
        | .ok parents =>
          let checkpoint := decide (r.Header.Get "Checkpoint" = "true")
          let stateURI :=
            if r.Header.Get "State-URI" = "" then t.defaultStateURI else r.Header.Get "State-URI"
          let body : Except Error (Bytes × Option String) :=
            if strings.HasPrefix (r.Header.Get "Content-Type") "multipart/form-data" then
              match p.multipart r with
              | .error err => .error err
              | .ok (attachment, patchesStrs) => .ok (attachment, patchesStrs.head?)
            else .ok ([], some r.Body)
          match body with
          | .error _ => ⟨http.Error w "error parsing multipart form" http.StatusBadRequest, none⟩
          | .ok (attachment, patchReader) =>
            let scanned : List String × Option Error :=
              match patchReader with
              | some text => bufio.scan text
              | none => ([], none)
            match postTxPatches p scanned.1 with
            | .error line =>
              ⟨http.Error w ("bad patch string: " ++ fmtByteSlice line) http.StatusBadRequest,
                none⟩
            | .ok patches =>
              match scanned.2 with
              | some err =>
                ⟨http.Error w ("internal server error: " ++ c.errText err)
                  http.StatusInternalServerError, none⟩
              | none =>
                let tx : Tx :=
                  { ID := txID, Parents := parents, Sig := sig, Patches := patches,
                    Attachment := attachment, StateURI := stateURI, Checkpoint := checkpoint }
                match crypto.RecoverSigningPubkey c.eth (p.TxHash tx) sig with
                | .error _ => ⟨http.Error w "bad signature" http.StatusBadRequest, none⟩
                | .ok pubkey => ⟨w, some { tx with From := pubkey.Address c.eth }⟩

end transport

/-! ## The example node: state and tx collaborators -/

namespace Example

/-- The state collaborators of the example node. The state `chat.com/room` has the leaf
01, whose tx has the parents aa and bb; `empty.com` has no leaves; `broken.com` has the
leaf 02, whose tx cannot be fetched; every other state is unknown. -/
def d : StateDeps where
  UnmarshalGetState := fun r => .ok (r.Header.Get "State-URI", none)
  QueryGet := fun _ _ => ""
  EncodeSliceIndex := fun n => "#" ++ toString n
  Leaves := fun uri =>
    if uri = "chat.com/room" then .ok [[1]]
    else if uri = "empty.com" then .ok []
    else if uri = "broken.com" then .ok [[2]]
    else .error .Err404
  FetchTx := fun _ id =>
    if id = [1] then .ok { ID := [1], Parents := [[0xaa], [0xbb]] }
    else .error (.New "missing tx")
  parseIndexParams := fun _ => ("", "")
  parseRawParam := fun _ => .ok false
  QueryIndex := fun _ _ _ _ _ _ => .error .Err404
  StateAtVersion := fun _ _ => .ok ⟨0⟩
  NodeAt := fun n _ _ => n
  Seek := fun n _ => .ok (some n)
  Exists := fun _ _ => .ok false
  GetContentType := fun _ => .ok "application/json"
  GuessContentTypeFromFilename := fun _ => "text/plain"
  GetContentLength := fun _ => .ok 0
  Length := fun _ => .ok 2
  GetValueRecursive := fun _ => .ok (some "42")
  Value := fun _ => .ok (some "42")
  GetReadCloser := fun _ => none
  jsonMarshal := fun v => .ok v

/-- The tx collaborators of the example node: signatures and versions are hex, a patch
parses when it is not empty and has no `!`, and the hash of a tx is the hash of its id. -/
def p : PostTxDeps where
  SignatureFromHex := hex.DecodeString
  VersionFromHex := hex.DecodeString
  RandomVersion := [9]
  TrimSpace := fun s => ⟨(s.data.dropWhile (· = ' ')).reverse.dropWhile (· = ' ') |>.reverse⟩
  multipart := fun _ => .error (.New "no form")
  ParsePatch := fun line =>
    if line = "" ∨ '!' ∈ line.data then .error (.New "bad patch") else .ok ("patch " ++ line)
  TxHash := fun tx => HashBytes tx.ID

end Example

/-- The parts one path segment of a state GET is said to contribute to the keypath: a
segment without `[` contributes itself; a segment `name[N]`, where `name` has no `[` and `N`
is a string of decimal digits with a value below `2^63`, contributes `name` and then the
encoded slice index of that value. -/
inductive SegmentParts (d : StateDeps) : String → List Keypath → Prop where
  | plain (seg : String) (h : '[' ∉ seg.data) : SegmentParts d seg [seg]
  | subscript (name N : String) (n : Nat) (hname : '[' ∉ name.data)
      (hN : strconv.parseDigits N.data = some n) (hn : n < 2 ^ 63) :
      SegmentParts d (name ++ "[" ++ N ++ "]") [name, d.EncodeSliceIndex n]

/-! ## the state GET handler, by stages -/

namespace http

def StatusPartialContent : Nat := 206

end http

/-- The status line the server sends for a response: the status the handler wrote, or 200
when the handler returned without writing one. -/
def ResponseWriter.finalStatus (w : ResponseWriter) : Nat :=
  w.status.getD 200

/-- What `serveGetTx` calls outside the embedded sources: `UnmarshalGetTx` is
`utils.UnmarshalHTTPRequest` on the struct with the required field `StateURI`, and
`RespondJSON` is `utils.RespondJSON`. -/
structure GetTxDeps where
  UnmarshalGetTx : Request → Except Error String
  VersionFromHex : String → Except Error Version
  FetchTx : String → Version → Except Error Tx
  RespondJSON : ResponseWriter → Tx → ResponseWriter

namespace transport

/-- The resolution stage of `serveGetState`, lines 718 to 786: the node to send, the keypath
the handler goes on with, the calls made, and the local `anyMissing`, which is declared
there and not assigned (the call of `nelson.Resolve` that would assign it is commented
out). The error case is the response that ends the request. -/
def getStateResolve (c : Collaborators) (d : StateDeps) (w : ResponseWriter) (r : Request)
    (raw : Bool) (stateURI : String) (version : Option Version) (keypath : Keypath)
    (rng : Option Range) (calls : List HubCall) :
    Except Handled (Node × Keypath × List HubCall × Bool) :=
  let (indexName, indexArg) := d.parseIndexParams r
  let anyMissing : Bool := false
  if indexName ≠ "" then
    let indexArgKeypath : Option Keypath := if indexArg ≠ "*" then some indexArg else none
    let calls1 := calls ++ [.QueryIndex stateURI version keypath indexName indexArgKeypath rng]
    match d.QueryIndex stateURI version keypath indexName indexArgKeypath rng with
    | .error err =>
      if errors.Cause err = .Err404 then
        .error ⟨http.Error w ("not found: " ++ c.errText err) 404, calls1, none⟩
      else
        .error ⟨http.Error w ("error: " ++ c.errText err) http.StatusInternalServerError,
          calls1, none⟩
    | .ok node => .ok (node, keypath, calls1, anyMissing)
  else
    let calls1 := calls ++ [.StateAtVersion stateURI version]
    match d.StateAtVersion stateURI version with
    | .error err => .error ⟨http.Error w ("not found: " ++ c.errText err) 404, calls1, none⟩
    | .ok node =>
      if raw then .ok (d.NodeAt node keypath rng, keypath, calls1, anyMissing)
      else
        let calls2 := calls1 ++ [.Seek node keypath]
        match d.Seek node keypath with
        | .error err =>
          .error ⟨http.Error w ("error: " ++ c.errText err) http.StatusInternalServerError,
            calls2, none⟩
        | .ok none => .error ⟨http.Error w ("not found: " ++ keypath) 404, calls2, none⟩
        | .ok (some node1) =>
          match d.Exists node1 (Keypath.Push "" "index.html") with
          | .error err =>
            .error ⟨http.Error w ("error: " ++ c.errText err)
              http.StatusInternalServerError, calls2, none⟩
          | .ok indexHTMLExists =>
            if indexHTMLExists then
              .ok (d.NodeAt node1 "index.html" none, Keypath.Push "" "index.html", calls2,
                anyMissing)
            else .ok (node1, "", calls2, anyMissing)

/-- The response stage of `serveGetState`, lines 788 to 857: the headers and the body for
the node `node`, with the locals `raw`, `keypath` and `anyMissing` as the resolution stage
left them. -/
def getStateRespond (c : Collaborators) (d : StateDeps) (w : ResponseWriter) (raw : Bool)
    (node : Node) (keypath : Keypath) (calls : List HubCall) (anyMissing : Bool) : Handled :=
  match d.GetContentType node with
  | .error err =>
    ⟨http.Error w ("error getting content type: " ++ c.errText err)
      http.StatusInternalServerError, calls, none⟩
  | .ok contentType0 =>
    let contentType :=
      if contentType0 = "application/octet-stream" then
        d.GuessContentTypeFromFilename (Keypath.lastPart keypath)
      else contentType0
    let w1 := { w with header := w.header.Set "Content-Type" contentType }
    match d.GetContentLength node with
    | .error err =>
      ⟨http.Error w1 ("error getting content length: " ++ c.errText err)
        http.StatusInternalServerError, calls, none⟩
    | .ok contentLength =>
      let w2 :=
        if contentLength > 0 then
          { w1 with header := w1.header.Set "Content-Length" (toString contentLength) }
        else w1
      match d.Length node with
      | .error err =>
        ⟨http.Error w2 ("error getting length: " ++ c.errText err)
          http.StatusInternalServerError, calls, none⟩
      | .ok resourceLength =>
        let w3 :=
          { w2 with header := w2.header.Set "Resource-Length" (toString resourceLength) }
        match (if !raw then d.GetValueRecursive node else d.Value node) with
        | .error err =>
          ⟨http.Error w3 ("error: " ++ c.errText err) http.StatusBadRequest, calls, none⟩
        | .ok none => ⟨http.Error w3 "not found: <nil>" 404, calls, none⟩
        | .ok (some val) =>
          let body : Except Error (String × String × Option Error) :=
            match d.GetReadCloser val with
            | some (data, readErr) => .ok (contentType, data, readErr)
            | none =>
              match d.jsonMarshal val with
              | .error err => .error err
              | .ok j => .ok ("application/json", j, none)
          match body with
          | .error err => ⟨w3, calls, some (c.errText err)⟩
          | .ok (contentType1, data, readErr) =>
            let w4 :=
              if contentType1 = "application/json" ∨ contentType1 = "application/js" ∨
                  contentType1 = "text/plain" then
                { w3 with header := w3.header.Set "Subscribe" "Allow" }
              else w3
            let w5 := if anyMissing then w4.WriteHeader http.StatusPartialContent else w4
            let w6 := if data = "" then w5 else w5.Write data
            match readErr with
            | some _ =>
              ⟨http.Error w6 "could not copy response" http.StatusInternalServerError,
                calls, none⟩
            | none => ⟨w6, calls, none⟩

/-- Embeds `transport.serveGetTx`. The slice `r.URL.Path[1:]` panics on the empty path and
the index `parts[1]` panics when the rest of the path has no `/`. -/
def serveGetTx (c : Collaborators) (g : GetTxDeps) (w : ResponseWriter) (r : Request) :
    Handled :=
  match g.UnmarshalGetTx r with
  | .error err => ⟨http.Error w (c.errText err) http.StatusBadRequest, [], none⟩
  | .ok stateURI =>
    match r.Path.data with
    | [] => ⟨w, [], some "slice bounds out of range [1:0]"⟩
    | _ :: pathTail =>
      match strings.Split ⟨pathTail⟩ '/' with
      | _ :: txIDStr :: _ =>
        match g.VersionFromHex txIDStr with
        | .error _ => ⟨http.Error w "bad tx id" http.StatusBadRequest, [], none⟩
        | .ok txID =>
          match g.FetchTx stateURI txID with
          | .error err =>
            ⟨http.Error w ("not found: " ++ c.errText err) 404, [.FetchTx stateURI txID], none⟩
          | .ok tx => ⟨g.RespondJSON w tx, [.FetchTx stateURI txID], none⟩
      | parts =>
        ⟨w, [], some ("index out of range [1] with length " ++ toString parts.length)⟩

end transport

namespace Example

/-- A guess of the content type from the end of a file name. -/
def guessByExtension (name : String) : String :=
  if ".html".data.isSuffixOf name.data then "text/html"
  else if ".png".data.isSuffixOf name.data then "image/png"
  else "application/octet-stream"

/-- The state collaborators of a node whose nodes report the content type `text/html` and
hold plain values (no reader). -/
def dHtml : StateDeps :=
  { d with GetContentType := fun _ => .ok "text/html" }

/-- The state collaborators of a node that serves files: every node reports the content
type `application/octet-stream`, every resolved node has a child `index.html`, and values
are streamed from a reader. -/
def dSite : StateDeps :=
  { d with
    Exists := fun _ _ => .ok true
    GetContentType := fun _ => .ok "application/octet-stream"
    GuessContentTypeFromFilename := guessByExtension
    GetReadCloser := fun v => some (v, none) }

/-- The tx collaborators of the example node for `serveGetTx`. -/
def g : GetTxDeps where
  UnmarshalGetTx := fun r =>
    if r.Header.Get "State-URI" = "" then .error (.New "missing State-URI")
    else .ok (r.Header.Get "State-URI")
  VersionFromHex := fun s => if s = "" then .error .ErrLength else hex.DecodeString s
  FetchTx := d.FetchTx
  RespondJSON := fun w tx => w.Write ("tx " ++ hex.EncodeToString tx.ID)

end Example

/-! ## Start and the cookie secret -/

/-- Modelled from the spec: `types.StringSet.Add` (package `types` is absent); own URLs are
a "set of URL strings", so adding a string that is in the set leaves it as it is. -/
def StringSet.Add (s : List String) (x : String) : List String :=
  if x ∈ s then s else s ++ [x]

/-- Go `copy(dst[:], src)`: the first bytes of `dst` are overwritten with those of `src`, as
many as both hold. -/
def copyOver (dst src : Bytes) : Bytes :=
  src.take dst.length ++ dst.drop src.length

/-- A value kept in the key store's extra user data (an `interface{}`), as far as the type
assertion `.([]byte)` tells them apart. -/
inductive UserData where
  | bytes (b : Bytes)
  | other
  deriving DecidableEq, Repr

/-- What `findOrCreateCookieSecret` calls outside the embedded sources.

* `ExtraUserData` gives `.error err` or `.ok (maybeSecret, exists)`, a nil `maybeSecret`
  being `none`.
* `randRead n` is `rand.Read` on a fresh slice of `n` bytes: the bytes it fills in, or the
  error.
* `SaveExtraUserData` gives the error, if any. -/
structure SecretDeps where
  ExtraUserData : String → Except Error (Option UserData × Bool)
  randRead : Nat → Except Error Bytes
  SaveExtraUserData : String → Bytes → Option Error

/-- What `findOrCreateCookieSecret` and `Start` leave behind: the transport, what was saved
to the key store's extra user data, in order, and the error returned. -/
structure Started where
  t : transport
  saved : List (String × Bytes) := []
  err : Option Error := none
  deriving DecidableEq, Repr

/-- An `identity.Identity`, with what `Start` reads of it: the signing key pair and the
encryption public key, by its bytes. -/
structure Identity where
  SigKeypair : SigKeypair
  AsymEncPubkey : Bytes
  deriving DecidableEq, Repr

/-- What `Start` calls outside the embedded sources: the error of `Process.Start`, the
error of `cookiejar.New`, the key store's extra user data, and the result of
`keyStore.Identities`. -/
structure StartDeps where
  processStart : Option Error
  cookiejarNew : Option Error
  secrets : SecretDeps
  Identities : Except Error (List Identity)

namespace transport

/-- Embeds `transport.findOrCreateCookieSecret`. In the branch for a missing secret the
source declares a new variable `cookieSecret`, so the random bytes do not reach the outer
`cookieSecret`, which is what the type assertion gave. -/
def findOrCreateCookieSecret (k : SecretDeps) (t : transport) : Started :=
  match k.ExtraUserData "http:cookiesecret" with
  | .error err => ⟨t, [], some err⟩
  | .ok (maybeSecret, exists_) =>
    let (cookieSecret, isBytes) : Bytes × Bool :=
      match maybeSecret with
      | some (.bytes b) => (b, true)
      | _ => ([], false)
    let randErr : Option Error :=
      if !exists_ || !isBytes then
        match k.randRead 32 with
        | .error err => some err
        | .ok _ => none
      else none
    match randErr with
    | some err => ⟨t, [], some err⟩
    | none =>
      let t1 := { t with cookieSecret := copyOver t.cookieSecret cookieSecret }
      ⟨t1, [("http:cookiesecret", t1.cookieSecret)],
        k.SaveExtraUserData "http:cookiesecret" t1.cookieSecret⟩

/-- The lines 142 to 148 of `Start`: the own URL of the TLS listen address. -/
def startOwnURL (t : transport) : transport :=
  if t.listenAddrSSL.length > 0 then
    if t.listenAddrSSL.data.head? = some ':' then
      { t with ownURLs := StringSet.Add t.ownURLs ("https://localhost" ++ t.listenAddrSSL) }
    else
      { t with ownURLs := StringSet.Add t.ownURLs ("https://" ++ t.listenAddrSSL) }
  else t

/-- Embeds `transport.Start`, up to the start of the two servers, which run in goroutines
of their own. The own URLs are visited in the order of the list (the source ranges over a
map, in no fixed order). -/
def Start (eth : Ethereum) (s : StartDeps) (t : transport) : Started :=
  match s.processStart with
  | some err => ⟨t, [], some err⟩
  | none =>
    match s.cookiejarNew with
    | some err => ⟨t, [], some err⟩
    | none =>
      let t1 := startOwnURL t
      match findOrCreateCookieSecret s.secrets t1 with
      | ⟨t2, saved, some err⟩ => ⟨t2, saved, some err⟩
      | ⟨t2, saved, none⟩ =>
        match s.Identities with
        | .error err => ⟨t2, saved, some err⟩
        | .ok identities =>
          let peerStore :=
            identities.foldl
              (fun ps identity =>
                t2.ownURLs.foldl
                  (fun ps1 ownURL =>
                    (PeerStore.AddVerifiedCredentials ps1 ⟨TransportName, ownURL⟩ "self"
                      (identity.SigKeypair.SigningPublicKey.Address eth)
                      (some identity.SigKeypair.SigningPublicKey)
                      (some identity.AsymEncPubkey)).1)
                  ps)
              t2.peerStore
          ⟨{ t2 with peerStore := peerStore }, saved, none⟩

end transport

namespace Example

/-- A key store that holds no cookie secret; `rand.Read` fills in the bytes 7, 7, … -/
def kEmpty : SecretDeps where
  ExtraUserData := fun _ => .ok (none, false)
  randRead := fun n => .ok (List.replicate n 7)
  SaveExtraUserData := fun _ _ => none

/-- A key store that holds the 32 bytes 1, 2, …, 32 as the cookie secret. -/
def kStored : SecretDeps where
  ExtraUserData := fun key =>
    if key = "http:cookiesecret" then
      .ok (some (.bytes ((List.range 32).map fun i => Fin.ofNat (i + 1))), true)
    else .ok (none, false)
  randRead := fun n => .ok (List.replicate n 7)
  SaveExtraUserData := fun _ _ => none

/-- A transport as `NewTransport` returns it, listening with TLS on `:21232`. -/
def tNew : transport :=
  { listenAddr := ":8080", listenAddrSSL := ":21232" }

/-- The collaborators of `Start` at the example node: one identity, no stored secret. -/
def s : StartDeps where
  processStart := none
  cookiejarNew := none
  secrets := kEmpty
  Identities := .ok [⟨keypair, [0xe0]⟩]

end Example

/-! ## providers of a state URI -/

/-- A `url.URL`, with the fields the transport touches. -/
structure URL where
  Scheme : String := ""
  Host : String := ""
  Path : String := ""
  RawQuery : String := ""
  deriving DecidableEq, Repr

/-- An outgoing `http.Request`. -/
structure ClientRequest where
  Method : String
  URL : String
  Header : Header := []
  deriving DecidableEq, Repr

/-- An `http.Response`; `Body` stands for the reader of the body. -/
structure Response where
  StatusCode : Nat
  Status : String := ""
  Header : Header := []
  Body : String := ""
  deriving DecidableEq, Repr

/-- What the outgoing requests of the transport call outside the embedded sources.

* `urlParse`, `urlString`, `urlHostname` are `url.Parse`, `URL.String`, `URL.Hostname`;
  `pathJoin` is `path.Join`.
* `NewRequest` is `http.NewRequestWithContext` without a body.
* `Do` is `httpClient.Do`.
* `ReadAll` is `ioutil.ReadAll` on the body of a response.
* `jsonDecodeStrings` is `json.NewDecoder(resp.Body).Decode` into a `[]string`.
* `multierrAppend` is `multierr.Append`. -/
structure ClientDeps where
  urlParse : String → Except Error URL
  urlString : URL → String
  urlHostname : URL → String
  pathJoin : String → String → String
  NewRequest : String → String → Except Error ClientRequest
  Do : ClientRequest → Except Error Response
  ReadAll : Response → Except Error String
  jsonDecodeStrings : Response → Except Error (List String)
  multierrAppend : Error → Error → Error

/-- The channel `ProvidersOfStateURI` returns, as what its goroutine sends on it, in order,
and whether the goroutine closed it. Each value is sent unless the context of the process
is done first; the goroutine is taken to run to its end with the context not done. -/
structure ProviderChan where
  sent : List peerConn := []
  closed : Bool := false
  deriving DecidableEq, Repr

namespace transport

/-- Embeds `transport.doRequest`: the transport after the peers of the response's `Alt-Svc`
header were stored, and the response, or the error together with the response when there
is one. -/
def doRequest (c : Collaborators) (h : ClientDeps) (t : transport) (req : ClientRequest) :
    transport × Except (Option Response × Error) Response :=
  let altSvcHeader := c.makeAltSvcHeader (c.AllDialInfos t.peerStore)
  let req1 := { req with Header := req.Header.Set "Alt-Svc" altSvcHeader }
  match h.Do req1 with
  | .error err => (t, .error (none, .WithStack err))
  | .ok resp =>
    let t1 := storeAltSvcHeaderPeers c t resp.Header
    if resp.StatusCode ≠ 200 then
      match h.ReadAll resp with
      | .error err =>
        let err1 := Error.Wrapf err "error reading response body"
        let err2 := Error.New
          ("http request errored: (" ++ toString resp.StatusCode ++ ") " ++ resp.Status)
        (t1, .error (some resp, h.multierrAppend err1 err2))
      | .ok bs =>
        (t1, .error (some resp,
          .New ("http request errored: (" ++ toString resp.StatusCode ++ ") " ++
            resp.Status ++ ": " ++ bs)))
    else (t1, .ok resp)

/-- Embeds `transport.tryFetchProvidersFromAuthoritativeHost`. -/
def tryFetchProvidersFromAuthoritativeHost (c : Collaborators) (h : ClientDeps)
    (t : transport) (stateURI : String) : transport × Except Error (List String) :=
  let parts := strings.Split stateURI '/'
  match h.urlParse ("http://" ++ parts.headD "" ++ ":80?state_uri=" ++ stateURI) with
  | .error err => (t, .error err)
  | .ok u =>
    let u1 := { u with Path := h.pathJoin u.Path "providers" }
    match h.NewRequest "GET" (h.urlString u1) with
    | .error err => (t, .error err)
    | .ok req =>
      match doRequest c h t req with
      | (t1, .error (_, err)) => (t1, .error err)
      | (t1, .ok resp) =>
        if resp.StatusCode ≠ 200 then
          match h.ReadAll resp with
          | .error err => (t1, .error err)
          | .ok body =>
            (t1, .error (.New ("got status code " ++ toString resp.StatusCode ++ " " ++
              resp.Status ++ ": " ++ body)))
        else
          match h.jsonDecodeStrings resp with
          | .error err => (t1, .error err)
          | .ok providers => (t1, .ok providers)

/-- The loop of the goroutine of `ProvidersOfStateURI`: a provider that is an own URL is
skipped, for every other one a peer connection is made and sent. -/
def sendProviders (t : transport) : List String → transport × List peerConn
  | [] => (t, [])
  | providerURL :: rest =>
    if providerURL ∈ t.ownURLs then sendProviders t rest
    else
      let (t1, peer) := t.makePeerConn false false providerURL ID.zero "" Address.zero
      let (t2, peers) := sendProviders t1 rest
      (t2, peer :: peers)

/-- Embeds `transport.ProvidersOfStateURI`; `errors.AddStack` adds a stack to the error
returned. -/
def ProvidersOfStateURI (c : Collaborators) (h : ClientDeps) (t : transport)
    (stateURI : String) : transport × Except Error ProviderChan :=
  match tryFetchProvidersFromAuthoritativeHost c h t stateURI with
  | (t1, .error err) => (t1, .error (.WithStack err))
  | (t1, .ok providers) =>
    let providers1 :=
      match h.urlParse ("http://" ++ stateURI) with
      | .ok u => providers ++ ["http://" ++ h.urlHostname u]
      | .error _ => providers
    let (t2, sent) := sendProviders t1 providers1
    (t2, .ok ⟨sent, true⟩)

end transport

namespace Example

/-- A stand-in for `net/url` and the HTTP client: a URL is cut at its first `/` after the
scheme and at its first `?`, the host name ends at the `:` of the port, and the one host
`chat.com` answers 200 with the providers `http://a` and `http://b`. -/
def h : ClientDeps where
  urlParse := fun s =>
    if strings.HasPrefix s "http://" then
      let rest := s.data.drop 7
      let hostPath := rest.takeWhile (· ≠ '?')
      .ok { Scheme := "http", Host := ⟨hostPath.takeWhile (· ≠ '/')⟩,
            Path := ⟨hostPath.dropWhile (· ≠ '/')⟩,
            RawQuery := ⟨(rest.dropWhile (· ≠ '?')).drop 1⟩ }
    else .error (.New "missing protocol scheme")
  urlString := fun u =>
    u.Scheme ++ "://" ++ u.Host ++
      (if u.Path = "" ∨ strings.HasPrefix u.Path "/" then u.Path else "/" ++ u.Path) ++
      (if u.RawQuery = "" then "" else "?" ++ u.RawQuery)
  urlHostname := fun u => ⟨u.Host.data.takeWhile (· ≠ ':')⟩
  pathJoin := fun a b => if a = "" then b else a ++ "/" ++ b
  NewRequest := fun method url => .ok { Method := method, URL := url }
  Do := fun req =>
    if req.URL = "http://chat.com:80/providers?state_uri=chat.com/room" then
      .ok { StatusCode := 200, Status := "200 OK", Body := "[\"http://a\",\"http://b\"]" }
    else .error (.New "no such host")
  ReadAll := fun resp => .ok resp.Body
  jsonDecodeStrings := fun resp =>
    if resp.Body = "[\"http://a\",\"http://b\"]" then .ok ["http://a", "http://b"]
    else .error (.New "invalid JSON")
  multierrAppend := fun a _ => a

/-- The example node with the own URL `http://b`. -/
def tB : transport :=
  { ownURLs := ["http://b"] }

end Example

/-! ## The remaining endpoint handlers -/

namespace http

def StatusForbidden : Nat := 403

def StatusNotFound : Nat := 404

end http

/-- The struct `request` of both subscription handlers, as `utils.UnmarshalHTTPRequest`
fills it; `SubType` is a `prototree.SubscriptionType`, `FromTxID` is nil as `none`. -/
structure subscriptionParams where
  StateURI : String
  Keypath : Keypath
  SubType : Nat
  FromTxID : Option Version
  deriving DecidableEq, Repr

/-- A `prototree.FetchHistoryOpts`; its zero value has the zero version. -/
structure FetchHistoryOpts where
  FromTxID : Version := List.replicate 32 0
  deriving DecidableEq, Repr

/-- A `prototree.SubscriptionRequest`; `Addresses` is a `types.AddressSet`, `SubType`
its field `Type`. -/
structure SubscriptionRequest where
  StateURI : String
  Keypath : Keypath
  SubType : Nat
  FetchHistoryOpts : FetchHistoryOpts
  Addresses : List Address
  deriving DecidableEq, Repr

/-- The subscription a subscription handler lets `HandleWritableSubscriptionOpened` make:
`newHTTPWritableSubscription` on the response and the request, or
`newWSWritableSubscription` on the websocket connection that `wsUpgrader.Upgrade` makes of
the response and the request. -/
inductive SubscriptionKind where
  | http
  | ws
  deriving DecidableEq, Repr

/-- The struct `StoreBlobResponse`. -/
structure StoreBlobResponse where
  SHA1 : Bytes
  SHA3 : Bytes
  deriving DecidableEq, Repr

/-- A `prototree.EncryptedTx`, by its JSON rendering. -/
abbrev EncryptedTx := String

/-- What the endpoint handlers call outside the embedded sources.

* `state`, `getTx`, `postTx` are the calls of `serveGetState`, `serveGetTx`, `servePostTx`.
* `UnmarshalSubscription` is `utils.UnmarshalHTTPRequest` on the struct `request` of the
  subscription handlers.
* `HandleWritableSubscriptionOpened` is the callback of `prototree`, called with the
  subscription request and the function that makes the subscription; it gives the error
  the callback returns, and the transport and the response as the callback and the
  subscription leave them by the time the handler returns (the handler blocks until the
  subscription is closed).
* `ServeContent` is `http.ServeContent` with the name, the modification time and the
  content; `BrowserSrc` is `redwoodjs.BrowserSrc`.
* `ParseForm` is `r.ParseForm()`, `FormFile` is `r.FormFile(key)`, by the bytes of the file.
* `StoreBlob` is `t.blobStore.StoreBlob`, `RespondJSON` is `utils.RespondJSON`.
* `ReadAll` is `ioutil.ReadAll(r.Body)`, `UnmarshalText` is `Version.UnmarshalText`.
* `HandleAckReceived` and `HandlePrivateTxReceived` are callbacks of `prototree`; they are
  handed the peer connection, whose writer is the response.
* `Decode` is `json.NewDecoder(r.Body).Decode` into a `prototree.EncryptedTx`. -/
structure HandlerDeps where
  state : StateDeps
  getTx : GetTxDeps
  postTx : PostTxDeps
  UnmarshalSubscription : Request → Except Error subscriptionParams
  HandleWritableSubscriptionOpened :
    SubscriptionRequest → SubscriptionKind → Request → transport → ResponseWriter →
      Option Error × transport × ResponseWriter
  ServeContent : ResponseWriter → Request → String → Nat → String → ResponseWriter
  BrowserSrc : String
  ParseForm : Request → Option Error
  FormFile : Request → String → Except Error Bytes
  StoreBlob : Bytes → Except Error (Bytes × Bytes)
  RespondJSON : ResponseWriter → StoreBlobResponse → ResponseWriter
  ReadAll : Request → Except Error String
  UnmarshalText : String → Except Error Version
  HandleAckReceived :
    String → Version → peerConn → transport → ResponseWriter → transport × ResponseWriter
  Decode : Request → Except Error EncryptedTx
  HandlePrivateTxReceived :
    EncryptedTx → peerConn → transport → ResponseWriter → transport × ResponseWriter

namespace transport

/-- The body that `serveHTTPSubscription` and `serveWSSubscription` share line by line;
they differ in the subscription that is made (and in a log line). -/
def serveSubscription (c : Collaborators) (h : HandlerDeps) (kind : SubscriptionKind)
    (t : transport) (w : ResponseWriter) (r : Request) (address : Address) :
    transport × ResponseWriter :=
  match h.UnmarshalSubscription r with
  | .error err => (t, http.Error w (c.errText err) http.StatusBadRequest)
  | .ok req =>
    let stateURI := if req.StateURI = "" then t.defaultStateURI else req.StateURI
    let fetchHistoryOpts : FetchHistoryOpts :=
      match req.FromTxID with
      | some fromTxID => { FromTxID := fromTxID }
      | none => {}
    let subRequest : SubscriptionRequest :=
      { StateURI := stateURI
        Keypath := req.Keypath
        SubType := req.SubType
        FetchHistoryOpts := fetchHistoryOpts
        Addresses := [address] }
    match h.HandleWritableSubscriptionOpened subRequest kind r t w with
    | (some err, t1, w1) =>
      if errors.Cause err = .Err403 then
        (t1, http.Error w1 (c.errText err) http.StatusForbidden)
      else if errors.Cause err = .Err404 then
        (t1, http.Error w1 (c.errText err) http.StatusNotFound)
      else (t1, http.Error w1 (c.errText err) http.StatusInternalServerError)
    | (none, t1, w1) => (t1, w1)

/-- Embeds `transport.serveHTTPSubscription`. -/
def serveHTTPSubscription (c : Collaborators) (h : HandlerDeps) (t : transport)
    (w : ResponseWriter) (r : Request) (address : Address) : transport × ResponseWriter :=
  serveSubscription c h .http t w r address

/-- Embeds `transport.serveWSSubscription`. -/
def serveWSSubscription (c : Collaborators) (h : HandlerDeps) (t : transport)
    (w : ResponseWriter) (r : Request) (address : Address) : transport × ResponseWriter :=
  serveSubscription c h .ws t w r address

/-- Embeds `transport.serveRedwoodJS`. -/
def serveRedwoodJS (c : Collaborators) (h : HandlerDeps) (w : ResponseWriter)
    (r : Request) : ResponseWriter :=
  h.ServeContent w r "./redwood.js" c.timeNow h.BrowserSrc

/-- Embeds `transport.serveAck`. -/
def serveAck (h : HandlerDeps) (t : transport) (w : ResponseWriter) (r : Request)
    (peerConn : peerConn) : transport × ResponseWriter :=
  match h.ReadAll r with
  | .error _ => (t, http.Error w "error reading body" http.StatusBadRequest)
  | .ok bs =>
    match h.UnmarshalText bs with
    | .error _ => (t, http.Error w "error reading body" http.StatusBadRequest)
    | .ok txID =>
      let stateURI := r.Header.Get "State-URI"
      h.HandleAckReceived stateURI txID peerConn t w

/-- Embeds `transport.servePostBlob`. -/
def servePostBlob (c : Collaborators) (h : HandlerDeps) (w : ResponseWriter)
    (r : Request) : ResponseWriter :=
  match h.ParseForm r with
  | some err => http.Error w (c.errText err) http.StatusBadRequest
  | none =>
    match h.FormFile r "blob" with
    | .error err => http.Error w (c.errText err) http.StatusBadRequest
    | .ok file =>
      match h.StoreBlob file with
      | .error _ => http.Error w "internal server error" http.StatusInternalServerError
      | .ok (sha1Hash, sha3Hash) => h.RespondJSON w { SHA1 := sha1Hash, SHA3 := sha3Hash }

/-- Embeds `transport.servePostPrivateTx`. -/
def servePostPrivateTx (h : HandlerDeps) (t : transport) (w : ResponseWriter)
    (r : Request) (peerConn : peerConn) : transport × ResponseWriter :=
  match h.Decode r with
  | .error _ => (t, http.Error w "bad JSON" http.StatusBadRequest)
  | .ok encryptedTx => h.HandlePrivateTxReceived encryptedTx peerConn t w

/-- The endpoint handlers of the source, each called as `ServeHTTP` calls it: the transport
and the response the handler leaves behind. `servePostTx` hands its tx to
`HandleTxReceived` in a goroutine of its own, which the response does not wait for; a
handler that ends in a run-time panic leaves the response as it was written up to there. -/
def serveEndpoint (c : Collaborators) (h : HandlerDeps) (e : Endpoint) (t : transport)
    (r : Request) (peerConn : peerConn) (address : Address) (w : ResponseWriter) :
    transport × ResponseWriter :=
  match e with
  | .serveChallengeIdentityResponse =>
    serveChallengeIdentityResponse c t w peerConn (r.Header.Get "Challenge")
  | .serveChallengeIdentity => serveChallengeIdentity c t w peerConn
  | .serveChallengeIdentityCheckResponse =>
    serveChallengeIdentityCheckResponse c t w peerConn (r.Header.Get "Response")
  | .serveWSSubscription => serveWSSubscription c h t w r address
  | .serveHTTPSubscription => serveHTTPSubscription c h t w r address
  | .serveRedwoodJS => (t, serveRedwoodJS c h w r)
  | .serveGetTx => (t, (serveGetTx c h.getTx w r).w)
  | .serveGetState => (t, (serveGetState c h.state t w r).w)
  | .servePostBlob => (t, servePostBlob c h w r)
  | .serveAck => serveAck h t w r peerConn
  | .servePostPrivateTx => servePostPrivateTx h t w r peerConn
  | .servePostTx => (t, (servePostTx c h.postTx t w r).w)

end transport

namespace Example

/-- The handler collaborators of the example node: a subscription is refused with
`errors.Err403` for the state `private.com` and else opened, answering with its first
line; the blob store hashes by length; an ACK and a private tx are taken without an
answer. -/
def hd : HandlerDeps where
  state := d
  getTx := g
  postTx := p
  UnmarshalSubscription := fun r =>
    if r.Header.Get "Subscribe" = "" then .error (.New "missing Subscribe")
    else .ok ⟨r.Header.Get "State-URI", r.Header.Get "Keypath", 1, none⟩
  HandleWritableSubscriptionOpened := fun req _ _ t w =>
    if req.StateURI = "private.com" then (some (.WithStack .Err403), t, w)
    else (none, t, w.Write "subscribed\n")
  ServeContent := fun w _ _ _ content => w.Write content
  BrowserSrc := "export default {}"
  ParseForm := fun _ => none
  FormFile := fun r key =>
    if key = "blob" ∧ r.Body ≠ "" then .ok (r.Body.data.map fun ch => (Fin.ofNat ch.toNat))
    else .error (.New "http: no such file")
  StoreBlob := fun file => .ok ([Fin.ofNat file.length], [Fin.ofNat file.length, 3])
  RespondJSON := fun w resp => w.Write ("blob " ++ hex.EncodeToString resp.SHA1)
  ReadAll := fun r => .ok r.Body
  UnmarshalText := hex.DecodeString
  HandleAckReceived := fun _ _ _ t w => (t, w)
  Decode := fun r => if r.Body = "" then .error (.New "EOF") else .ok r.Body
  HandlePrivateTxReceived := fun _ _ t w => (t, w)

/-- The example node with its endpoint handlers run from the source. -/
def cServe : Collaborators :=
  { c with serve := transport.serveEndpoint c hd }

end Example

/-! ## Lemmas: hex, strings, maps -/

theorem hex_fromHexChar_hextable : ∀ n : Fin 16, hex.fromHexChar (hex.hextable n.val) = some n.val := by
  decide

set_option maxRecDepth 100000 in
theorem hex_nibbles_join : ∀ v : Fin 256,
    (Fin.ofNat (((v.val >>> 4) <<< 4) ||| (v.val &&& 0x0f)) : Fin 256) = v := by
  decide

theorem hex_hextable_ne_colon : ∀ n : Fin 16, hex.hextable n.val ≠ ':' := by
  decide

theorem hex_Decode_Encode (bs : Bytes) : hex.Decode (hex.Encode bs) = .ok bs := by
  induction bs with
  | nil => rfl
  | cons v vs ih =>
    have hhi : v.val >>> 4 < 16 := by
      have := v.isLt
      rw [Nat.shiftRight_eq_div_pow]
      omega
    have hlo : v.val &&& 0x0f < 16 := by
      have : v.val &&& 0x0f ≤ 0x0f := Nat.and_le_right
      omega
    have h1 := hex_fromHexChar_hextable ⟨v.val >>> 4, hhi⟩
    have h2 := hex_fromHexChar_hextable ⟨v.val &&& 0x0f, hlo⟩
    simp only at h1 h2
    simp only [hex.Encode, hex.Decode, h1, h2, ih, hex_nibbles_join]

theorem hex_DecodeString_EncodeToString (bs : Bytes) :
    hex.DecodeString (hex.EncodeToString bs) = .ok bs := by
  simp [hex.DecodeString, hex.EncodeToString, hex_Decode_Encode]

theorem hex_Encode_no_colon (bs : Bytes) : ':' ∉ hex.Encode bs := by
  induction bs with
  | nil => simp [hex.Encode]
  | cons v vs ih =>
    have hhi : v.val >>> 4 < 16 := by
      have := v.isLt
      rw [Nat.shiftRight_eq_div_pow]
      omega
    have hlo : v.val &&& 0x0f < 16 := by
      have : v.val &&& 0x0f ≤ 0x0f := Nat.and_le_right
      omega
    have h1 := hex_hextable_ne_colon ⟨v.val >>> 4, hhi⟩
    have h2 := hex_hextable_ne_colon ⟨v.val &&& 0x0f, hlo⟩
    simp only at h1 h2
    simp only [hex.Encode, List.mem_cons, not_or]
    exact ⟨fun h => h1 h.symm, fun h => h2 h.symm, ih⟩

theorem splitChars_no_sep (sep : Char) (a : List Char) (h : sep ∉ a) :
    strings.splitChars sep a = [a] := by
  induction a with
  | nil => rfl
  | cons x xs ih =>
    simp only [List.mem_cons, not_or] at h
    have hx : x ≠ sep := fun e => h.1 e.symm
    simp [strings.splitChars, hx, ih h.2]

theorem splitChars_append_sep (sep : Char) (a b : List Char) (h : sep ∉ a) :
    strings.splitChars sep (a ++ sep :: b) = a :: strings.splitChars sep b := by
  induction a with
  | nil => simp [strings.splitChars]
  | cons x xs ih =>
    simp only [List.mem_cons, not_or] at h
    have hx : x ≠ sep := fun e => h.1 e.symm
    simp [strings.splitChars, hx, ih h.2]

theorem Split_hex_colon_hex (a b : Bytes) :
    strings.Split (hex.EncodeToString a ++ ":" ++ hex.EncodeToString b) ':' =
      [hex.EncodeToString a, hex.EncodeToString b] := by
  have h : (hex.EncodeToString a ++ ":" ++ hex.EncodeToString b).data =
      hex.Encode a ++ ':' :: hex.Encode b := by
    simp [hex.EncodeToString, String.data_append]
  simp only [strings.Split, h]
  rw [splitChars_append_sep _ _ _ (hex_Encode_no_colon a),
    splitChars_no_sep _ _ (hex_Encode_no_colon b)]
  rfl

theorem hasPrefixChars_iff (s p : List Char) :
    strings.hasPrefixChars s p = true ↔ ∃ rest, s = p ++ rest := by
  induction p generalizing s with
  | nil => simp [strings.hasPrefixChars]
  | cons x xs ih =>
    cases s with
    | nil => simp [strings.hasPrefixChars]
    | cons y ys =>
      simp only [strings.hasPrefixChars, Bool.and_eq_true, beq_iff_eq, ih, List.cons_append,
        List.cons.injEq]
      constructor
      · rintro ⟨rfl, rest, rfl⟩
        exact ⟨rest, rfl, rfl⟩
      · rintro ⟨rest, rfl, rfl⟩
        exact ⟨rfl, rest, rfl⟩

theorem HasPrefix_iff (s p : String) :
    strings.HasPrefix s p = true ↔ ∃ rest : String, s = p ++ rest := by
  simp only [strings.HasPrefix, hasPrefixChars_iff]
  constructor
  · rintro ⟨rest, h⟩
    refine ⟨⟨rest⟩, ?_⟩
    apply String.ext
    simpa [String.data_append] using h
  · rintro ⟨rest, rfl⟩
    exact ⟨rest.data, by simp [String.data_append]⟩

section GoMapLemmas

variable {κ ν : Type} [DecidableEq κ]

theorem GoMap_get_delete_self (m : GoMap κ ν) (k : κ) : GoMap.get (GoMap.delete m k) k = none := by
  induction m with
  | nil => rfl
  | cons e rest ih =>
    obtain ⟨k1, v⟩ := e
    by_cases h : k1 = k <;> simp [GoMap.delete, GoMap.get, h, ih]

theorem GoMap_get_delete_other (m : GoMap κ ν) (k k2 : κ) (hne : k2 ≠ k) :
    GoMap.get (GoMap.delete m k) k2 = GoMap.get m k2 := by
  induction m with
  | nil => rfl
  | cons e rest ih =>
    obtain ⟨k1, v⟩ := e
    by_cases h : k1 = k
    · have h2 : ¬ k1 = k2 := fun e => hne (e.symm.trans h)
      simp only [GoMap.delete, GoMap.get, if_pos h, if_neg h2, ih]
    · by_cases h3 : k1 = k2
      · simp only [GoMap.delete, GoMap.get, if_neg h, if_pos h3]
      · simp only [GoMap.delete, GoMap.get, if_neg h, if_neg h3, ih]

theorem GoMap_get_set_self (m : GoMap κ ν) (k : κ) (v : ν) :
    GoMap.get (GoMap.set m k v) k = some v := by
  simp [GoMap.set, GoMap.get]

theorem GoMap_get_set_other (m : GoMap κ ν) (k k2 : κ) (v : ν) (hne : k2 ≠ k) :
    GoMap.get (GoMap.set m k v) k2 = GoMap.get m k2 := by
  have h : ¬ k = k2 := fun e => hne e.symm
  simp [GoMap.set, GoMap.get, h, GoMap_get_delete_other m k k2 hne]

end GoMapLemmas

/-! ## C1: NewPeerConn -/

/-- C1. For every transport and dial address, `NewPeerConn` fails with an error whose
cause is `ErrPeerIsSelf` exactly when the address is one of the own URLs or starts with
`localhost`; in every other case it returns, without error, the peer connection that
`makePeerConn` builds for that address, whose dial info is `(braidhttp, address)`. -/
theorem C1_NewPeerConn_refuses_self (t : transport) (d : String) :
    ((∃ err, (t.NewPeerConn d).2 = .error err ∧ errors.Cause err = .ErrPeerIsSelf) ↔
        (d ∈ t.ownURLs ∨ ∃ rest : String, d = "localhost" ++ rest)) ∧
      (¬ (d ∈ t.ownURLs ∨ ∃ rest : String, d = "localhost" ++ rest) →
        ∃ peer, (t.NewPeerConn d).2 = .ok peer ∧
          peer = (t.makePeerConn false false d ID.zero "" Address.zero).2 ∧
          peer.DialInfo = ⟨TransportName, d⟩) := by
  rw [← HasPrefix_iff]
  by_cases h : d ∈ t.ownURLs ∨ strings.HasPrefix d "localhost" = true
  · refine ⟨⟨fun _ => h, fun _ => ?_⟩, fun hn => absurd h hn⟩
    exact ⟨.WithStack .ErrPeerIsSelf, by simp only [transport.NewPeerConn, if_pos h], rfl⟩
  · refine ⟨⟨?_, fun h2 => absurd h2 h⟩, fun _ => ⟨_, ?_, rfl, rfl⟩⟩
    · rintro ⟨err, he, _⟩
      simp only [transport.NewPeerConn, if_neg h] at he
      cases he
    · simp only [transport.NewPeerConn, if_neg h]

/-- C1 at the example node: `localhost:80` is refused, `http://a` gets a peer connection
with that dial address. -/
theorem C1_NewPeerConn_refuses_self_witness :
    (∃ err, (Example.t.NewPeerConn "localhost:80").2 = .error err ∧
        errors.Cause err = .ErrPeerIsSelf) ∧
      (∃ peer, (Example.t.NewPeerConn "http://a").2 = .ok peer ∧
        peer = (Example.t.makePeerConn false false "http://a" ID.zero "" Address.zero).2 ∧
        peer.DialInfo = ⟨TransportName, "http://a"⟩) :=
  ⟨(C1_NewPeerConn_refuses_self Example.t "localhost:80").1.2 (Or.inr ⟨":80", rfl⟩),
    (C1_NewPeerConn_refuses_self Example.t "http://a").2
      (by rw [← HasPrefix_iff]; decide)⟩

/-! ## Signed cookies -/

theorem signedCookie_minted_form (c : Collaborators) (t : transport) (r : Request)
    (name : String) (cookie : Cookie) (v sig : Bytes) (id : PublicIdentity)
    (hc : r.Cookie name = .ok cookie)
    (hval : cookie.Value = hex.EncodeToString v ++ ":" ++ hex.EncodeToString sig)
    (hid : c.keyStore.DefaultPublicIdentity = .ok id) :
    transport.signedCookie c t r name =
      match c.keyStore.VerifySignature id.Address (c.HashBytes (v ++ t.cookieSecret)) sig with
      | .error err => .error err
      | .ok valid =>
        if !valid then
          .error (.Wrapf .ErrBadCookie
            ("cookie '" ++ name ++ "' has invalid signature (value: " ++
              hex.EncodeToString v ++ ")"))
        else .ok v := by
  simp only [transport.signedCookie, hc, hval, Split_hex_colon_hex,
    hex_DecodeString_EncodeToString, hid]

theorem signedCookie_sound (c : Collaborators) (t : transport) (r : Request)
    (name : String) (v : Bytes) (h : transport.signedCookie c t r name = .ok v) :
    ∃ cookie part0 part1 sig id,
      r.Cookie name = .ok cookie ∧
      strings.Split cookie.Value ':' = [part0, part1] ∧
      hex.DecodeString part0 = .ok v ∧
      hex.DecodeString part1 = .ok sig ∧
      c.keyStore.DefaultPublicIdentity = .ok id ∧
      c.keyStore.VerifySignature id.Address (c.HashBytes (v ++ t.cookieSecret)) sig =
        .ok true := by
  unfold transport.signedCookie at h
  split at h
  · split at h <;> cases h
  · rename_i cookie hcookie
    simp only at h
    split at h
    · rename_i part0 part1 hparts
      split at h
      · cases h
      · rename_i value hvalue
        split at h
        · cases h
        · rename_i sig hsig
          split at h
          · cases h
          · rename_i id hid
            split at h
            · cases h
            · rename_i valid hvalid
              cases valid
              · simp at h
              · simp only [Bool.not_true, Bool.false_eq_true, ↓reduceIte, Except.ok.injEq] at h
                subst h
                exact ⟨cookie, part0, part1, sig, id, hcookie, hparts, hvalue, hsig, hid, hvalid⟩
    · cases h

theorem Request_Cookie_absent (r : Request) (name : String)
    (h : ∀ ck ∈ r.Cookies, ck.Name ≠ name) : r.Cookie name = .error .ErrNoCookie := by
  have hnone : r.Cookies.find? (fun ck => decide (ck.Name = name)) = none := by
    rw [List.find?_eq_none]
    intro ck hck
    simpa using h ck hck
  simp only [Request.Cookie, hnone]

theorem Example_keyStore_accepts_own_signatures (addr : Address) (hash : Hash) (sig : Bytes)
    (h : Example.c.keyStore.SignHash addr hash = .ok sig) :
    Example.c.keyStore.VerifySignature addr hash sig = .ok true := by
  simp only [Example.c, keyStoreOf, List.find?] at h ⊢
  by_cases haddr : Example.keypair.SigningPublicKey.Address Example.eth = addr
  · simp only [haddr, decide_True] at h ⊢
    simp only [signingPrivateKey.SignHash, Example.eth, Except.ok.injEq] at h
    subst h
    simp [signingPublicKey.VerifySignature, signingPublicKey.Bytes, Example.eth,
      Example.keypair]
  · simp [haddr] at h

/-! ## C2: a minted cookie verifies -/

/-- C2. Whenever `makeSignedCookie(name, value)` builds a cookie, and the key store's
`VerifySignature` accepts what its `SignHash` produced for the same address and hash: the
cookie's value is `hex(value) + ":" + hex(sig)` for the signature `sig` of the default
identity over `hash(value ‖ cookieSecret)`, its name is `name`, its path is `/`, and
`signedCookie` on every request carrying that cookie returns exactly `value`. -/
theorem C2_minted_cookie_verifies (c : Collaborators) (t : transport) (name : String)
    (value : Bytes) (cookie : Cookie)
    (hmint : transport.makeSignedCookie c t name value = .ok cookie)
    (hks : ∀ addr hash sig, c.keyStore.SignHash addr hash = .ok sig →
      c.keyStore.VerifySignature addr hash sig = .ok true) :
    (∃ id sig, c.keyStore.DefaultPublicIdentity = .ok id ∧
        c.keyStore.SignHash id.Address (c.HashBytes (value ++ t.cookieSecret)) = .ok sig ∧
        cookie.Value = hex.EncodeToString value ++ ":" ++ hex.EncodeToString sig) ∧
      cookie.Name = name ∧ cookie.Path = "/" ∧
      ∀ r : Request, r.Cookie name = .ok cookie →
        transport.signedCookie c t r name = .ok value := by
  unfold transport.makeSignedCookie at hmint
  split at hmint
  · cases hmint
  · rename_i id hid
    split at hmint
    · cases hmint
    · rename_i sig hsig
      simp only [Except.ok.injEq] at hmint
      subst hmint
      refine ⟨⟨id, sig, hid, hsig, rfl⟩, rfl, rfl, fun r hr => ?_⟩
      rw [signedCookie_minted_form c t r name _ value sig id hr rfl hid, hks _ _ _ hsig]
      rfl

/-- C2 at the example node: the cookie minted for the bytes 1, 2, 3. -/
theorem C2_minted_cookie_verifies_witness :
    transport.makeSignedCookie Example.c Example.t "address" [1, 2, 3] =
        .ok ⟨"address", "010203:130d00", "/", 87400⟩ ∧
      transport.signedCookie Example.c Example.t
        { Cookies := [⟨"address", "010203:130d00", "/", 87400⟩] } "address" = .ok [1, 2, 3] :=
  ⟨by decide,
    (C2_minted_cookie_verifies Example.c Example.t "address" [1, 2, 3]
      ⟨"address", "010203:130d00", "/", 87400⟩ (by decide)
      Example_keyStore_accepts_own_signatures).2.2.2
      { Cookies := [⟨"address", "010203:130d00", "/", 87400⟩] } (by decide)⟩

/-! ## C3: what signedCookie accepts -/

theorem signingPublicKey_VerifySignature_last_byte (eth : Ethereum) (pubkey : signingPublicKey)
    (hash : Hash) (front : Bytes) (b b2 : Byte) :
    pubkey.VerifySignature eth hash (front ++ [b]) =
      pubkey.VerifySignature eth hash (front ++ [b2]) := by
  simp [signingPublicKey.VerifySignature]

/-- C3, as stated, fails at the example node: the cookie minted for the bytes 1, 2, 3
carries the signature 13 0d 00; flipping the lowest bit of its last byte gives a different
signature, and `signedCookie` still returns the value for the altered cookie. -/
theorem C3_counterexample_flip_in_recovery_id :
    transport.makeSignedCookie Example.c Example.t "address" [1, 2, 3] =
        .ok ⟨"address",
          hex.EncodeToString [1, 2, 3] ++ ":" ++ hex.EncodeToString [0x13, 0x0d, 0x00], "/",
          87400⟩ ∧
      flipBit [0x13, 0x0d, 0x00] 16 = [0x13, 0x0d, 0x01] ∧
      flipBit [0x13, 0x0d, 0x00] 16 ≠ [0x13, 0x0d, 0x00] ∧
      transport.signedCookie Example.c Example.t
        { Cookies := [⟨"address",
            hex.EncodeToString [1, 2, 3] ++ ":" ++
              hex.EncodeToString (flipBit [0x13, 0x0d, 0x00] 16), "/", 87400⟩] }
        "address" = .ok [1, 2, 3] := by
  decide

/-- C3, amended. `signedCookie` returns a value only when the cookie's two parts decode to
that value and a signature which the key store's `VerifySignature` accepts, under the
node's default public identity, over `hash(value ‖ cookieSecret)` for exactly the returned
value. So a cookie of the minted form whose value bytes or signature bytes were altered
(by a bit flip or otherwise) is rejected whenever the key store does not accept the
altered signature for the altered value. And where the key store verifies through
`signingPublicKey.VerifySignature`, which cuts off the final byte (the recovery id),
changing only the final signature byte never changes the outcome of `signedCookie`. -/
theorem C3_signedCookie_accepts_only_verified (c : Collaborators) (t : transport) :
    (∀ (r : Request) (name : String) (v : Bytes),
        transport.signedCookie c t r name = .ok v →
        ∃ cookie part0 part1 sig id,
          r.Cookie name = .ok cookie ∧
          strings.Split cookie.Value ':' = [part0, part1] ∧
          hex.DecodeString part0 = .ok v ∧
          hex.DecodeString part1 = .ok sig ∧
          c.keyStore.DefaultPublicIdentity = .ok id ∧
          c.keyStore.VerifySignature id.Address (c.HashBytes (v ++ t.cookieSecret)) sig =
            .ok true) ∧
      (∀ (r : Request) (name : String) (cookie : Cookie) (v2 sig2 : Bytes)
          (id : PublicIdentity),
        r.Cookie name = .ok cookie →
        cookie.Value = hex.EncodeToString v2 ++ ":" ++ hex.EncodeToString sig2 →
        c.keyStore.DefaultPublicIdentity = .ok id →
        c.keyStore.VerifySignature id.Address (c.HashBytes (v2 ++ t.cookieSecret)) sig2 ≠
          .ok true →
        ∃ err, transport.signedCookie c t r name = .error err) ∧
      (∀ (identities : List SigKeypair) (r r2 : Request) (name : String)
          (cookie cookie2 : Cookie) (v front : Bytes) (b b2 : Byte),
        c.keyStore = keyStoreOf c.eth identities →
        r.Cookie name = .ok cookie →
        cookie.Value = hex.EncodeToString v ++ ":" ++ hex.EncodeToString (front ++ [b]) →
        r2.Cookie name = .ok cookie2 →
        cookie2.Value = hex.EncodeToString v ++ ":" ++ hex.EncodeToString (front ++ [b2]) →
        transport.signedCookie c t r2 name = transport.signedCookie c t r name) := by
  refine ⟨fun r name v h => signedCookie_sound c t r name v h, ?_, ?_⟩
  · intro r name cookie v2 sig2 id hc hval hid hver
    rw [signedCookie_minted_form c t r name cookie v2 sig2 id hc hval hid]
    cases hv : c.keyStore.VerifySignature id.Address (c.HashBytes (v2 ++ t.cookieSecret)) sig2 with
    | error e => exact ⟨e, rfl⟩
    | ok valid =>
      cases valid with
      | false => exact ⟨_, rfl⟩
      | true => exact absurd hv hver
  · intro identities r r2 name cookie cookie2 v front b b2 hks hc hval hc2 hval2
    cases hid : c.keyStore.DefaultPublicIdentity with
    | error e =>
      simp only [transport.signedCookie, hc, hval, hc2, hval2, Split_hex_colon_hex,
        hex_DecodeString_EncodeToString, hid]
    | ok id =>
      rw [signedCookie_minted_form c t r name cookie v _ id hc hval hid,
        signedCookie_minted_form c t r2 name cookie2 v _ id hc2 hval2 hid]
      have hsame : c.keyStore.VerifySignature id.Address (c.HashBytes (v ++ t.cookieSecret))
          (front ++ [b2]) =
          c.keyStore.VerifySignature id.Address (c.HashBytes (v ++ t.cookieSecret))
            (front ++ [b]) := by
        rw [hks]
        simp only [keyStoreOf]
        cases identities.find? (fun kp => kp.SigningPublicKey.Address c.eth = id.Address) with
        | none => rfl
        | some kp =>
          simp only [signingPublicKey_VerifySignature_last_byte c.eth kp.SigningPublicKey _
            front b2 b]
      rw [hsame]

/-- C3 (amended) at the example node: the cookie with the signature 13 0d 00 replaced by
14 0d 00 is rejected, and the one with 13 0d 01 is treated like the minted one. -/
theorem C3_signedCookie_accepts_only_verified_witness :
    (∃ err, transport.signedCookie Example.c Example.t
        { Cookies := [⟨"address", "010203:140d00", "/", 87400⟩] } "address" = .error err) ∧
      transport.signedCookie Example.c Example.t
          { Cookies := [⟨"address", "010203:130d01", "/", 87400⟩] } "address" =
        transport.signedCookie Example.c Example.t
          { Cookies := [⟨"address", "010203:130d00", "/", 87400⟩] } "address" :=
  ⟨(C3_signedCookie_accepts_only_verified Example.c Example.t).2.1
      { Cookies := [⟨"address", "010203:140d00", "/", 87400⟩] } "address"
      ⟨"address", "010203:140d00", "/", 87400⟩ [1, 2, 3] [0x14, 0x0d, 0x00]
      ⟨copyInto 20 [7]⟩ (by decide) (by decide) (by decide) (by decide),
    (C3_signedCookie_accepts_only_verified Example.c Example.t).2.2
      [Example.keypair]
      { Cookies := [⟨"address", "010203:130d00", "/", 87400⟩] }
      { Cookies := [⟨"address", "010203:130d01", "/", 87400⟩] } "address"
      ⟨"address", "010203:130d00", "/", 87400⟩ ⟨"address", "010203:130d01", "/", 87400⟩
      [1, 2, 3] [0x13, 0x0d] 0 1 rfl (by decide) (by decide) (by decide) (by decide)⟩

/-! ## C4: absent and invalid cookies -/

theorem signedCookie_absent (c : Collaborators) (t : transport) (r : Request)
    (name : String) (h : ∀ ck ∈ r.Cookies, ck.Name ≠ name) :
    transport.signedCookie c t r name = .error .Err404 := by
  simp only [transport.signedCookie, Request_Cookie_absent r name h, errors.Cause,
    if_true]

theorem signedCookie_malformed (c : Collaborators) (t : transport) (r : Request)
    (name : String) (cookie : Cookie) (hc : r.Cookie name = .ok cookie)
    (hbad : (strings.Split cookie.Value ':').length ≠ 2 ∨
      ∃ part ∈ strings.Split cookie.Value ':', ∃ e, hex.DecodeString part = .error e) :
    ∃ err, transport.signedCookie c t r name = .error err ∧
      errors.Cause err = .ErrBadCookie := by
  unfold transport.signedCookie
  simp only [hc]
  split
  · rename_i part0 part1 hparts
    rw [hparts] at hbad
    rcases hbad with hlen | ⟨part, hmem, e, he⟩
    · simp at hlen
    · split
      · exact ⟨_, rfl, rfl⟩
      · rename_i value hvalue
        split
        · exact ⟨_, rfl, rfl⟩
        · rename_i sig hsig
          simp only [List.mem_cons, List.mem_singleton, List.not_mem_nil, or_false] at hmem
          rcases hmem with rfl | rfl
          · rw [hvalue] at he
            cases he
          · rw [hsig] at he
            cases he
  · exact ⟨_, rfl, rfl⟩

/-- C4. `signedCookie` tells an absent cookie from an invalid one. When the request has no
cookie of the given name, the result is an error whose cause is `Err404`. When the cookie
is there and its value does not split on `:` into exactly two parts, or one of the parts is
not valid hex, the result is an error whose cause is `ErrBadCookie`. Either way no value is
returned. -/
theorem C4_signedCookie_absent_vs_invalid (c : Collaborators) (t : transport) (r : Request)
    (name : String) :
    ((∀ ck ∈ r.Cookies, ck.Name ≠ name) →
        ∃ err, transport.signedCookie c t r name = .error err ∧
          errors.Cause err = .Err404) ∧
      (∀ cookie, r.Cookie name = .ok cookie →
        ((strings.Split cookie.Value ':').length ≠ 2 ∨
          ∃ part ∈ strings.Split cookie.Value ':', ∃ e, hex.DecodeString part = .error e) →
        ∃ err, transport.signedCookie c t r name = .error err ∧
          errors.Cause err = .ErrBadCookie) :=
  ⟨fun h => ⟨.Err404, signedCookie_absent c t r name h, rfl⟩,
    fun cookie hc hbad => signedCookie_malformed c t r name cookie hc hbad⟩

/-- C4 at the example node: a request without cookies, and one whose `address` cookie has
a single part. -/
theorem C4_signedCookie_absent_vs_invalid_witness :
    (∃ err, transport.signedCookie Example.c Example.t {} "address" = .error err ∧
        errors.Cause err = .Err404) ∧
      (∃ err, transport.signedCookie Example.c Example.t
          { Cookies := [⟨"address", "010203", "/", 0⟩] } "address" = .error err ∧
        errors.Cause err = .ErrBadCookie) :=
  ⟨(C4_signedCookie_absent_vs_invalid Example.c Example.t {} "address").1 (by decide),
    (C4_signedCookie_absent_vs_invalid Example.c Example.t
      { Cookies := [⟨"address", "010203", "/", 0⟩] } "address").2
      ⟨"address", "010203", "/", 0⟩ (by decide) (Or.inl (by decide))⟩

/-! ## C5, C6: addressFromRequest -/

theorem setSignedCookieOnResponse_keeps (c : Collaborators) (t : transport)
    (w : ResponseWriter) (name : String) (value : Bytes) :
    (transport.setSignedCookieOnResponse c t w name value).2.status = w.status ∧
      (transport.setSignedCookieOnResponse c t w name value).2.body = w.body ∧
      (transport.setSignedCookieOnResponse c t w name value).2.header = w.header := by
  unfold transport.setSignedCookieOnResponse
  cases transport.makeSignedCookie c t name value <;> exact ⟨rfl, rfl, rfl⟩

theorem ensureSessionIDCookieOnResponse_keeps (c : Collaborators) (t : transport)
    (w : ResponseWriter) (r : Request) :
    (transport.ensureSessionIDCookieOnResponse c t w r).2.2.status = w.status ∧
      (transport.ensureSessionIDCookieOnResponse c t w r).2.2.body = w.body ∧
      (transport.ensureSessionIDCookieOnResponse c t w r).2.2.header = w.header := by
  unfold transport.ensureSessionIDCookieOnResponse
  cases transport.signedCookie c t r "sessionid" with
  | error e => exact setSignedCookieOnResponse_keeps c t w "sessionid" c.RandomID
  | ok bs => exact ⟨rfl, rfl, rfl⟩

theorem addressFromRequest_no_jwt (c : Collaborators) (t : transport) (r : Request)
    (jwt : String) (hu : c.UnmarshalJWT r = .ok jwt)
    (hj : c.ParseJWT jwt t.jwtSecret = .ok none) :
    transport.addressFromRequest c t r =
      match transport.signedCookie c t r "address" with
      | .error err => if errors.Cause err = .Err404 then .ok Address.zero else .error err
      | .ok addressBytes => .ok (c.AddressFromBytes addressBytes) := by
  simp only [transport.addressFromRequest, hu, hj]

theorem http_Error_status (w : ResponseWriter) (msg : String) (code : Nat)
    (hw : w.status = none) : (http.Error w msg code).status = some code := by
  simp [http.Error, ResponseWriter.Write, ResponseWriter.WriteHeader, hw]

/-- C5. For every request without a JWT (the token read from the request does not exist
for `ParseJWT`): with no `address` cookie, `addressFromRequest` returns the zero address
and no error; with an `address` cookie that is malformed, or whose signature the key store
reports as not valid, it returns an error (of cause `ErrBadCookie`); with a cookie that
`signedCookie` accepts, the address is `AddressFromBytes` of the cookie's value bytes. And
whenever `addressFromRequest` returns an error on a request that got past the session
cookie, `ServeHTTP` answers 400, runs no endpoint handler and leaves the transport as it
was. -/
theorem C5_address_cookie_resolution (c : Collaborators) (t : transport) (r : Request)
    (jwt : String) (hu : c.UnmarshalJWT r = .ok jwt)
    (hj : c.ParseJWT jwt t.jwtSecret = .ok none) :
    ((∀ ck ∈ r.Cookies, ck.Name ≠ "address") →
        transport.addressFromRequest c t r = .ok Address.zero) ∧
      (∀ cookie, r.Cookie "address" = .ok cookie →
        ((strings.Split cookie.Value ':').length ≠ 2 ∨
          ∃ part ∈ strings.Split cookie.Value ':', ∃ e, hex.DecodeString part = .error e) →
        ∃ err, transport.addressFromRequest c t r = .error err ∧
          errors.Cause err = .ErrBadCookie) ∧
      (∀ cookie part0 part1 value sig id, r.Cookie "address" = .ok cookie →
        strings.Split cookie.Value ':' = [part0, part1] →
        hex.DecodeString part0 = .ok value →
        hex.DecodeString part1 = .ok sig →
        c.keyStore.DefaultPublicIdentity = .ok id →
        c.keyStore.VerifySignature id.Address (c.HashBytes (value ++ t.cookieSecret)) sig =
          .ok false →
        ∃ err, transport.addressFromRequest c t r = .error err ∧
          errors.Cause err = .ErrBadCookie) ∧
      (∀ value, transport.signedCookie c t r "address" = .ok value →
        transport.addressFromRequest c t r = .ok (c.AddressFromBytes value)) ∧
      (∀ err w sessionID w1, transport.addressFromRequest c t r = .error err →
        transport.ensureSessionIDCookieOnResponse c t w r = (sessionID, none, w1) →
        w.status = none →
        (transport.ServeHTTP c t w r).w.status = some 400 ∧
          (transport.ServeHTTP c t w r).ran = [] ∧
          (transport.ServeHTTP c t w r).t = t) := by
  have hform := addressFromRequest_no_jwt c t r jwt hu hj
  refine ⟨?_, ?_, ?_, ?_, ?_⟩
  · intro h
    rw [hform, signedCookie_absent c t r "address" h]
    simp only [errors.Cause, if_true]
  · intro cookie hc hbad
    obtain ⟨err, he, hcause⟩ := signedCookie_malformed c t r "address" cookie hc hbad
    refine ⟨err, ?_, hcause⟩
    rw [hform, he]
    simp [hcause]
  · intro cookie part0 part1 value sig id hc hparts hv hs hid hver
    refine ⟨.Wrapf .ErrBadCookie
      ("cookie '" ++ "address" ++ "' has invalid signature (value: " ++
        hex.EncodeToString value ++ ")"), ?_, rfl⟩
    rw [hform]
    simp only [transport.signedCookie, hc, hparts, hv, hs, hid, hver]
    rfl
  · intro value h
    rw [hform, h]
  · intro err w sessionID w1 he hs hw
    have hk := (ensureSessionIDCookieOnResponse_keeps c t w r).1
    rw [hs] at hk
    simp only at hk
    have hw1 : w1.status = none := hk.trans hw
    simp only [transport.ServeHTTP, hs, he]
    exact ⟨http_Error_status w1 _ _ hw1, trivial, trivial⟩

/-- C5 at the example node: a request without cookies resolves to the zero address, and a
request whose `address` cookie has a single part is answered with 400 by `ServeHTTP`
without running a handler. -/
theorem C5_address_cookie_resolution_witness :
    transport.addressFromRequest Example.c Example.t {} = .ok Address.zero ∧
      (transport.ServeHTTP Example.c Example.t {}
          { Method := "AUTHORIZE", Cookies := [⟨"address", "010203", "/", 0⟩] }).w.status =
        some 400 ∧
      (transport.ServeHTTP Example.c Example.t {}
          { Method := "AUTHORIZE", Cookies := [⟨"address", "010203", "/", 0⟩] }).ran = [] ∧
      (transport.ServeHTTP Example.c Example.t {}
          { Method := "AUTHORIZE", Cookies := [⟨"address", "010203", "/", 0⟩] }).t =
        Example.t :=
  ⟨(C5_address_cookie_resolution Example.c Example.t {} "" (by decide) (by decide)).1
      (by decide),
    (C5_address_cookie_resolution Example.c Example.t
      { Method := "AUTHORIZE", Cookies := [⟨"address", "010203", "/", 0⟩] } ""
      (by decide) (by decide)).2.2.2.2
      (.Wrapf .ErrBadCookie "cookie 'address' has 1 parts") {} Example.session
      (transport.ensureSessionIDCookieOnResponse Example.c Example.t {}
        { Method := "AUTHORIZE", Cookies := [⟨"address", "010203", "/", 0⟩] }).2.2
      (by decide) (by decide) (by decide)⟩

/-- C6, as stated, fails at the example node: the request carries a JWT that validates but
has no `address` claim, together with an `address` cookie that `signedCookie` accepts;
`addressFromRequest` returns an error instead of the address of the cookie. -/
theorem C6_counterexample_jwt_without_address_claim :
    Example.c.UnmarshalJWT
        { Header := [("Authorization", ["jwt-noaddr"])],
          Cookies := [⟨"address", "010203:130d00", "/", 87400⟩] } = .ok "jwt-noaddr" ∧
      Example.c.ParseJWT "jwt-noaddr" Example.t.jwtSecret = .ok (some []) ∧
      transport.signedCookie Example.c Example.t
        { Header := [("Authorization", ["jwt-noaddr"])],
          Cookies := [⟨"address", "010203:130d00", "/", 87400⟩] } "address" =
        .ok [1, 2, 3] ∧
      transport.addressFromRequest Example.c Example.t
        { Header := [("Authorization", ["jwt-noaddr"])],
          Cookies := [⟨"address", "010203:130d00", "/", 87400⟩] } =
        .error (.New "jwt does not contain 'address' claim") := by
  decide

/-- C6, amended. `addressFromRequest` resolves in order. If the request carries a JWT that
validates and whose `address` claim is a string that `AddressFromHex` decodes, that
address is returned regardless of any cookie. If the JWT validates but its `address` claim
is absent, not a string, or not decodable, an error is returned and the cookie is not
consulted. If the JWT does not validate, that error is returned. Only when there is no
JWT is the address read from the signed `address` cookie: the zero address when the cookie
is absent, the error when it is invalid, `AddressFromBytes` of its value otherwise. -/
theorem C6_addressFromRequest_order (c : Collaborators) (t : transport) (r : Request)
    (jwt : String) (hu : c.UnmarshalJWT r = .ok jwt) :
    (∀ claims addrHex addr, c.ParseJWT jwt t.jwtSecret = .ok (some claims) →
        GoMap.get claims "address" = some (.string addrHex) →
        c.AddressFromHex addrHex = .ok addr →
        transport.addressFromRequest c t r = .ok addr) ∧
      (∀ claims, c.ParseJWT jwt t.jwtSecret = .ok (some claims) →
        (GoMap.get claims "address" = none ∨ GoMap.get claims "address" = some .other ∨
          ∃ addrHex e, GoMap.get claims "address" = some (.string addrHex) ∧
            c.AddressFromHex addrHex = .error e) →
        ∃ err, transport.addressFromRequest c t r = .error err) ∧
      (∀ e, c.ParseJWT jwt t.jwtSecret = .error e →
        transport.addressFromRequest c t r = .error e) ∧
      (c.ParseJWT jwt t.jwtSecret = .ok none →
        transport.addressFromRequest c t r =
          match transport.signedCookie c t r "address" with
          | .error err => if errors.Cause err = .Err404 then .ok Address.zero else .error err
          | .ok addressBytes => .ok (c.AddressFromBytes addressBytes)) := by
  refine ⟨?_, ?_, ?_, fun hj => addressFromRequest_no_jwt c t r jwt hu hj⟩
  · intro claims addrHex addr hj hclaim haddr
    simp only [transport.addressFromRequest, hu, hj, hclaim, haddr]
  · intro claims hj hbad
    rcases hbad with h | h | ⟨addrHex, e, h, he⟩
    · exact ⟨.New "jwt does not contain 'address' claim",
        by simp only [transport.addressFromRequest, hu, hj, h]⟩
    · exact ⟨.New "jwt does not contain 'address' claim",
        by simp only [transport.addressFromRequest, hu, hj, h]⟩
    · exact ⟨.Wrapf e "jwt 'address' claim contains invalid data",
        by simp only [transport.addressFromRequest, hu, hj, h, he]⟩
  · intro e hj
    simp only [transport.addressFromRequest, hu, hj]

/-- C6 (amended) at the example node: with the token that carries an `address` claim the
address of the claim is returned although the request has a valid cookie for another value,
and with the token that has no such claim an error is returned. -/
theorem C6_addressFromRequest_order_witness :
    transport.addressFromRequest Example.c Example.t
        { Header := [("Authorization", ["jwt-addr"])],
          Cookies := [⟨"address", "010203:130d00", "/", 87400⟩] } =
        .ok (copyInto 20 [9, 9]) ∧
      (∃ err, transport.addressFromRequest Example.c Example.t
        { Header := [("Authorization", ["jwt-noaddr"])],
          Cookies := [⟨"address", "010203:130d00", "/", 87400⟩] } = .error err) :=
  ⟨(C6_addressFromRequest_order Example.c Example.t
      { Header := [("Authorization", ["jwt-addr"])],
        Cookies := [⟨"address", "010203:130d00", "/", 87400⟩] } "jwt-addr" (by decide)).1
      [("address", .string "0909")] "0909" (copyInto 20 [9, 9]) (by decide) (by decide)
      (by decide),
    (C6_addressFromRequest_order Example.c Example.t
      { Header := [("Authorization", ["jwt-noaddr"])],
        Cookies := [⟨"address", "010203:130d00", "/", 87400⟩] } "jwt-noaddr"
      (by decide)).2.1 [] (by decide) (Or.inl (by decide))⟩

/-! ## C7: the phases of AUTHORIZE -/

theorem ServeHTTP_authorize (c : Collaborators) (t : transport) (w w1 : ResponseWriter)
    (r : Request) (sessionID : ID) (address : Address)
    (hm : r.Method = "AUTHORIZE")
    (hs : transport.ensureSessionIDCookieOnResponse c t w r = (sessionID, none, w1))
    (ha : transport.addressFromRequest c t r = .ok address) :
    ∃ duID : String,
      transport.ServeHTTP c t w r =
        transport.serveAuthorize c
          (transport.storeAltSvcHeaderPeers c
            (t.makePeerConn true false "" sessionID duID address).1 r.Header)
          { w1 with
            header := w1.header.Set "Alt-Svc"
              (c.makeAltSvcHeader (c.AllDialInfos
                (t.makePeerConn true false "" sessionID duID address).1.peerStore)) }
          r (t.makePeerConn true false "" sessionID duID address).2 := by
  refine ⟨match r.TLSPeerCertificates with
    | cert :: _ => c.DeviceIDFromX509Pubkey cert
    | [] => ID.Hex sessionID, ?_⟩
  simp [transport.ServeHTTP, hs, ha, hm]

/-- C7. For an AUTHORIZE request the phase is decided by the `Challenge` and `Response`
headers alone. In the AUTHORIZE case of the method switch, from any transport, response
and peer connection: a non-empty `Challenge` header runs `serveChallengeIdentityResponse`
(phase 1) whatever the `Response` header is; `Challenge` empty and `Response` empty runs
`serveChallengeIdentity` (phase 2a); `Challenge` empty and `Response` non-empty runs
`serveChallengeIdentityCheckResponse` (phase 2b); the outcome is that of the one handler.
And for every AUTHORIZE request that `ServeHTTP` lets through to the method switch
(session cookie and address resolved), exactly one of the three handlers runs, the one just
named. -/
theorem C7_authorize_phase_by_headers (c : Collaborators) (r : Request) :
    (∀ (t : transport) (w : ResponseWriter) (p : peerConn),
        (r.Header.Get "Challenge" ≠ "" →
          transport.serveAuthorize c t w r p =
            ⟨(transport.serveChallengeIdentityResponse c t w p (r.Header.Get "Challenge")).1,
              (transport.serveChallengeIdentityResponse c t w p (r.Header.Get "Challenge")).2,
              [.serveChallengeIdentityResponse]⟩) ∧
        (r.Header.Get "Challenge" = "" → r.Header.Get "Response" = "" →
          transport.serveAuthorize c t w r p =
            ⟨(transport.serveChallengeIdentity c t w p).1,
              (transport.serveChallengeIdentity c t w p).2, [.serveChallengeIdentity]⟩) ∧
        (r.Header.Get "Challenge" = "" → r.Header.Get "Response" ≠ "" →
          transport.serveAuthorize c t w r p =
            ⟨(transport.serveChallengeIdentityCheckResponse c t w p
                (r.Header.Get "Response")).1,
              (transport.serveChallengeIdentityCheckResponse c t w p
                (r.Header.Get "Response")).2,
              [.serveChallengeIdentityCheckResponse]⟩)) ∧
      (∀ (t : transport) (w w1 : ResponseWriter) (sessionID : ID) (address : Address),
        r.Method = "AUTHORIZE" →
        transport.ensureSessionIDCookieOnResponse c t w r = (sessionID, none, w1) →
        transport.addressFromRequest c t r = .ok address →
        (r.Header.Get "Challenge" ≠ "" →
          (transport.ServeHTTP c t w r).ran = [.serveChallengeIdentityResponse]) ∧
        (r.Header.Get "Challenge" = "" → r.Header.Get "Response" = "" →
          (transport.ServeHTTP c t w r).ran = [.serveChallengeIdentity]) ∧
        (r.Header.Get "Challenge" = "" → r.Header.Get "Response" ≠ "" →
          (transport.ServeHTTP c t w r).ran = [.serveChallengeIdentityCheckResponse])) := by
  have hswitch : ∀ (t : transport) (w : ResponseWriter) (p : peerConn),
      (r.Header.Get "Challenge" ≠ "" →
        transport.serveAuthorize c t w r p =
          ⟨(transport.serveChallengeIdentityResponse c t w p (r.Header.Get "Challenge")).1,
            (transport.serveChallengeIdentityResponse c t w p (r.Header.Get "Challenge")).2,
            [.serveChallengeIdentityResponse]⟩) ∧
      (r.Header.Get "Challenge" = "" → r.Header.Get "Response" = "" →
        transport.serveAuthorize c t w r p =
          ⟨(transport.serveChallengeIdentity c t w p).1,
            (transport.serveChallengeIdentity c t w p).2, [.serveChallengeIdentity]⟩) ∧
      (r.Header.Get "Challenge" = "" → r.Header.Get "Response" ≠ "" →
        transport.serveAuthorize c t w r p =
          ⟨(transport.serveChallengeIdentityCheckResponse c t w p
              (r.Header.Get "Response")).1,
            (transport.serveChallengeIdentityCheckResponse c t w p
              (r.Header.Get "Response")).2,
            [.serveChallengeIdentityCheckResponse]⟩) := by
    intro t w p
    refine ⟨fun h => ?_, fun h1 h2 => ?_, fun h1 h2 => ?_⟩
    · simp only [transport.serveAuthorize, h, ne_eq, not_false_eq_true, if_true]
    · simp only [transport.serveAuthorize, h1, h2, ne_eq, not_true_eq_false, if_false, if_true]
    · simp only [transport.serveAuthorize, h1, h2, ne_eq, not_true_eq_false, if_false]
  refine ⟨hswitch, ?_⟩
  intro t w w1 sessionID address hm hs ha
  obtain ⟨duID, hserve⟩ := ServeHTTP_authorize c t w w1 r sessionID address hm hs ha
  rw [hserve]
  obtain ⟨h1, h2, h3⟩ := hswitch
    (transport.storeAltSvcHeaderPeers c
      (t.makePeerConn true false "" sessionID duID address).1 r.Header)
    { w1 with
      header := w1.header.Set "Alt-Svc"
        (c.makeAltSvcHeader (c.AllDialInfos
          (t.makePeerConn true false "" sessionID duID address).1.peerStore)) }
    (t.makePeerConn true false "" sessionID duID address).2
  exact ⟨fun h => by rw [h1 h], fun ha hb => by rw [h2 ha hb], fun ha hb => by rw [h3 ha hb]⟩

/-- C7 at the example node: an AUTHORIZE request without headers runs phase 2a, one with a
`Response` header runs phase 2b, one with both headers runs phase 1. -/
theorem C7_authorize_phase_by_headers_witness :
    (transport.ServeHTTP Example.c Example.t {} { Method := "AUTHORIZE" }).ran =
        [.serveChallengeIdentity] ∧
      (transport.ServeHTTP Example.c Example.t {}
          { Method := "AUTHORIZE", Header := [("Response", ["b40a00"])] }).ran =
        [.serveChallengeIdentityCheckResponse] ∧
      (transport.ServeHTTP Example.c Example.t {}
          { Method := "AUTHORIZE",
            Header := [("Challenge", ["c0ffee"]), ("Response", ["b40a00"])] }).ran =
        [.serveChallengeIdentityResponse] :=
  ⟨((C7_authorize_phase_by_headers Example.c { Method := "AUTHORIZE" }).2 Example.t {}
      (transport.ensureSessionIDCookieOnResponse Example.c Example.t {}
        { Method := "AUTHORIZE" }).2.2
      Example.session Address.zero (by decide) (by decide) (by decide)).2.1
      (by decide) (by decide),
    ((C7_authorize_phase_by_headers Example.c
      { Method := "AUTHORIZE", Header := [("Response", ["b40a00"])] }).2 Example.t {}
      (transport.ensureSessionIDCookieOnResponse Example.c Example.t {}
        { Method := "AUTHORIZE", Header := [("Response", ["b40a00"])] }).2.2
      Example.session Address.zero (by decide) (by decide) (by decide)).2.2
      (by decide) (by decide),
    ((C7_authorize_phase_by_headers Example.c
      { Method := "AUTHORIZE",
        Header := [("Challenge", ["c0ffee"]), ("Response", ["b40a00"])] }).2 Example.t {}
      (transport.ensureSessionIDCookieOnResponse Example.c Example.t {}
        { Method := "AUTHORIZE",
          Header := [("Challenge", ["c0ffee"]), ("Response", ["b40a00"])] }).2.2
      Example.session Address.zero (by decide) (by decide) (by decide)).1
      (by decide)⟩

/-! ## C8: phase 2a -/

/-- C8. After a phase 2a for the session of the peer connection in which
`GenerateChallengeMsg` produced the challenge `C`: `pendingAuthorizations` maps the session
to `C`, whatever it held for the session before; the entry of every other session is what
it was; nothing else in the transport changed; and the body of the response is what was
written before followed by `hex(C)`, hence exactly `hex(C)` on a response nothing was
written to. -/
theorem C8_challenge_stored_and_sent (c : Collaborators) (t : transport) (w : ResponseWriter)
    (p : peerConn) (C : Bytes) (hgen : c.GenerateChallengeMsg = .ok C) :
    GoMap.get (transport.serveChallengeIdentity c t w p).1.pendingAuthorizations p.sessionID =
        some C ∧
      (∀ s, s ≠ p.sessionID →
        GoMap.get (transport.serveChallengeIdentity c t w p).1.pendingAuthorizations s =
          GoMap.get t.pendingAuthorizations s) ∧
      (transport.serveChallengeIdentity c t w p).1 =
        { t with
          pendingAuthorizations :=
            (transport.serveChallengeIdentity c t w p).1.pendingAuthorizations } ∧
      (transport.serveChallengeIdentity c t w p).2.body = w.body ++ hex.EncodeToString C ∧
      (w.body = "" →
        (transport.serveChallengeIdentity c t w p).2.body = hex.EncodeToString C) := by
  have hrun : transport.serveChallengeIdentity c t w p =
      ({ t with
          pendingAuthorizations := GoMap.set t.pendingAuthorizations p.sessionID C },
        w.Write (hex.EncodeToString C)) := by
    simp only [transport.serveChallengeIdentity, hgen]
  have hbody : (w.Write (hex.EncodeToString C)).body = w.body ++ hex.EncodeToString C := by
    unfold ResponseWriter.Write ResponseWriter.WriteHeader
    cases w.status <;> rfl
  rw [hrun]
  refine ⟨GoMap_get_set_self _ _ _, fun s hs => GoMap_get_set_other _ _ _ _ hs, rfl, hbody,
    fun hempty => ?_⟩
  simp only [hbody, hempty]
  apply String.ext
  simp [String.data_append]

/-- C8 at the example node: the session already has a pending challenge, and another
session has one too. -/
theorem C8_challenge_stored_and_sent_witness :
    GoMap.get (transport.serveChallengeIdentity Example.c
        { Example.t with
          pendingAuthorizations := [(Example.session, [1]), (ID.zero, [2])] }
        {} Example.peer).1.pendingAuthorizations Example.session = some [0xc0, 0xff, 0xee] ∧
      GoMap.get (transport.serveChallengeIdentity Example.c
        { Example.t with
          pendingAuthorizations := [(Example.session, [1]), (ID.zero, [2])] }
        {} Example.peer).1.pendingAuthorizations ID.zero = some [2] ∧
      (transport.serveChallengeIdentity Example.c
        { Example.t with
          pendingAuthorizations := [(Example.session, [1]), (ID.zero, [2])] }
        {} Example.peer).2.body = "c0ffee" :=
  ⟨(C8_challenge_stored_and_sent Example.c
      { Example.t with pendingAuthorizations := [(Example.session, [1]), (ID.zero, [2])] }
      {} Example.peer [0xc0, 0xff, 0xee] (by decide)).1,
    ((C8_challenge_stored_and_sent Example.c
      { Example.t with pendingAuthorizations := [(Example.session, [1]), (ID.zero, [2])] }
      {} Example.peer [0xc0, 0xff, 0xee] (by decide)).2.1 ID.zero (by decide)).trans
      (by decide),
    ((C8_challenge_stored_and_sent Example.c
      { Example.t with pendingAuthorizations := [(Example.session, [1]), (ID.zero, [2])] }
      {} Example.peer [0xc0, 0xff, 0xee] (by decide)).2.2.2.2 (by decide)).trans
      (by decide)⟩

/-! ## C9, C10: phase 2b -/

/-- C9. For every phase 2b request whose session has no entry in `pendingAuthorizations`:
the transport is left exactly as it was, so `pendingAuthorizations` is unchanged and
nothing is recorded in the peer store; the cookies of the response are the ones it had
before, so no `address` cookie is set; and on a response whose header was not written yet
the status is 400, sent with those same cookies. -/
theorem C9_no_pending_authorization (c : Collaborators) (t : transport) (w : ResponseWriter)
    (p : peerConn) (responseHex : String)
    (hnone : GoMap.get t.pendingAuthorizations p.sessionID = none) :
    (transport.serveChallengeIdentityCheckResponse c t w p responseHex).1 = t ∧
      (transport.serveChallengeIdentityCheckResponse c t w p responseHex).2.cookies =
        w.cookies ∧
      (w.status = none →
        (transport.serveChallengeIdentityCheckResponse c t w p responseHex).2.status =
            some 400 ∧
          (transport.serveChallengeIdentityCheckResponse c t w p responseHex).2.sentCookies =
            w.cookies) := by
  have hrun : transport.serveChallengeIdentityCheckResponse c t w p responseHex =
      (t, http.Error w "no pending authorization" http.StatusBadRequest) := by
    simp only [transport.serveChallengeIdentityCheckResponse, hnone]
  rw [hrun]
  refine ⟨rfl, ?_, fun hw => ?_⟩
  · unfold http.Error ResponseWriter.Write ResponseWriter.WriteHeader
    cases w.status <;> rfl
  · simp [http.Error, ResponseWriter.Write, ResponseWriter.WriteHeader, hw,
      http.StatusBadRequest]

/-- C9 at the example node, which has no pending authorization at all. -/
theorem C9_no_pending_authorization_witness :
    (transport.serveChallengeIdentityCheckResponse Example.c Example.t {} Example.peer
        "b40a00").1 = Example.t ∧
      (transport.serveChallengeIdentityCheckResponse Example.c Example.t {} Example.peer
        "b40a00").2.cookies = [] ∧
      (transport.serveChallengeIdentityCheckResponse Example.c Example.t {} Example.peer
        "b40a00").2.status = some 400 :=
  ⟨(C9_no_pending_authorization Example.c Example.t {} Example.peer "b40a00" (by decide)).1,
    (C9_no_pending_authorization Example.c Example.t {} Example.peer "b40a00"
      (by decide)).2.1,
    ((C9_no_pending_authorization Example.c Example.t {} Example.peer "b40a00"
      (by decide)).2.2 (by decide)).1⟩

theorem makeSignedCookie_form (c : Collaborators) (t : transport) (name : String)
    (value : Bytes) (cookie : Cookie)
    (hmint : transport.makeSignedCookie c t name value = .ok cookie) :
    cookie.Name = name ∧ cookie.Path = "/" ∧
      ∃ id sig, c.keyStore.DefaultPublicIdentity = .ok id ∧
        c.keyStore.SignHash id.Address (c.HashBytes (value ++ t.cookieSecret)) = .ok sig ∧
        cookie.Value = hex.EncodeToString value ++ ":" ++ hex.EncodeToString sig := by
  unfold transport.makeSignedCookie at hmint
  split at hmint
  · cases hmint
  · rename_i id hid
    split at hmint
    · cases hmint
    · rename_i sig hsig
      simp only [Except.ok.injEq] at hmint
      subst hmint
      exact ⟨rfl, rfl, id, sig, hid, hsig, rfl⟩

/-- C10. For every successful phase 2b (the session has the pending challenge `C`, the
`Response` header decodes to `sig`, `RecoverSigningPubkey(HashBytes(C), sig)` gives the
public key `pk`, and the `address` cookie can be signed): the response carries exactly one
cookie, named `address`, whose value is `hex(a) + ":" + hex(s)` where `a` is
`pk.Address()` and `s` is the default identity's signature over `hash(a ‖ cookieSecret)`;
and the peer store gets exactly one further call, `AddVerifiedCredentials` under the dial
info `(braidhttp, "")` with the device id of the peer connection, the same address `a`,
the public key `pk` and no encryption key. -/
theorem C10_authorized_address (c : Collaborators) (t : transport) (w : ResponseWriter)
    (p : peerConn) (responseHex : String) (C sig : Bytes) (pk : signingPublicKey)
    (cookie : Cookie)
    (hpending : GoMap.get t.pendingAuthorizations p.sessionID = some C)
    (hsig : hex.DecodeString responseHex = .ok sig)
    (hrec : crypto.RecoverSigningPubkey c.eth (c.HashBytes C) sig = .ok pk)
    (hcookie : transport.makeSignedCookie c t "address" (pk.Address c.eth) = .ok cookie) :
    (transport.serveChallengeIdentityCheckResponse c t w p responseHex).2.cookies =
        [cookie] ∧
      cookie.Name = "address" ∧
      (∃ id s, c.keyStore.DefaultPublicIdentity = .ok id ∧
        c.keyStore.SignHash id.Address (c.HashBytes (pk.Address c.eth ++ t.cookieSecret)) =
          .ok s ∧
        cookie.Value =
          hex.EncodeToString (pk.Address c.eth) ++ ":" ++ hex.EncodeToString s) ∧
      (transport.serveChallengeIdentityCheckResponse c t w p responseHex).1.peerStore =
        t.peerStore ++
          [.AddVerifiedCredentials ⟨TransportName, ""⟩ p.DeviceUniqueID (pk.Address c.eth)
            (some pk) none] ∧
      (transport.serveChallengeIdentityCheckResponse c t w p responseHex).2.status =
        w.status := by
  obtain ⟨hname, -, hvalue⟩ := makeSignedCookie_form c t "address" _ cookie hcookie
  have hrun : transport.serveChallengeIdentityCheckResponse c t w p responseHex =
      ({ t with
          peerStore := t.peerStore ++
            [.AddVerifiedCredentials ⟨TransportName, ""⟩ p.DeviceUniqueID (pk.Address c.eth)
              (some pk) none]
          pendingAuthorizations := GoMap.delete t.pendingAuthorizations p.sessionID },
        { w with cookies := [cookie] }) := by
    simp only [transport.serveChallengeIdentityCheckResponse, hpending, hsig, hrec,
      transport.setSignedCookieOnResponse, hcookie, http.SetCookie,
      PeerStore.AddVerifiedCredentials, List.nil_append]
  rw [hrun]
  exact ⟨rfl, hname, hvalue, rfl, rfl⟩

/-- C10 at the example node: the pending challenge c0 ff ee and the response b4 0a 00,
which recovers the public key 7. -/
theorem C10_authorized_address_witness :
    (transport.serveChallengeIdentityCheckResponse Example.c
        { Example.t with pendingAuthorizations := [(Example.session, [0xc0, 0xff, 0xee])] }
        {} Example.peer "b40a00").2.cookies =
        [⟨"address", "0700000000000000000000000000000000000000:141e00", "/", 87400⟩] ∧
      (transport.serveChallengeIdentityCheckResponse Example.c
        { Example.t with pendingAuthorizations := [(Example.session, [0xc0, 0xff, 0xee])] }
        {} Example.peer "b40a00").1.peerStore =
        [.AddVerifiedCredentials ⟨TransportName, ""⟩ "device" (copyInto 20 [7])
          (some ⟨⟨7, 0⟩⟩) none] :=
  ⟨(C10_authorized_address Example.c
      { Example.t with pendingAuthorizations := [(Example.session, [0xc0, 0xff, 0xee])] }
      {} Example.peer "b40a00" [0xc0, 0xff, 0xee] [0xb4, 0x0a, 0x00] ⟨⟨7, 0⟩⟩
      ⟨"address", "0700000000000000000000000000000000000000:141e00", "/", 87400⟩
      (by decide) (by decide) (by decide) (by decide)).1,
    (C10_authorized_address Example.c
      { Example.t with pendingAuthorizations := [(Example.session, [0xc0, 0xff, 0xee])] }
      {} Example.peer "b40a00" [0xc0, 0xff, 0xee] [0xb4, 0x0a, 0x00] ⟨⟨7, 0⟩⟩
      ⟨"address", "0700000000000000000000000000000000000000:141e00", "/", 87400⟩
      (by decide) (by decide) (by decide) (by decide)).2.2.2.1⟩

/-! ## C11: phase 2b and the pending entry -/

theorem serveChallengeIdentityCheckResponse_no_pending (c : Collaborators) (t : transport)
    (w : ResponseWriter) (p : peerConn) (responseHex : String)
    (hnone : GoMap.get t.pendingAuthorizations p.sessionID = none) :
    transport.serveChallengeIdentityCheckResponse c t w p responseHex =
      (t, http.Error w "no pending authorization" http.StatusBadRequest) := by
  simp only [transport.serveChallengeIdentityCheckResponse, hnone]

theorem serveChallengeIdentityCheckResponse_success (c : Collaborators) (t : transport)
    (w : ResponseWriter) (p : peerConn) (responseHex : String) (C sig : Bytes)
    (pk : signingPublicKey) (cookie : Cookie)
    (hpending : GoMap.get t.pendingAuthorizations p.sessionID = some C)
    (hsig : hex.DecodeString responseHex = .ok sig)
    (hrec : crypto.RecoverSigningPubkey c.eth (c.HashBytes C) sig = .ok pk)
    (hcookie : transport.makeSignedCookie c t "address" (pk.Address c.eth) = .ok cookie) :
    transport.serveChallengeIdentityCheckResponse c t w p responseHex =
      ({ t with
          peerStore := t.peerStore ++
            [.AddVerifiedCredentials ⟨TransportName, ""⟩ p.DeviceUniqueID (pk.Address c.eth)
              (some pk) none]
          pendingAuthorizations := GoMap.delete t.pendingAuthorizations p.sessionID },
        { w with cookies := [cookie] }) := by
  simp only [transport.serveChallengeIdentityCheckResponse, hpending, hsig, hrec,
    transport.setSignedCookieOnResponse, hcookie, http.SetCookie,
    PeerStore.AddVerifiedCredentials, List.nil_append]

/-- C11. Phase 2b consumes the pending entry exactly on success. With a pending challenge
for the session: when the `Response` header is not valid hex, when the key recovery fails,
or when the `address` cookie cannot be signed, the transport is left exactly as it was, so
`pendingAuthorizations` is unchanged. When all three succeed, the session's entry is gone
afterwards, the entry of every other session is what it was, and a following phase 2b on
the same session, whatever its `Response` header, leaves the transport alone and answers
400 on a response whose header was not written yet. -/
theorem C11_pending_consumed_on_success (c : Collaborators) (t : transport)
    (w : ResponseWriter) (p : peerConn) (responseHex : String) (C : Bytes)
    (hpending : GoMap.get t.pendingAuthorizations p.sessionID = some C) :
    (∀ e, hex.DecodeString responseHex = .error e →
        (transport.serveChallengeIdentityCheckResponse c t w p responseHex).1 = t) ∧
      (∀ sig e, hex.DecodeString responseHex = .ok sig →
        crypto.RecoverSigningPubkey c.eth (c.HashBytes C) sig = .error e →
        (transport.serveChallengeIdentityCheckResponse c t w p responseHex).1 = t) ∧
      (∀ sig pk e, hex.DecodeString responseHex = .ok sig →
        crypto.RecoverSigningPubkey c.eth (c.HashBytes C) sig = .ok pk →
        transport.makeSignedCookie c t "address" (pk.Address c.eth) = .error e →
        (transport.serveChallengeIdentityCheckResponse c t w p responseHex).1 = t) ∧
      (∀ sig pk cookie, hex.DecodeString responseHex = .ok sig →
        crypto.RecoverSigningPubkey c.eth (c.HashBytes C) sig = .ok pk →
        transport.makeSignedCookie c t "address" (pk.Address c.eth) = .ok cookie →
        GoMap.get (transport.serveChallengeIdentityCheckResponse c t w p
            responseHex).1.pendingAuthorizations p.sessionID = none ∧
          (∀ s, s ≠ p.sessionID →
            GoMap.get (transport.serveChallengeIdentityCheckResponse c t w p
                responseHex).1.pendingAuthorizations s =
              GoMap.get t.pendingAuthorizations s) ∧
          ∀ (w2 : ResponseWriter) (responseHex2 : String), w2.status = none →
            (transport.serveChallengeIdentityCheckResponse c
                (transport.serveChallengeIdentityCheckResponse c t w p responseHex).1 w2 p
                responseHex2).1 =
              (transport.serveChallengeIdentityCheckResponse c t w p responseHex).1 ∧
            (transport.serveChallengeIdentityCheckResponse c
                (transport.serveChallengeIdentityCheckResponse c t w p responseHex).1 w2 p
                responseHex2).2.status = some 400) := by
  refine ⟨?_, ?_, ?_, ?_⟩
  · intro e he
    simp only [transport.serveChallengeIdentityCheckResponse, hpending, he]
  · intro sig e hsig hrec
    simp only [transport.serveChallengeIdentityCheckResponse, hpending, hsig, hrec]
  · intro sig pk e hsig hrec hcookie
    simp only [transport.serveChallengeIdentityCheckResponse, hpending, hsig, hrec,
      transport.setSignedCookieOnResponse, hcookie]
  · intro sig pk cookie hsig hrec hcookie
    rw [serveChallengeIdentityCheckResponse_success c t w p responseHex C sig pk cookie
      hpending hsig hrec hcookie]
    refine ⟨GoMap_get_delete_self _ _, fun s hs => GoMap_get_delete_other _ _ _ hs, ?_⟩
    intro w2 responseHex2 hw2
    rw [serveChallengeIdentityCheckResponse_no_pending c _ w2 p responseHex2
      (GoMap_get_delete_self _ _)]
    exact ⟨rfl, http_Error_status w2 _ _ hw2⟩

/-- C11 at the example node, with the pending challenge c0 ff ee: the response `zz` is not
hex and changes nothing; the response b4 0a 00 succeeds, after which the entry is gone
and a repeated request gets 400. -/
theorem C11_pending_consumed_on_success_witness :
    (transport.serveChallengeIdentityCheckResponse Example.c
        { Example.t with pendingAuthorizations := [(Example.session, [0xc0, 0xff, 0xee])] }
        {} Example.peer "zz").1 =
        { Example.t with pendingAuthorizations := [(Example.session, [0xc0, 0xff, 0xee])] } ∧
      GoMap.get (transport.serveChallengeIdentityCheckResponse Example.c
        { Example.t with pendingAuthorizations := [(Example.session, [0xc0, 0xff, 0xee])] }
        {} Example.peer "b40a00").1.pendingAuthorizations Example.peer.sessionID = none ∧
      (transport.serveChallengeIdentityCheckResponse Example.c
        (transport.serveChallengeIdentityCheckResponse Example.c
          { Example.t with pendingAuthorizations := [(Example.session, [0xc0, 0xff, 0xee])] }
          {} Example.peer "b40a00").1 {} Example.peer "b40a00").2.status = some 400 :=
  ⟨(C11_pending_consumed_on_success Example.c
      { Example.t with pendingAuthorizations := [(Example.session, [0xc0, 0xff, 0xee])] }
      {} Example.peer "zz" [0xc0, 0xff, 0xee] (by decide)).1
      (.InvalidByteError 'z') (by decide),
    ((C11_pending_consumed_on_success Example.c
      { Example.t with pendingAuthorizations := [(Example.session, [0xc0, 0xff, 0xee])] }
      {} Example.peer "b40a00" [0xc0, 0xff, 0xee] (by decide)).2.2.2
      [0xb4, 0x0a, 0x00] ⟨⟨7, 0⟩⟩
      ⟨"address", "0700000000000000000000000000000000000000:141e00", "/", 87400⟩
      (by decide) (by decide) (by decide)).1,
    (((C11_pending_consumed_on_success Example.c
      { Example.t with pendingAuthorizations := [(Example.session, [0xc0, 0xff, 0xee])] }
      {} Example.peer "b40a00" [0xc0, 0xff, 0xee] (by decide)).2.2.2
      [0xb4, 0x0a, 0x00] ⟨⟨7, 0⟩⟩
      ⟨"address", "0700000000000000000000000000000000000000:141e00", "/", 87400⟩
      (by decide) (by decide) (by decide)).2.2 {} "b40a00" (by decide)).2⟩

/-! ## What the handlers do to headers and status -/

theorem http_Error_header_get (w : ResponseWriter) (msg : String) (code : Nat) (key : String)
    (h1 : key ≠ "Content-Type") (h2 : key ≠ "X-Content-Type-Options") :
    GoMap.get (http.Error w msg code).header key = GoMap.get w.header key := by
  have hset : GoMap.get ((w.header.Set "Content-Type" "text/plain; charset=utf-8").Set
      "X-Content-Type-Options" "nosniff") key = GoMap.get w.header key := by
    simp only [Header.Set]
    rw [GoMap_get_set_other _ _ _ _ h2, GoMap_get_set_other _ _ _ _ h1]
  unfold http.Error ResponseWriter.Write ResponseWriter.WriteHeader
  cases w.status <;> exact hset

theorem http_Error_status_ne (w : ResponseWriter) (msg : String) (code n : Nat)
    (hcode : code ≠ n) (hw : w.status ≠ some n) : (http.Error w msg code).status ≠ some n := by
  cases hst : w.status with
  | none =>
    simp only [http.Error, ResponseWriter.Write, ResponseWriter.WriteHeader, hst]
    simpa using hcode
  | some s =>
    simp only [http.Error, ResponseWriter.Write, ResponseWriter.WriteHeader, hst]
    rw [hst] at hw
    exact hw

theorem Write_header (w : ResponseWriter) (data : String) : (w.Write data).header = w.header := by
  unfold ResponseWriter.Write ResponseWriter.WriteHeader
  cases w.status <;> rfl

theorem Write_status_ne (w : ResponseWriter) (data : String) (n : Nat) (hn : 200 ≠ n)
    (hw : w.status ≠ some n) : (w.Write data).status ≠ some n := by
  cases hst : w.status with
  | none =>
    simp only [ResponseWriter.Write, ResponseWriter.WriteHeader, hst]
    simpa using hn
  | some s =>
    simp only [ResponseWriter.Write, ResponseWriter.WriteHeader, hst]
    rw [hst] at hw
    exact hw

theorem serveChallengeIdentity_header (c : Collaborators) (t : transport)
    (w : ResponseWriter) (p : peerConn) (key : String)
    (h1 : key ≠ "Content-Type") (h2 : key ≠ "X-Content-Type-Options") :
    GoMap.get (transport.serveChallengeIdentity c t w p).2.header key =
      GoMap.get w.header key := by
  unfold transport.serveChallengeIdentity
  cases c.GenerateChallengeMsg with
  | error e => exact http_Error_header_get w _ _ key h1 h2
  | ok C => simp only [Write_header]

theorem serveChallengeIdentity_status (c : Collaborators) (t : transport)
    (w : ResponseWriter) (p : peerConn) (n : Nat) (hn : 200 ≠ n ∧ 400 ≠ n ∧ 500 ≠ n)
    (hw : w.status ≠ some n) :
    (transport.serveChallengeIdentity c t w p).2.status ≠ some n := by
  unfold transport.serveChallengeIdentity
  cases c.GenerateChallengeMsg with
  | error e => exact http_Error_status_ne w _ _ n hn.2.2 hw
  | ok C => exact Write_status_ne w _ n hn.1 hw

theorem serveChallengeIdentityCheckResponse_header (c : Collaborators) (t : transport)
    (w : ResponseWriter) (p : peerConn) (responseHex : String) (key : String)
    (h1 : key ≠ "Content-Type") (h2 : key ≠ "X-Content-Type-Options") :
    GoMap.get (transport.serveChallengeIdentityCheckResponse c t w p responseHex).2.header key =
      GoMap.get w.header key := by
  unfold transport.serveChallengeIdentityCheckResponse
  split
  · exact http_Error_header_get w _ _ key h1 h2
  · split
    · exact http_Error_header_get w _ _ key h1 h2
    · split
      · exact http_Error_header_get w _ _ key h1 h2
      · rename_i sigpubkey _
        have hk := setSignedCookieOnResponse_keeps c t w "address" (sigpubkey.Address c.eth)
        dsimp only
        split
        · rename_i err w1 heq
          rw [heq] at hk
          simp only at hk
          rw [http_Error_header_get w1 _ _ key h1 h2, hk.2.2]
        · rename_i w1 heq
          rw [heq] at hk
          simp only at hk
          rw [hk.2.2]

theorem serveChallengeIdentityCheckResponse_status (c : Collaborators) (t : transport)
    (w : ResponseWriter) (p : peerConn) (responseHex : String) (n : Nat)
    (hn : 200 ≠ n ∧ 400 ≠ n ∧ 500 ≠ n) (hw : w.status ≠ some n) :
    (transport.serveChallengeIdentityCheckResponse c t w p responseHex).2.status ≠ some n := by
  unfold transport.serveChallengeIdentityCheckResponse
  split
  · exact http_Error_status_ne w _ _ n hn.2.1 hw
  · split
    · exact http_Error_status_ne w _ _ n hn.2.1 hw
    · split
      · exact http_Error_status_ne w _ _ n hn.2.1 hw
      · rename_i sigpubkey _
        have hk := setSignedCookieOnResponse_keeps c t w "address" (sigpubkey.Address c.eth)
        dsimp only
        split
        · rename_i err w1 heq
          rw [heq] at hk
          simp only at hk
          exact http_Error_status_ne w1 _ _ n hn.2.2 (by rw [hk.1]; exact hw)
        · rename_i w1 heq
          rw [heq] at hk
          simp only at hk
          rw [hk.1]
          exact hw

theorem serveChallengeIdentityResponse_header (c : Collaborators) (t : transport)
    (w : ResponseWriter) (p : peerConn) (challengeMsgHex : String) (key : String)
    (h1 : key ≠ "Content-Type") (h2 : key ≠ "X-Content-Type-Options")
    (hchal : ∀ m p t (w : ResponseWriter),
      GoMap.get (c.HandleChallengeIdentity m p t w).2.2.header key = GoMap.get w.header key) :
    GoMap.get (transport.serveChallengeIdentityResponse c t w p challengeMsgHex).2.header key =
      GoMap.get w.header key := by
  unfold transport.serveChallengeIdentityResponse
  split
  · exact http_Error_header_get w _ _ key h1 h2
  · rename_i challengeMsg _
    have hk := hchal challengeMsg p t w
    split
    · rename_i err t1 w1 heq
      rw [heq] at hk
      simp only at hk
      rw [http_Error_header_get w1 _ _ key h1 h2, hk]
    · rename_i t1 w1 heq
      rw [heq] at hk
      exact hk

theorem serveChallengeIdentityResponse_status (c : Collaborators) (t : transport)
    (w : ResponseWriter) (p : peerConn) (challengeMsgHex : String) (n : Nat)
    (hn : 200 ≠ n ∧ 400 ≠ n ∧ 500 ≠ n)
    (hchal : ∀ m p t (w : ResponseWriter),
      w.status ≠ some n → (c.HandleChallengeIdentity m p t w).2.2.status ≠ some n)
    (hw : w.status ≠ some n) :
    (transport.serveChallengeIdentityResponse c t w p challengeMsgHex).2.status ≠ some n := by
  unfold transport.serveChallengeIdentityResponse
  split
  · exact http_Error_status_ne w _ _ n hn.2.1 hw
  · rename_i challengeMsg _
    have hk := hchal challengeMsg p t w hw
    split
    · rename_i err t1 w1 heq
      rw [heq] at hk
      exact http_Error_status_ne w1 _ _ n hn.2.2 hk
    · rename_i t1 w1 heq
      rw [heq] at hk
      exact hk

theorem serveAuthorize_header (c : Collaborators) (t : transport) (w : ResponseWriter)
    (r : Request) (p : peerConn) (key : String)
    (h1 : key ≠ "Content-Type") (h2 : key ≠ "X-Content-Type-Options")
    (hchal : ∀ m p t (w : ResponseWriter),
      GoMap.get (c.HandleChallengeIdentity m p t w).2.2.header key = GoMap.get w.header key) :
    GoMap.get (transport.serveAuthorize c t w r p).w.header key = GoMap.get w.header key := by
  unfold transport.serveAuthorize
  simp only
  split
  · exact serveChallengeIdentityResponse_header c t w p _ key h1 h2 hchal
  · split
    · exact serveChallengeIdentity_header c t w p key h1 h2
    · exact serveChallengeIdentityCheckResponse_header c t w p _ key h1 h2

theorem serveAuthorize_status (c : Collaborators) (t : transport) (w : ResponseWriter)
    (r : Request) (p : peerConn) (n : Nat) (hn : 200 ≠ n ∧ 400 ≠ n ∧ 500 ≠ n)
    (hchal : ∀ m p t (w : ResponseWriter),
      w.status ≠ some n → (c.HandleChallengeIdentity m p t w).2.2.status ≠ some n)
    (hw : w.status ≠ some n) :
    (transport.serveAuthorize c t w r p).w.status ≠ some n := by
  unfold transport.serveAuthorize
  simp only
  split
  · exact serveChallengeIdentityResponse_status c t w p _ n hn hchal hw
  · split
    · exact serveChallengeIdentity_status c t w p n hn hw
    · exact serveChallengeIdentityCheckResponse_status c t w p _ n hn hw

/-! ## C12: the Alt-Svc header -/

/-- C12, as stated, fails at the example node: a request whose `address` cookie is
malformed is answered with 400, and a request to a node that cannot sign the session
cookie is answered with 500; in both responses the header map has no `Alt-Svc` entry,
neither at the end nor when the header was sent. -/
theorem C12_counterexample_rejected_without_alt_svc :
    (transport.ServeHTTP Example.cGossip Example.t {}
        { Method := "HEAD", Cookies := [⟨"address", "010203", "/", 0⟩] }).w.status =
        some 400 ∧
      GoMap.get (transport.ServeHTTP Example.cGossip Example.t {}
        { Method := "HEAD", Cookies := [⟨"address", "010203", "/", 0⟩] }).w.header
        "Alt-Svc" = none ∧
      GoMap.get (transport.ServeHTTP Example.cGossip Example.t {}
        { Method := "HEAD", Cookies := [⟨"address", "010203", "/", 0⟩] }).w.sentHeader
        "Alt-Svc" = none ∧
      (transport.ServeHTTP Example.cNoIdentity Example.t {} { Method := "HEAD" }).w.status =
        some 500 ∧
      GoMap.get (transport.ServeHTTP Example.cNoIdentity Example.t {}
        { Method := "HEAD" }).w.header "Alt-Svc" = none ∧
      GoMap.get (transport.ServeHTTP Example.cNoIdentity Example.t {}
        { Method := "HEAD" }).w.sentHeader "Alt-Svc" = none := by
  decide

theorem runEndpoint_w (c : Collaborators) (e : Endpoint) (t : transport) (w : ResponseWriter)
    (r : Request) (p : peerConn) (a : Address) :
    (transport.runEndpoint c e t w r p a).w = (c.serve e t r p a w).2 := rfl

theorem runEndpoint_ran (c : Collaborators) (e : Endpoint) (t : transport)
    (w : ResponseWriter) (r : Request) (p : peerConn) (a : Address) :
    (transport.runEndpoint c e t w r p a).ran = [e] := rfl

set_option maxHeartbeats 2000000 in
/-- C12, amended. For every request that gets past the session cookie and the address
resolution, whatever its method and whatever status it ends with, the header map of the
response has the `Alt-Svc` value `makeAltSvcHeader(AllDialInfos())`, taken from the peer
store right after the peer connection of the request was registered in it (the handlers
that are not embedded are taken to leave that header alone). For a request rejected
because the session cookie could not be minted, or because the address could not be
resolved, `ServeHTTP` does not touch the `Alt-Svc` entry of the header map. -/
theorem C12_alt_svc_after_guards (c : Collaborators) (t : transport) (w : ResponseWriter)
    (r : Request) :
    (∀ sessionID w1 address,
        transport.ensureSessionIDCookieOnResponse c t w r = (sessionID, none, w1) →
        transport.addressFromRequest c t r = .ok address →
        (∀ e t r p a (w : ResponseWriter),
          GoMap.get (c.serve e t r p a w).2.header "Alt-Svc" = GoMap.get w.header "Alt-Svc") →
        (∀ m p t (w : ResponseWriter),
          GoMap.get (c.HandleChallengeIdentity m p t w).2.2.header "Alt-Svc" =
            GoMap.get w.header "Alt-Svc") →
        GoMap.get (transport.ServeHTTP c t w r).w.header "Alt-Svc" =
          some [c.makeAltSvcHeader (c.AllDialInfos
            (t.makePeerConn true false "" sessionID
              (match r.TLSPeerCertificates with
                | cert :: _ => c.DeviceIDFromX509Pubkey cert
                | [] => ID.Hex sessionID)
              address).1.peerStore)]) ∧
      (∀ sessionID err w1,
        transport.ensureSessionIDCookieOnResponse c t w r = (sessionID, some err, w1) →
        GoMap.get (transport.ServeHTTP c t w r).w.header "Alt-Svc" =
          GoMap.get w.header "Alt-Svc") ∧
      (∀ sessionID w1 err,
        transport.ensureSessionIDCookieOnResponse c t w r = (sessionID, none, w1) →
        transport.addressFromRequest c t r = .error err →
        GoMap.get (transport.ServeHTTP c t w r).w.header "Alt-Svc" =
          GoMap.get w.header "Alt-Svc") := by
  have hne1 : "Alt-Svc" ≠ "Content-Type" := by decide
  have hne2 : "Alt-Svc" ≠ "X-Content-Type-Options" := by decide
  have hset : ∀ (h : Header) (v : String),
      GoMap.get (h.Set "Alt-Svc" v) "Alt-Svc" = some [v] :=
    fun h v => GoMap_get_set_self h "Alt-Svc" [v]
  refine ⟨?_, ?_, ?_⟩
  · intro sessionID w1 address hs ha hserve hchal
    simp only [transport.ServeHTTP, hs, ha]
    split_ifs <;>
      first
      | rw [serveAuthorize_header c _ _ r _ "Alt-Svc" hne1 hne2 hchal, hset]
      | rw [runEndpoint_w, hserve, hset]
      | rw [http_Error_header_get _ _ _ "Alt-Svc" hne1 hne2, hset]
      | rw [hset]
  · intro sessionID err w1 hs
    have hkeep : w1.header = w.header := by
      have h := (ensureSessionIDCookieOnResponse_keeps c t w r).2.2
      rw [hs] at h
      exact h
    simp only [transport.ServeHTTP, hs]
    rw [http_Error_header_get _ _ _ "Alt-Svc" hne1 hne2, hkeep]
  · intro sessionID w1 err hs ha
    have hkeep : w1.header = w.header := by
      have h := (ensureSessionIDCookieOnResponse_keeps c t w r).2.2
      rw [hs] at h
      exact h
    simp only [transport.ServeHTTP, hs, ha]
    rw [http_Error_header_get _ _ _ "Alt-Svc" hne1 hne2, hkeep]

/-- C12 (amended) at the example node: an AUTHORIZE request without headers gets the
`Alt-Svc` value for the one dial info of the peer store, and the request with the
malformed `address` cookie gets none. -/
theorem C12_alt_svc_after_guards_witness :
    GoMap.get (transport.ServeHTTP Example.cGossip Example.t {}
        { Method := "AUTHORIZE" }).w.header "Alt-Svc" = some ["peers=1"] ∧
      GoMap.get (transport.ServeHTTP Example.cGossip Example.t {}
        { Method := "HEAD", Cookies := [⟨"address", "010203", "/", 0⟩] }).w.header
        "Alt-Svc" = none := by
  refine ⟨?_, ?_⟩
  · have h := (C12_alt_svc_after_guards Example.cGossip Example.t {}
      { Method := "AUTHORIZE" }).1 Example.session
      (transport.ensureSessionIDCookieOnResponse Example.cGossip Example.t {}
        { Method := "AUTHORIZE" }).2.2
      Address.zero (by decide) (by decide) (fun _ _ _ _ _ _ => rfl) (fun _ _ _ _ => rfl)
    rw [h]
    decide
  · have h := (C12_alt_svc_after_guards Example.cGossip Example.t {}
      { Method := "HEAD", Cookies := [⟨"address", "010203", "/", 0⟩] }).2.2
      Example.session
      (transport.ensureSessionIDCookieOnResponse Example.cGossip Example.t {}
        { Method := "HEAD", Cookies := [⟨"address", "010203", "/", 0⟩] }).2.2
      (.Wrapf .ErrBadCookie "cookie 'address' has 1 parts") (by decide) (by decide)
    rw [h]
    decide

/-! ## C13: the session cookie -/

/-- C13, as stated, fails at the example node: the request brings the valid `sessionid`
cookie of the session `Example.session`; that session id is used for the request, and the
response sets no cookie at all. -/
theorem C13_counterexample_valid_cookie_not_set_again :
    transport.signedCookie Example.c Example.t
        { Method := "HEAD", Cookies := [Example.sessionCookie] } "sessionid" =
        .ok Example.session ∧
      (transport.ensureSessionIDCookieOnResponse Example.c Example.t {}
        { Method := "HEAD", Cookies := [Example.sessionCookie] }).1 = Example.session ∧
      (transport.ServeHTTP Example.c Example.t {}
        { Method := "HEAD", Cookies := [Example.sessionCookie] }).w.cookies = [] ∧
      (transport.ServeHTTP Example.c Example.t {}
        { Method := "HEAD", Cookies := [Example.sessionCookie] }).w.status = none := by
  decide

/-- C13, amended. `ensureSessionIDCookieOnResponse` sets a signed `sessionid` cookie on the
response exactly when the request brought no valid `sessionid` cookie and the cookie can
be signed: the fresh id of `RandomID` is then the session id used for the request, and the
only `Set-Cookie` of the response is `sessionid` with the value `hex(id) + ":" + hex(sig)`.
When the request brought a valid `sessionid` cookie, the session id is `IDFromBytes` of
its value and the response is left untouched, so no cookie is set. When the cookie cannot
be signed the error is returned, the response has no `Set-Cookie`, and `ServeHTTP`
answers 500 without running a handler. -/
theorem C13_session_cookie_set_only_when_minted (c : Collaborators) (t : transport)
    (w : ResponseWriter) (r : Request) :
    (∀ err cookie, transport.signedCookie c t r "sessionid" = .error err →
        transport.makeSignedCookie c t "sessionid" c.RandomID = .ok cookie →
        transport.ensureSessionIDCookieOnResponse c t w r =
            (c.RandomID, none, { w with cookies := [cookie] }) ∧
          cookie.Name = "sessionid" ∧
          ∃ id sig, c.keyStore.DefaultPublicIdentity = .ok id ∧
            c.keyStore.SignHash id.Address (c.HashBytes (c.RandomID ++ t.cookieSecret)) =
              .ok sig ∧
            cookie.Value =
              hex.EncodeToString c.RandomID ++ ":" ++ hex.EncodeToString sig) ∧
      (∀ value, transport.signedCookie c t r "sessionid" = .ok value →
        transport.ensureSessionIDCookieOnResponse c t w r = (c.IDFromBytes value, none, w)) ∧
      (∀ err e2, transport.signedCookie c t r "sessionid" = .error err →
        transport.makeSignedCookie c t "sessionid" c.RandomID = .error e2 →
        transport.ensureSessionIDCookieOnResponse c t w r =
            (c.RandomID, some e2, { w with cookies := [] }) ∧
          (transport.ServeHTTP c t w r).ran = [] ∧
          (transport.ServeHTTP c t w r).w.cookies = [] ∧
          (w.status = none → (transport.ServeHTTP c t w r).w.status = some 500)) := by
  refine ⟨?_, ?_, ?_⟩
  · intro err cookie hsc hmint
    obtain ⟨hname, -, hvalue⟩ := makeSignedCookie_form c t "sessionid" _ cookie hmint
    refine ⟨?_, hname, hvalue⟩
    simp only [transport.ensureSessionIDCookieOnResponse, hsc,
      transport.setSessionIDCookieOnResponse, transport.setSignedCookieOnResponse, hmint,
      http.SetCookie, List.nil_append]
  · intro value hsc
    simp only [transport.ensureSessionIDCookieOnResponse, hsc]
  · intro err e2 hsc hmint
    have hens : transport.ensureSessionIDCookieOnResponse c t w r =
        (c.RandomID, some e2, { w with cookies := [] }) := by
      simp only [transport.ensureSessionIDCookieOnResponse, hsc,
        transport.setSessionIDCookieOnResponse, transport.setSignedCookieOnResponse, hmint]
    refine ⟨hens, ?_, ?_, ?_⟩
    · simp only [transport.ServeHTTP, hens]
    · simp only [transport.ServeHTTP, hens]
      unfold http.Error ResponseWriter.Write ResponseWriter.WriteHeader
      cases w.status <;> rfl
    · intro hw
      simp only [transport.ServeHTTP, hens]
      exact http_Error_status _ _ _ hw

/-- C13 (amended) at the example node: without a cookie the fresh session id 05 00 ... is
used and set; with the valid cookie the response is left as it was; without an identity in
the key store the answer is 500. -/
theorem C13_session_cookie_set_only_when_minted_witness :
    transport.ensureSessionIDCookieOnResponse Example.c Example.t {} { Method := "HEAD" } =
        (Example.session, none, { cookies := [Example.sessionCookie] }) ∧
      transport.ensureSessionIDCookieOnResponse Example.c Example.t {}
          { Method := "HEAD", Cookies := [Example.sessionCookie] } =
        (Example.session, none, {}) ∧
      (transport.ServeHTTP Example.cNoIdentity Example.t {} { Method := "HEAD" }).w.status =
        some 500 :=
  ⟨((C13_session_cookie_set_only_when_minted Example.c Example.t {} { Method := "HEAD" }).1
      .Err404 Example.sessionCookie (by decide) (by decide)).1,
    (C13_session_cookie_set_only_when_minted Example.c Example.t {}
      { Method := "HEAD", Cookies := [Example.sessionCookie] }).2.1
      Example.session (by decide),
    ((C13_session_cookie_set_only_when_minted Example.cNoIdentity Example.t {}
      { Method := "HEAD" }).2.2 .Err404 (.New "no identity") (by decide) (by decide)).2.2.2
      (by decide)⟩

/-! ## C14, C15: the method switch -/

theorem ensureSessionIDCookieOnResponse_eq_keeps (c : Collaborators) (t : transport)
    (w w1 : ResponseWriter) (r : Request) (sessionID : ID) (err : Option Error)
    (hs : transport.ensureSessionIDCookieOnResponse c t w r = (sessionID, err, w1)) :
    w1.status = w.status ∧ w1.body = w.body ∧ w1.header = w.header := by
  have h := ensureSessionIDCookieOnResponse_keeps c t w r
  rw [hs] at h
  exact h

theorem http_Error_body (w : ResponseWriter) (msg : String) (code : Nat) :
    (http.Error w msg code).body = w.body ++ (msg ++ "\n") := by
  unfold http.Error ResponseWriter.Write ResponseWriter.WriteHeader
  cases w.status <;> rfl

theorem ServeHTTP_unsupported (c : Collaborators) (t : transport) (w w1 : ResponseWriter)
    (r : Request) (sessionID : ID) (address : Address)
    (hm : r.Method ∉ ["HEAD", "OPTIONS", "AUTHORIZE", "GET", "POST", "ACK", "PUT"])
    (hs : transport.ensureSessionIDCookieOnResponse c t w r = (sessionID, none, w1))
    (ha : transport.addressFromRequest c t r = .ok address) :
    ∃ duID : String,
      transport.ServeHTTP c t w r =
        ⟨transport.storeAltSvcHeaderPeers c
            (t.makePeerConn true false "" sessionID duID address).1 r.Header,
          http.Error
            { w1 with
              header := w1.header.Set "Alt-Svc"
                (c.makeAltSvcHeader (c.AllDialInfos
                  (t.makePeerConn true false "" sessionID duID address).1.peerStore)) }
            "unsupported method" http.StatusMethodNotAllowed,
          []⟩ := by
  simp only [List.mem_cons, List.mem_singleton, List.not_mem_nil, or_false, not_or] at hm
  obtain ⟨h1, h2, h3, h4, h5, h6, h7⟩ := hm
  refine ⟨match r.TLSPeerCertificates with
    | cert :: _ => c.DeviceIDFromX509Pubkey cert
    | [] => ID.Hex sessionID, ?_⟩
  simp only [transport.ServeHTTP, hs, ha, if_neg h1, if_neg h2, if_neg h3, if_neg h4,
    if_neg h5, if_neg h6, if_neg h7]

/-! ## Lemmas: no endpoint handler answers 405 -/

theorem serveGetStateNode_never_405 (c : Collaborators) (d : StateDeps) (w : ResponseWriter)
    (r : Request) (stateURI : String) (version : Option Version) (keypath : Keypath)
    (rng : Option Range) (calls : List HubCall) (hw : w.status ≠ some 405) :
    (transport.serveGetStateNode c d w r stateURI version keypath rng calls).w.status ≠
      some 405 := by
  have hs : ∀ s, w.status = some s → s ≠ 405 := fun s h e => hw (by rw [h, e])
  cases hst : w.status with
  | none =>
    unfold transport.serveGetStateNode
    dsimp only
    repeat' split
    all_goals try simp [http.Error, ResponseWriter.Write, ResponseWriter.WriteHeader, hst,
      http.StatusBadRequest, http.StatusInternalServerError]
    rename_i handled heq
    repeat' split at heq
    all_goals
      cases heq <;>
        simp [http.Error, ResponseWriter.Write, ResponseWriter.WriteHeader, hst,
          http.StatusBadRequest, http.StatusInternalServerError]
  | some s =>
    have hs1 := hs s hst
    unfold transport.serveGetStateNode
    dsimp only
    repeat' split
    all_goals try simp [http.Error, ResponseWriter.Write, ResponseWriter.WriteHeader, hst,
      http.StatusBadRequest, http.StatusInternalServerError, hs1]
    rename_i handled heq
    repeat' split at heq
    all_goals
      cases heq <;>
        simp [http.Error, ResponseWriter.Write, ResponseWriter.WriteHeader, hst,
          http.StatusBadRequest, http.StatusInternalServerError, hs1]

theorem serveGetState_never_405 (c : Collaborators) (d : StateDeps) (t : transport)
    (w : ResponseWriter) (r : Request) (hw : w.status ≠ some 405) :
    (transport.serveGetState c d t w r).w.status ≠ some 405 := by
  have hnode : ∀ (w1 : ResponseWriter) (stateURI : String) (version : Option Version)
      (keypath : Keypath) (rng : Option Range) (calls : List HubCall),
      w1.status ≠ some 405 →
      (transport.serveGetStateNode c d w1 r stateURI version keypath rng calls).w.status ≠
        some 405 :=
    fun w1 stateURI version keypath rng calls h =>
      serveGetStateNode_never_405 c d w1 r stateURI version keypath rng calls h
  have herr : ∀ (w1 : ResponseWriter) (msg : String) (code : Nat), w1.status ≠ some 405 →
      code ≠ 405 → (http.Error w1 msg code).status ≠ some 405 :=
    fun w1 msg code h hc => http_Error_status_ne w1 msg code 405 hc h
  unfold transport.serveGetState
  dsimp only
  repeat' split
  all_goals first
    | (apply hnode; exact hw)
    | (apply herr <;> first | exact hw | decide)
    | exact hw

theorem serveGetTx_never_405 (c : Collaborators) (g : GetTxDeps) (w : ResponseWriter)
    (r : Request)
    (hjson : ∀ (w : ResponseWriter) tx, w.status ≠ some 405 →
      (g.RespondJSON w tx).status ≠ some 405)
    (hw : w.status ≠ some 405) :
    (transport.serveGetTx c g w r).w.status ≠ some 405 := by
  unfold transport.serveGetTx
  repeat' split
  all_goals first
    | exact hw
    | exact hjson _ _ hw
    | exact http_Error_status_ne w _ _ 405 (by decide) hw

theorem servePostTx_never_405 (c : Collaborators) (p : PostTxDeps) (t : transport)
    (w : ResponseWriter) (r : Request) (hw : w.status ≠ some 405) :
    (transport.servePostTx c p t w r).w.status ≠ some 405 := by
  unfold transport.servePostTx
  dsimp only
  repeat' split
  all_goals first
    | exact hw
    | exact http_Error_status_ne w _ _ 405 (by decide) hw

theorem serveSubscription_never_405 (c : Collaborators) (h : HandlerDeps)
    (kind : SubscriptionKind) (t : transport) (w : ResponseWriter) (r : Request)
    (address : Address)
    (hsub : ∀ req kind r t (w : ResponseWriter), w.status ≠ some 405 →
      (h.HandleWritableSubscriptionOpened req kind r t w).2.2.status ≠ some 405)
    (hw : w.status ≠ some 405) :
    (transport.serveSubscription c h kind t w r address).2.status ≠ some 405 := by
  unfold transport.serveSubscription
  dsimp only
  split
  · exact http_Error_status_ne w _ _ 405 (by decide) hw
  · split
    · rename_i err t1 w1 heq
      have h1 := congrArg (fun x => x.2.2.status) heq
      have hw1 : w1.status ≠ some 405 := fun e => hsub _ _ _ _ _ hw (h1.trans e)
      split
      · exact http_Error_status_ne w1 _ _ 405 (by decide) hw1
      · split
        · exact http_Error_status_ne w1 _ _ 405 (by decide) hw1
        · exact http_Error_status_ne w1 _ _ 405 (by decide) hw1
    · rename_i t1 w1 heq
      have h1 := congrArg (fun x => x.2.2.status) heq
      exact fun e => hsub _ _ _ _ _ hw (h1.trans e)

theorem serveAck_never_405 (h : HandlerDeps) (t : transport) (w : ResponseWriter)
    (r : Request) (p : peerConn)
    (hack : ∀ uri id p t (w : ResponseWriter), w.status ≠ some 405 →
      (h.HandleAckReceived uri id p t w).2.status ≠ some 405)
    (hw : w.status ≠ some 405) :
    (transport.serveAck h t w r p).2.status ≠ some 405 := by
  unfold transport.serveAck
  repeat' split
  all_goals first
    | exact hack _ _ _ _ _ hw
    | exact http_Error_status_ne w _ _ 405 (by decide) hw

theorem servePostBlob_never_405 (c : Collaborators) (h : HandlerDeps) (w : ResponseWriter)
    (r : Request)
    (hjson : ∀ (w : ResponseWriter) resp, w.status ≠ some 405 →
      (h.RespondJSON w resp).status ≠ some 405)
    (hw : w.status ≠ some 405) :
    (transport.servePostBlob c h w r).status ≠ some 405 := by
  unfold transport.servePostBlob
  repeat' split
  all_goals first
    | exact hjson _ _ hw
    | exact http_Error_status_ne w _ _ 405 (by decide) hw

theorem servePostPrivateTx_never_405 (h : HandlerDeps) (t : transport)
    (w : ResponseWriter) (r : Request) (p : peerConn)
    (hpriv : ∀ tx p t (w : ResponseWriter), w.status ≠ some 405 →
      (h.HandlePrivateTxReceived tx p t w).2.status ≠ some 405)
    (hw : w.status ≠ some 405) :
    (transport.servePostPrivateTx h t w r p).2.status ≠ some 405 := by
  unfold transport.servePostPrivateTx
  repeat' split
  all_goals first
    | exact hpriv _ _ _ _ hw
    | exact http_Error_status_ne w _ _ 405 (by decide) hw

theorem serveEndpoint_never_405 (c : Collaborators) (h : HandlerDeps) (e : Endpoint)
    (t : transport) (r : Request) (p : peerConn) (a : Address) (w : ResponseWriter)
    (hchal : ∀ m p t (w : ResponseWriter), w.status ≠ some 405 →
      (c.HandleChallengeIdentity m p t w).2.2.status ≠ some 405)
    (hsub : ∀ req kind r t (w : ResponseWriter), w.status ≠ some 405 →
      (h.HandleWritableSubscriptionOpened req kind r t w).2.2.status ≠ some 405)
    (hcontent : ∀ (w : ResponseWriter) r name modtime content, w.status ≠ some 405 →
      (h.ServeContent w r name modtime content).status ≠ some 405)
    (htx : ∀ (w : ResponseWriter) tx, w.status ≠ some 405 →
      (h.getTx.RespondJSON w tx).status ≠ some 405)
    (hblob : ∀ (w : ResponseWriter) resp, w.status ≠ some 405 →
      (h.RespondJSON w resp).status ≠ some 405)
    (hack : ∀ uri id p t (w : ResponseWriter), w.status ≠ some 405 →
      (h.HandleAckReceived uri id p t w).2.status ≠ some 405)
    (hpriv : ∀ tx p t (w : ResponseWriter), w.status ≠ some 405 →
      (h.HandlePrivateTxReceived tx p t w).2.status ≠ some 405)
    (hw : w.status ≠ some 405) :
    (transport.serveEndpoint c h e t r p a w).2.status ≠ some 405 := by
  have hn : 200 ≠ 405 ∧ 400 ≠ 405 ∧ 500 ≠ 405 := by decide
  cases e with
  | serveChallengeIdentityResponse =>
    exact serveChallengeIdentityResponse_status c t w p _ 405 hn hchal hw
  | serveChallengeIdentity => exact serveChallengeIdentity_status c t w p 405 hn hw
  | serveChallengeIdentityCheckResponse =>
    exact serveChallengeIdentityCheckResponse_status c t w p _ 405 hn hw
  | serveWSSubscription => exact serveSubscription_never_405 c h .ws t w r a hsub hw
  | serveHTTPSubscription => exact serveSubscription_never_405 c h .http t w r a hsub hw
  | serveRedwoodJS => exact hcontent _ _ _ _ _ hw
  | serveGetTx => exact serveGetTx_never_405 c h.getTx w r htx hw
  | serveGetState => exact serveGetState_never_405 c h.state t w r hw
  | servePostBlob => exact servePostBlob_never_405 c h w r hblob hw
  | serveAck => exact serveAck_never_405 h t w r p hack hw
  | servePostPrivateTx => exact servePostPrivateTx_never_405 h t w r p hpriv hw
  | servePostTx => exact servePostTx_never_405 c h.postTx t w r hw

/-- C14, as stated, fails at the example node: a DELETE request, whose method is outside
HEAD, OPTIONS, AUTHORIZE, GET, POST, ACK, PUT, with a malformed `address` cookie is stopped
by the address guard ahead of the method switch and answered with 400, not with 405. -/
theorem C14_counterexample_guard_before_switch :
    "DELETE" ∉ ["HEAD", "OPTIONS", "AUTHORIZE", "GET", "POST", "ACK", "PUT"] ∧
      (transport.ServeHTTP Example.c Example.t {}
        { Method := "DELETE", Cookies := [⟨"address", "010203", "/", 0⟩] }).w.status =
        some 400 ∧
      (transport.ServeHTTP Example.c Example.t {}
        { Method := "DELETE", Cookies := [⟨"address", "010203", "/", 0⟩] }).w.status ≠
        some 405 := by
  decide

set_option maxHeartbeats 2000000 in
/-- C14, amended. Two guards stand ahead of the method switch of `ServeHTTP`: a request
whose session cookie cannot be set is answered with 500 and a request whose address cannot
be resolved with 400 (on a response whose header was not written yet), whatever the
method, and no endpoint handler is invoked. For every request that passes both guards with
a method outside HEAD, OPTIONS, AUTHORIZE, GET, POST, ACK, PUT, `ServeHTTP` invokes no
endpoint handler and, on a response whose header was not written yet, answers 405 with the
body `unsupported method`. For every request with a method inside that set, stopped by a
guard or not, `ServeHTTP` never answers 405: the endpoint handlers are the ones of the
source, and the callbacks and library calls they answer through
(`HandleChallengeIdentity`, `HandleWritableSubscriptionOpened`, `http.ServeContent`,
`utils.RespondJSON`, `HandleAckReceived`, `HandlePrivateTxReceived`) are taken not to
answer 405 themselves. -/
theorem C14_unsupported_method (c : Collaborators) (h : HandlerDeps) (t : transport)
    (w : ResponseWriter) (r : Request) :
    (∀ sessionID err w1,
        transport.ensureSessionIDCookieOnResponse c t w r = (sessionID, some err, w1) →
        (transport.ServeHTTP c t w r).ran = [] ∧
          (w.status = none → (transport.ServeHTTP c t w r).w.status = some 500)) ∧
      (∀ sessionID w1 err,
        transport.ensureSessionIDCookieOnResponse c t w r = (sessionID, none, w1) →
        transport.addressFromRequest c t r = .error err →
        (transport.ServeHTTP c t w r).ran = [] ∧
          (w.status = none → (transport.ServeHTTP c t w r).w.status = some 400)) ∧
      (r.Method ∉ ["HEAD", "OPTIONS", "AUTHORIZE", "GET", "POST", "ACK", "PUT"] →
        ∀ sessionID w1 address,
        transport.ensureSessionIDCookieOnResponse c t w r = (sessionID, none, w1) →
        transport.addressFromRequest c t r = .ok address →
        (transport.ServeHTTP c t w r).ran = [] ∧
          (w.status = none →
            (transport.ServeHTTP c t w r).w.status = some 405 ∧
              (transport.ServeHTTP c t w r).w.body = w.body ++ "unsupported method\n")) ∧
      (r.Method ∈ ["HEAD", "OPTIONS", "AUTHORIZE", "GET", "POST", "ACK", "PUT"] →
        w.status ≠ some 405 →
        (∀ e t r p a w, c.serve e t r p a w = transport.serveEndpoint c h e t r p a w) →
        (∀ m p t (w : ResponseWriter),
          w.status ≠ some 405 → (c.HandleChallengeIdentity m p t w).2.2.status ≠ some 405) →
        (∀ req kind r t (w : ResponseWriter), w.status ≠ some 405 →
          (h.HandleWritableSubscriptionOpened req kind r t w).2.2.status ≠ some 405) →
        (∀ (w : ResponseWriter) r name modtime content, w.status ≠ some 405 →
          (h.ServeContent w r name modtime content).status ≠ some 405) →
        (∀ (w : ResponseWriter) tx, w.status ≠ some 405 →
          (h.getTx.RespondJSON w tx).status ≠ some 405) →
        (∀ (w : ResponseWriter) resp, w.status ≠ some 405 →
          (h.RespondJSON w resp).status ≠ some 405) →
        (∀ uri id p t (w : ResponseWriter), w.status ≠ some 405 →
          (h.HandleAckReceived uri id p t w).2.status ≠ some 405) →
        (∀ tx p t (w : ResponseWriter), w.status ≠ some 405 →
          (h.HandlePrivateTxReceived tx p t w).2.status ≠ some 405) →
        (transport.ServeHTTP c t w r).w.status ≠ some 405) := by
  refine ⟨?_, ?_, ?_, ?_⟩
  · intro sessionID err w1 hs
    have hk := ensureSessionIDCookieOnResponse_eq_keeps c t w w1 r sessionID (some err) hs
    simp only [transport.ServeHTTP, hs]
    exact ⟨trivial, fun hw => http_Error_status _ _ _ (hk.1.trans hw)⟩
  · intro sessionID w1 err hs ha
    have hk := ensureSessionIDCookieOnResponse_eq_keeps c t w w1 r sessionID none hs
    simp only [transport.ServeHTTP, hs, ha]
    exact ⟨trivial, fun hw => http_Error_status _ _ _ (hk.1.trans hw)⟩
  · intro hm sessionID w1 address hs ha
    have hk := ensureSessionIDCookieOnResponse_eq_keeps c t w w1 r sessionID none hs
    obtain ⟨duID, hrun⟩ := ServeHTTP_unsupported c t w w1 r sessionID address hm hs ha
    rw [hrun]
    refine ⟨rfl, fun hw => ⟨?_, ?_⟩⟩
    · exact http_Error_status _ _ _ (hk.1.trans hw)
    · show (http.Error _ "unsupported method" http.StatusMethodNotAllowed).body = _
      rw [http_Error_body]
      show w1.body ++ _ = _
      rw [hk.2.1]
      rfl
  · intro _ hw hserve hchal hsub hcontent htx hblob hack hpriv
    have hn : 200 ≠ 405 ∧ 400 ≠ 405 ∧ 500 ≠ 405 := by decide
    rcases hens : transport.ensureSessionIDCookieOnResponse c t w r with ⟨sessionID, err, w1⟩
    have hk := ensureSessionIDCookieOnResponse_eq_keeps c t w w1 r sessionID err hens
    have hw1 : w1.status ≠ some 405 := by rw [hk.1]; exact hw
    cases err with
    | some e =>
      simp only [transport.ServeHTTP, hens]
      exact http_Error_status_ne w1 _ _ 405 hn.2.2 hw1
    | none =>
      cases ha : transport.addressFromRequest c t r with
      | error e =>
        simp only [transport.ServeHTTP, hens, ha]
        exact http_Error_status_ne w1 _ _ 405 hn.2.1 hw1
      | ok address =>
        simp only [transport.ServeHTTP, hens, ha]
        split_ifs <;>
          first
          | exact serveAuthorize_status c _ _ r _ 405 hn hchal hw1
          | (rw [runEndpoint_w, hserve]
             exact serveEndpoint_never_405 c h _ _ _ _ _ _ hchal hsub hcontent htx hblob
               hack hpriv hw1)
          | exact hw1
          | simp_all

/-- C14 at the example node with the handlers of the source: a DELETE request is answered
with 405 and runs no handler; a GET of the state `chat.com/room` and a PUT without a
signature are not answered with 405. -/
theorem C14_unsupported_method_witness :
    (transport.ServeHTTP Example.cServe Example.t {} { Method := "DELETE" }).ran = [] ∧
      (transport.ServeHTTP Example.cServe Example.t {} { Method := "DELETE" }).w.status =
        some 405 ∧
      (transport.ServeHTTP Example.cServe Example.t {} { Method := "DELETE" }).w.body =
        "unsupported method\n" ∧
      (transport.ServeHTTP Example.cServe Example.t {}
        { Method := "GET", Header := [("State-URI", ["chat.com/room"])] }).w.status ≠
        some 405 ∧
      (transport.ServeHTTP Example.cServe Example.t {} { Method := "PUT" }).w.status ≠
        some 405 := by
  have h1 := (C14_unsupported_method Example.cServe Example.hd Example.t {}
    { Method := "DELETE" }).2.2.1 (by decide) Example.session
    (transport.ensureSessionIDCookieOnResponse Example.cServe Example.t {}
      { Method := "DELETE" }).2.2
    Address.zero (by decide) (by decide)
  have hsub : ∀ (req : SubscriptionRequest) (kind : SubscriptionKind) (r : Request)
      (t : transport) (w : ResponseWriter), w.status ≠ some 405 →
      (Example.hd.HandleWritableSubscriptionOpened req kind r t w).2.2.status ≠
        some 405 := by
    intro req kind r t w hw
    show (if req.StateURI = "private.com" then _ else _ :
      Option Error × transport × ResponseWriter).2.2.status ≠ some 405
    split
    · exact hw
    · exact Write_status_ne w _ 405 (by decide) hw
  have h2 := (C14_unsupported_method Example.cServe Example.hd Example.t {}
    { Method := "GET", Header := [("State-URI", ["chat.com/room"])] }).2.2.2 (by decide)
    (by decide) (fun _ _ _ _ _ _ => rfl) (fun _ _ _ _ hw => hw) hsub
    (fun w _ _ _ _ hw => Write_status_ne w _ 405 (by decide) hw)
    (fun w _ hw => Write_status_ne w _ 405 (by decide) hw)
    (fun w _ hw => Write_status_ne w _ 405 (by decide) hw)
    (fun _ _ _ _ _ hw => hw) (fun _ _ _ _ hw => hw)
  have h3 := (C14_unsupported_method Example.cServe Example.hd Example.t {}
    { Method := "PUT" }).2.2.2 (by decide)
    (by decide) (fun _ _ _ _ _ _ => rfl) (fun _ _ _ _ hw => hw) hsub
    (fun w _ _ _ _ hw => Write_status_ne w _ 405 (by decide) hw)
    (fun w _ hw => Write_status_ne w _ 405 (by decide) hw)
    (fun w _ hw => Write_status_ne w _ 405 (by decide) hw)
    (fun _ _ _ _ _ hw => hw) (fun _ _ _ _ hw => hw)
  exact ⟨h1.1, (h1.2 (by decide)).1, (h1.2 (by decide)).2, h2, h3⟩

theorem ServeHTTP_get (c : Collaborators) (t : transport) (w w1 : ResponseWriter)
    (r : Request) (sessionID : ID) (address : Address)
    (hm : r.Method = "GET")
    (hs : transport.ensureSessionIDCookieOnResponse c t w r = (sessionID, none, w1))
    (ha : transport.addressFromRequest c t r = .ok address) :
    ∃ (t2 : transport) (w2 : ResponseWriter) (p : peerConn),
      transport.ServeHTTP c t w r =
        if r.Path = "/ws" then transport.runEndpoint c .serveWSSubscription t2 w2 r p address
        else if r.Header.Get "Subscribe" ≠ "" then
          transport.runEndpoint c .serveHTTPSubscription t2 w2 r p address
        else if r.Path = "/redwood.js" then
          transport.runEndpoint c .serveRedwoodJS t2 w2 r p address
        else if strings.HasPrefix r.Path "/__tx/" = true then
          transport.runEndpoint c .serveGetTx t2 w2 r p address
        else transport.runEndpoint c .serveGetState t2 w2 r p address := by
  refine ⟨transport.storeAltSvcHeaderPeers c
      (t.makePeerConn true false "" sessionID
        (match r.TLSPeerCertificates with
          | cert :: _ => c.DeviceIDFromX509Pubkey cert
          | [] => ID.Hex sessionID) address).1 r.Header,
    { w1 with
      header := w1.header.Set "Alt-Svc"
        (c.makeAltSvcHeader (c.AllDialInfos
          (t.makePeerConn true false "" sessionID
            (match r.TLSPeerCertificates with
              | cert :: _ => c.DeviceIDFromX509Pubkey cert
              | [] => ID.Hex sessionID) address).1.peerStore)) },
    (t.makePeerConn true false "" sessionID
      (match r.TLSPeerCertificates with
        | cert :: _ => c.DeviceIDFromX509Pubkey cert
        | [] => ID.Hex sessionID) address).2, ?_⟩
  simp [transport.ServeHTTP, hs, ha, hm]

/-- C15. For every GET request that reaches the method switch (session cookie and address
resolved) exactly one handler is invoked, and the outcome of `ServeHTTP` is the outcome of
that handler. It is chosen by this precedence: path equal to `/ws` gives the WebSocket
subscription; otherwise a non-empty `Subscribe` header gives the chunked HTTP
subscription, whatever the path; otherwise the path `/redwood.js` gives the embedded
bundle; otherwise a path starting with `/__tx/` gives the tx fetch; otherwise the state
fetch. -/
theorem C15_get_precedence (c : Collaborators) (t : transport) (w w1 : ResponseWriter)
    (r : Request) (sessionID : ID) (address : Address)
    (hm : r.Method = "GET")
    (hs : transport.ensureSessionIDCookieOnResponse c t w r = (sessionID, none, w1))
    (ha : transport.addressFromRequest c t r = .ok address) :
    ∃ (t2 : transport) (w2 : ResponseWriter) (p : peerConn),
      (r.Path = "/ws" →
          transport.ServeHTTP c t w r =
            transport.runEndpoint c .serveWSSubscription t2 w2 r p address ∧
          (transport.ServeHTTP c t w r).ran = [.serveWSSubscription]) ∧
        (r.Path ≠ "/ws" → r.Header.Get "Subscribe" ≠ "" →
          transport.ServeHTTP c t w r =
            transport.runEndpoint c .serveHTTPSubscription t2 w2 r p address ∧
          (transport.ServeHTTP c t w r).ran = [.serveHTTPSubscription]) ∧
        (r.Path ≠ "/ws" → r.Header.Get "Subscribe" = "" → r.Path = "/redwood.js" →
          transport.ServeHTTP c t w r =
            transport.runEndpoint c .serveRedwoodJS t2 w2 r p address ∧
          (transport.ServeHTTP c t w r).ran = [.serveRedwoodJS]) ∧
        (r.Path ≠ "/ws" → r.Header.Get "Subscribe" = "" → r.Path ≠ "/redwood.js" →
          (∃ rest : String, r.Path = "/__tx/" ++ rest) →
          transport.ServeHTTP c t w r =
            transport.runEndpoint c .serveGetTx t2 w2 r p address ∧
          (transport.ServeHTTP c t w r).ran = [.serveGetTx]) ∧
        (r.Path ≠ "/ws" → r.Header.Get "Subscribe" = "" → r.Path ≠ "/redwood.js" →
          (¬ ∃ rest : String, r.Path = "/__tx/" ++ rest) →
          transport.ServeHTTP c t w r =
            transport.runEndpoint c .serveGetState t2 w2 r p address ∧
          (transport.ServeHTTP c t w r).ran = [.serveGetState]) := by
  obtain ⟨t2, w2, p, hrun⟩ := ServeHTTP_get c t w w1 r sessionID address hm hs ha
  refine ⟨t2, w2, p, ?_, ?_, ?_, ?_, ?_⟩
  · intro h1
    rw [hrun, if_pos h1]
    exact ⟨rfl, rfl⟩
  · intro h1 h2
    rw [hrun, if_neg h1, if_pos h2]
    exact ⟨rfl, rfl⟩
  · intro h1 h2 h3
    rw [hrun, if_neg h1, if_neg (not_not.mpr h2), if_pos h3]
    exact ⟨rfl, rfl⟩
  · intro h1 h2 h3 h4
    rw [← HasPrefix_iff] at h4
    rw [hrun, if_neg h1, if_neg (not_not.mpr h2), if_neg h3, if_pos h4]
    exact ⟨rfl, rfl⟩
  · intro h1 h2 h3 h4
    rw [← HasPrefix_iff] at h4
    rw [hrun, if_neg h1, if_neg (not_not.mpr h2), if_neg h3, if_neg h4]
    exact ⟨rfl, rfl⟩

/-- C15 at the example node: `/ws` goes to the WebSocket subscription even with a
`Subscribe` header, `/redwood.js` with a `Subscribe` header goes to the HTTP subscription,
`/__tx/ab` to the tx fetch and `/a/b` to the state fetch. -/
theorem C15_get_precedence_witness :
    (transport.ServeHTTP Example.c Example.t {}
        { Method := "GET", Path := "/ws", Header := [("Subscribe", ["states"])] }).ran =
        [.serveWSSubscription] ∧
      (transport.ServeHTTP Example.c Example.t {}
        { Method := "GET", Path := "/redwood.js", Header := [("Subscribe", ["states"])] }).ran =
        [.serveHTTPSubscription] ∧
      (transport.ServeHTTP Example.c Example.t {}
        { Method := "GET", Path := "/__tx/ab" }).ran = [.serveGetTx] ∧
      (transport.ServeHTTP Example.c Example.t {}
        { Method := "GET", Path := "/a/b" }).ran = [.serveGetState] := by
  refine ⟨?_, ?_, ?_, ?_⟩
  · obtain ⟨t2, w2, p, h, -⟩ := C15_get_precedence Example.c Example.t {}
      (transport.ensureSessionIDCookieOnResponse Example.c Example.t {}
        { Method := "GET", Path := "/ws", Header := [("Subscribe", ["states"])] }).2.2
      { Method := "GET", Path := "/ws", Header := [("Subscribe", ["states"])] }
      Example.session Address.zero (by decide) (by decide) (by decide)
    exact (h (by decide)).2
  · obtain ⟨t2, w2, p, -, h, -⟩ := C15_get_precedence Example.c Example.t {}
      (transport.ensureSessionIDCookieOnResponse Example.c Example.t {}
        { Method := "GET", Path := "/redwood.js", Header := [("Subscribe", ["states"])] }).2.2
      { Method := "GET", Path := "/redwood.js", Header := [("Subscribe", ["states"])] }
      Example.session Address.zero (by decide) (by decide) (by decide)
    exact (h (by decide) (by decide)).2
  · obtain ⟨t2, w2, p, -, -, -, h, -⟩ := C15_get_precedence Example.c Example.t {}
      (transport.ensureSessionIDCookieOnResponse Example.c Example.t {}
        { Method := "GET", Path := "/__tx/ab" }).2.2
      { Method := "GET", Path := "/__tx/ab" }
      Example.session Address.zero (by decide) (by decide) (by decide)
    exact (h (by decide) (by decide) (by decide) ⟨"ab", rfl⟩).2
  · obtain ⟨t2, w2, p, -, -, -, -, h⟩ := C15_get_precedence Example.c Example.t {}
      (transport.ensureSessionIDCookieOnResponse Example.c Example.t {}
        { Method := "GET", Path := "/a/b" }).2.2
      { Method := "GET", Path := "/a/b" }
      Example.session Address.zero (by decide) (by decide) (by decide)
    exact (h (by decide) (by decide) (by decide) (by rw [← HasPrefix_iff]; decide)).2

/-! ## Lemmas: cutting strings, ParseInt -/

theorem cutChars_some (sep : Char) (s a b : List Char)
    (h : strings.cutChars sep s = some (a, b)) : s = a ++ sep :: b ∧ sep ∉ a := by
  induction s generalizing a with
  | nil => simp [strings.cutChars] at h
  | cons x xs ih =>
    by_cases hx : x = sep
    · simp only [strings.cutChars, if_pos hx, Option.some.injEq, Prod.mk.injEq] at h
      obtain ⟨rfl, rfl⟩ := h
      simp [hx]
    · simp only [strings.cutChars, if_neg hx] at h
      cases hc : strings.cutChars sep xs with
      | none => simp [hc] at h
      | some ab =>
        obtain ⟨a1, b1⟩ := ab
        simp only [hc, Option.some.injEq, Prod.mk.injEq] at h
        obtain ⟨rfl, rfl⟩ := h
        obtain ⟨h1, h2⟩ := ih a1 hc
        refine ⟨by simp [h1], ?_⟩
        simp only [List.mem_cons, not_or]
        exact ⟨fun e => hx e.symm, h2⟩

theorem cutChars_append (sep : Char) (a b : List Char) (h : sep ∉ a) :
    strings.cutChars sep (a ++ sep :: b) = some (a, b) := by
  induction a with
  | nil => simp [strings.cutChars]
  | cons x xs ih =>
    simp only [List.mem_cons, not_or] at h
    have hx : ¬ x = sep := fun e => h.1 e.symm
    simp [strings.cutChars, hx, ih h.2]

theorem parseDigits_step_none (cs : List Char) :
    cs.foldl
      (fun acc c =>
        match acc with
        | none => none
        | some n =>
          if '0'.toNat ≤ c.toNat ∧ c.toNat ≤ '9'.toNat then
            some (n * 10 + (c.toNat - '0'.toNat))
          else none)
      (none : Option Nat) = none := by
  induction cs with
  | nil => rfl
  | cons x xs ih => simpa [List.foldl] using ih

theorem parseDigits_step_digits (cs : List Char) (n m : Nat)
    (h : cs.foldl
      (fun acc c =>
        match acc with
        | none => none
        | some n =>
          if '0'.toNat ≤ c.toNat ∧ c.toNat ≤ '9'.toNat then
            some (n * 10 + (c.toNat - '0'.toNat))
          else none)
      (some n) = some m) :
    ∀ c ∈ cs, '0'.toNat ≤ c.toNat ∧ c.toNat ≤ '9'.toNat := by
  induction cs generalizing n with
  | nil => simp
  | cons x xs ih =>
    by_cases hx : '0'.toNat ≤ x.toNat ∧ x.toNat ≤ '9'.toNat
    · simp only [List.foldl, if_pos hx] at h
      intro c hc
      rcases List.mem_cons.mp hc with rfl | hc
      · exact hx
      · exact ih _ h c hc
    · simp only [List.foldl, if_neg hx] at h
      rw [parseDigits_step_none] at h
      cases h

theorem parseDigits_digits (cs : List Char) (m : Nat) (h : strconv.parseDigits cs = some m) :
    ∀ c ∈ cs, '0'.toNat ≤ c.toNat ∧ c.toNat ≤ '9'.toNat := by
  cases cs with
  | nil => simp
  | cons x xs =>
    simp only [strconv.parseDigits] at h
    exact parseDigits_step_digits _ 0 m h

theorem ParseInt_chars (s : String) (v : Int) (h : strconv.ParseInt s = .ok v) :
    ∀ c ∈ s.data, c = '+' ∨ c = '-' ∨ ('0'.toNat ≤ c.toNat ∧ c.toNat ≤ '9'.toNat) := by
  unfold strconv.ParseInt at h
  split at h
  · cases h
  · rename_i c cs hs
    simp only at h
    split at h
    · cases h
    · rename_i un hun
      have hd := parseDigits_digits _ un hun
      rw [hs]
      intro x hx
      by_cases hsign : c = '+' ∨ c = '-'
      · simp only [if_pos hsign] at hd
        rcases List.mem_cons.mp hx with rfl | hx
        · rcases hsign with h1 | h1
          · exact Or.inl h1
          · exact Or.inr (Or.inl h1)
        · exact Or.inr (Or.inr (hd x hx))
      · simp only [if_neg hsign] at hd
        exact Or.inr (Or.inr (hd x hx))

theorem ParseInt_no_colon (s : String) (v : Int) (h : strconv.ParseInt s = .ok v) :
    ':' ∉ s.data := by
  intro hmem
  rcases ParseInt_chars s v h ':' hmem with h1 | h1 | h1
  · exact absurd h1 (by decide)
  · exact absurd h1 (by decide)
  · exact absurd h1 (by decide)

theorem SplitN2_json (rest : String) :
    strings.SplitN2 ("json=" ++ rest) '=' = ["json", rest] := by
  have h : ("json=" ++ rest).data = "json".data ++ '=' :: rest.data := by
    simp [String.data_append]
  simp only [strings.SplitN2, h]
  rw [cutChars_append '=' "json".data rest.data (by decide)]

theorem SplitN2_cut (s : String) (sep : Char) (a b : String)
    (h : strings.SplitN2 s sep = [a, b]) : s = a ++ ⟨[sep]⟩ ++ b := by
  unfold strings.SplitN2 at h
  split at h
  · simp at h
  · rename_i x y hc
    simp only [List.cons.injEq, and_true] at h
    obtain ⟨rfl, rfl⟩ := h
    obtain ⟨h1, -⟩ := cutChars_some sep s.data x y hc
    apply String.ext
    simp [String.data_append, h1]

theorem SplitN2_length (s : String) (sep : Char) :
    (∃ a b, strings.SplitN2 s sep = [a, b]) ∨ strings.SplitN2 s sep = [s] := by
  unfold strings.SplitN2
  split
  · exact Or.inr rfl
  · exact Or.inl ⟨_, _, rfl⟩

theorem getStateRange_json (S E : String) (s e : Int)
    (hS : strconv.ParseInt S = .ok s) (hE : strconv.ParseInt E = .ok e) :
    transport.getStateRange ("json=" ++ S ++ ":" ++ E) = .ok (some ⟨s, e⟩) := by
  have hne : ("json=" ++ S ++ ":" ++ E) ≠ "" ∧ ("json=" ++ S ++ ":" ++ E) ≠ "bytes=0-" := by
    constructor
    · intro h
      have := congrArg String.data h
      simp [String.data_append] at this
    · intro h
      have := congrArg String.data h
      simp [String.data_append] at this
  have hassoc : "json=" ++ S ++ ":" ++ E = "json=" ++ (S ++ ":" ++ E) := by
    apply String.ext
    simp [String.data_append]
  have hsplit : strings.SplitN2 (S ++ ":" ++ E) ':' = [S, E] := by
    have h : (S ++ ":" ++ E).data = S.data ++ ':' :: E.data := by
      simp [String.data_append]
    simp only [strings.SplitN2, h]
    rw [cutChars_append ':' S.data E.data (ParseInt_no_colon S s hS)]
  unfold transport.getStateRange
  rw [if_pos hne, hassoc, SplitN2_json]
  simp only [ne_eq, not_true_eq_false, if_false, hsplit, hS, hE]

theorem getStateRange_ok (r : String) (rng : Range)
    (h : transport.getStateRange r = .ok (some rng)) :
    ∃ S E, r = "json=" ++ S ++ ":" ++ E ∧ strconv.ParseInt S = .ok rng.Start ∧
      strconv.ParseInt E = .ok rng.End := by
  unfold transport.getStateRange at h
  split at h
  · split at h
    · rename_i part0 part1 h0
      split at h
      · cases h
      · rename_i hjson
        simp only [ne_eq, not_not] at hjson
        split at h
        · rename_i S E h1
          split at h
          · cases h
          · rename_i start hS
            split at h
            · cases h
            · rename_i end_ hE
              simp only [Except.ok.injEq, Option.some.injEq] at h
              subst h
              refine ⟨S, E, ?_, hS, hE⟩
              have e0 := SplitN2_cut r '=' part0 part1 h0
              have e1 := SplitN2_cut part1 ':' S E h1
              rw [e0, e1, hjson]
              apply String.ext
              simp [String.data_append]
        · cases h
    · cases h
  · cases h

theorem getStateRange_cases (r : String) :
    transport.getStateRange r = .error "bad Range header" ∨
      (∃ rng, transport.getStateRange r = .ok rng) := by
  unfold transport.getStateRange
  split
  · split
    · split
      · exact Or.inl rfl
      · split
        · split
          · exact Or.inl rfl
          · split
            · exact Or.inl rfl
            · exact Or.inr ⟨_, rfl⟩
        · exact Or.inl rfl
    · exact Or.inl rfl
  · exact Or.inr ⟨_, rfl⟩

theorem getStateRange_none (r : String) (h : transport.getStateRange r = .ok none) :
    r = "" ∨ r = "bytes=0-" := by
  unfold transport.getStateRange at h
  split at h
  · split at h
    · split at h
      · cases h
      · split at h
        · split at h
          · cases h
          · split at h
            · cases h
            · cases h
        · cases h
    · cases h
  · rename_i hn
    by_cases h1 : r = ""
    · exact Or.inl h1
    · by_cases h2 : r = "bytes=0-"
      · exact Or.inr h2
      · exact absurd ⟨h1, h2⟩ hn

theorem serveGetState_at_range (c : Collaborators) (d : StateDeps) (t : transport)
    (w : ResponseWriter) (r : Request) (reqStateURI : String) (version : Option Version)
    (first : Char) (pathTail : List Char) (keypath : Keypath)
    (hu : d.UnmarshalGetState r = .ok (reqStateURI, version))
    (hp : r.Path.data = first :: pathTail)
    (hk : transport.getStateKeypath d ⟨pathTail⟩ = .ok keypath) :
    ∃ w1 : ResponseWriter, w1.status = w.status ∧ w1.body = w.body ∧ w1.cookies = w.cookies ∧
      (∀ key, key ≠ "Content-Disposition" → GoMap.get w1.header key = GoMap.get w.header key) ∧
      transport.serveGetState c d t w r =
        match transport.getStateRange (r.Header.Get "Range") with
        | .error msg => ⟨http.Error w1 msg http.StatusBadRequest, [], none⟩
        | .ok rng =>
          match d.Leaves (if reqStateURI = "" then t.defaultStateURI else reqStateURI) with
          | .error err =>
            ⟨http.Error w1 (c.errText err) 404,
              [.Leaves (if reqStateURI = "" then t.defaultStateURI else reqStateURI)], none⟩
          | .ok [] =>
            transport.serveGetStateNode c d { w1 with header := w1.header.Add "Parents" "" } r
              (if reqStateURI = "" then t.defaultStateURI else reqStateURI) version keypath rng
              [.Leaves (if reqStateURI = "" then t.defaultStateURI else reqStateURI)]
          | .ok (leaf :: _) =>
            match d.FetchTx (if reqStateURI = "" then t.defaultStateURI else reqStateURI)
                leaf with
            | .error err =>
              ⟨http.Error w1
                  ("can't fetch tx " ++ Version.Hex leaf ++ ": " ++ c.errText err) 404,
                [.Leaves (if reqStateURI = "" then t.defaultStateURI else reqStateURI),
                  .FetchTx (if reqStateURI = "" then t.defaultStateURI else reqStateURI) leaf],
                none⟩
            | .ok tx =>
              transport.serveGetStateNode c d
                { w1 with
                  header := w1.header.Add "Parents"
                    (strings.Join (tx.Parents.map Version.Hex) ",") } r
                (if reqStateURI = "" then t.defaultStateURI else reqStateURI) version keypath
                rng
                [.Leaves (if reqStateURI = "" then t.defaultStateURI else reqStateURI),
                  .FetchTx (if reqStateURI = "" then t.defaultStateURI else reqStateURI)
                    leaf] := by
  refine ⟨if (d.QueryGet r "filename").length ≠ 0 then
      { w with
        header := w.header.Set "Content-Disposition"
          ("attachment; filename=" ++ d.QueryGet r "filename") }
    else w, ?_, ?_, ?_, ?_, ?_⟩
  · split <;> rfl
  · split <;> rfl
  · split <;> rfl
  · intro key hkey
    split
    · exact GoMap_get_set_other _ _ _ _ hkey
    · rfl
  · simp only [transport.serveGetState, hu, hp, hk]

/-! ## C16: the Range header of a state GET -/

/-- C16. For every `Range` header value `r` on a state GET: when `r` is empty or equals
`bytes=0-`, no range is used; when `r` is `json=S:E` with `S` and `E` decimal signed 64-bit
integers (strings that `strconv.ParseInt(_, 10, 64)` accepts), the range is the pair of
their values, so `json=5:-1` gives 5 and -1; for every other `r` the range step fails with
`bad Range header`. And when the range step fails in a state GET that got as far as the
range (request fields and keypath were read), the handler makes no state-resolving call,
does not panic, writes `bad Range header` to the body, and answers 400 on a response whose
header was not written yet. -/
theorem C16_range_header :
    transport.getStateRange "" = .ok none ∧
      transport.getStateRange "bytes=0-" = .ok none ∧
      (∀ (S E : String) (s e : Int), strconv.ParseInt S = .ok s → strconv.ParseInt E = .ok e →
        transport.getStateRange ("json=" ++ S ++ ":" ++ E) = .ok (some ⟨s, e⟩)) ∧
      transport.getStateRange "json=5:-1" = .ok (some ⟨5, -1⟩) ∧
      (∀ r : String, r ≠ "" → r ≠ "bytes=0-" →
        (¬ ∃ (S E : String) (s e : Int), r = "json=" ++ S ++ ":" ++ E ∧
          strconv.ParseInt S = .ok s ∧ strconv.ParseInt E = .ok e) →
        transport.getStateRange r = .error "bad Range header") ∧
      (∀ (c : Collaborators) (d : StateDeps) (t : transport) (w : ResponseWriter)
          (r : Request) (reqStateURI : String) (version : Option Version) (first : Char)
          (pathTail : List Char) (keypath : Keypath) (msg : String),
        d.UnmarshalGetState r = .ok (reqStateURI, version) →
        r.Path.data = first :: pathTail →
        transport.getStateKeypath d ⟨pathTail⟩ = .ok keypath →
        transport.getStateRange (r.Header.Get "Range") = .error msg →
        (transport.serveGetState c d t w r).calls = [] ∧
          (transport.serveGetState c d t w r).panicked = none ∧
          (transport.serveGetState c d t w r).w.body = w.body ++ "bad Range header\n" ∧
          (w.status = none → (transport.serveGetState c d t w r).w.status = some 400)) := by
  refine ⟨by decide, by decide, getStateRange_json, by decide, ?_, ?_⟩
  · intro r h1 h2 hform
    rcases getStateRange_cases r with h | ⟨rng, h⟩
    · exact h
    · cases rng with
      | none =>
        rcases getStateRange_none r h with h3 | h3
        · exact absurd h3 h1
        · exact absurd h3 h2
      | some rng =>
        obtain ⟨S, E, hr, hS, hE⟩ := getStateRange_ok r rng h
        exact absurd ⟨S, E, rng.Start, rng.End, hr, hS, hE⟩ hform
  · intro c d t w r reqStateURI version first pathTail keypath msg hu hp hk hr
    obtain ⟨w1, hst, hbody, -, -, hrun⟩ :=
      serveGetState_at_range c d t w r reqStateURI version first pathTail keypath hu hp hk
    have hmsg : msg = "bad Range header" := by
      rcases getStateRange_cases (r.Header.Get "Range") with h | ⟨rng, h⟩
      · rw [h] at hr
        simp only [Except.error.injEq] at hr
        exact hr.symm
      · rw [h] at hr
        cases hr
    rw [hrun, hr, hmsg]
    refine ⟨rfl, rfl, ?_, fun hw => ?_⟩
    · show (http.Error w1 "bad Range header" http.StatusBadRequest).body = _
      rw [http_Error_body, hbody]
      rfl
    · exact http_Error_status w1 _ _ (hst.trans hw)

/-- C16 at the example node: the largest and smallest 64-bit values are accepted, and a
state GET with the header `Range: bytes=0-5` is answered with 400 before any state is
resolved. -/
theorem C16_range_header_witness :
    transport.getStateRange "json=-9223372036854775808:9223372036854775807" =
        .ok (some ⟨-9223372036854775808, 9223372036854775807⟩) ∧
      transport.getStateRange "bytes=0-5" = .error "bad Range header" ∧
      (transport.serveGetState Example.c Example.d Example.t {}
        { Path := "/a", Header := [("State-URI", ["chat.com/room"]), ("Range", ["bytes=0-5"])] }
        ).calls = [] ∧
      (transport.serveGetState Example.c Example.d Example.t {}
        { Path := "/a", Header := [("State-URI", ["chat.com/room"]), ("Range", ["bytes=0-5"])] }
        ).w.status = some 400 :=
  ⟨C16_range_header.2.2.1 "-9223372036854775808" "9223372036854775807"
      (-9223372036854775808) 9223372036854775807 (by decide) (by decide),
    C16_range_header.2.2.2.2.1 "bytes=0-5" (by decide) (by decide)
      (fun ⟨S, E, s, e, h, _, _⟩ => by
        have := congrArg String.data h
        simp [String.data_append] at this),
    (C16_range_header.2.2.2.2.2 Example.c Example.d Example.t {}
      { Path := "/a", Header := [("State-URI", ["chat.com/room"]), ("Range", ["bytes=0-5"])] }
      "chat.com/room" none '/' ['a'] "a" "bad Range header"
      (by decide) (by decide) (by decide) (by decide)).1,
    (C16_range_header.2.2.2.2.2 Example.c Example.d Example.t {}
      { Path := "/a", Header := [("State-URI", ["chat.com/room"]), ("Range", ["bytes=0-5"])] }
      "chat.com/room" none '/' ['a'] "a" "bad Range header"
      (by decide) (by decide) (by decide) (by decide)).2.2.2 (by decide)⟩

/-! ## Lemmas: path segments -/

theorem splitChars_pieces (sep : Char) (s : List Char) :
    ∀ p ∈ strings.splitChars sep s, sep ∉ p := by
  induction s with
  | nil => simp [strings.splitChars]
  | cons x xs ih =>
    by_cases hx : x = sep
    · simp only [strings.splitChars, if_pos hx]
      intro p hp
      rcases List.mem_cons.mp hp with rfl | hp
      · simp
      · exact ih p hp
    · simp only [strings.splitChars, if_neg hx]
      cases hs : strings.splitChars sep xs with
      | nil =>
        intro p hp
        simp only [List.mem_singleton] at hp
        subst hp
        simpa using fun e : sep = x => hx e.symm
      | cons q qs =>
        rw [hs] at ih
        intro p hp
        rcases List.mem_cons.mp hp with rfl | hp
        · simp only [List.mem_cons, not_or]
          exact ⟨fun e => hx e.symm, ih q (List.mem_cons_self _ _)⟩
        · exact ih p (List.mem_cons_of_mem _ hp)

theorem FilterEmptyStrings_mem (l : List String) (s : String) :
    s ∈ utils.FilterEmptyStrings l ↔ s ∈ l ∧ s ≠ "" := by
  induction l with
  | nil => simp [utils.FilterEmptyStrings]
  | cons x xs ih =>
    by_cases hx : x = ""
    · simp only [utils.FilterEmptyStrings, if_pos hx, ih, List.mem_cons]
      constructor
      · rintro ⟨h1, h2⟩
        exact ⟨Or.inr h1, h2⟩
      · rintro ⟨h1 | h1, h2⟩
        · exact absurd (h1.trans hx) h2
        · exact ⟨h1, h2⟩
    · simp only [utils.FilterEmptyStrings, if_neg hx, List.mem_cons, ih]
      constructor
      · rintro (h1 | ⟨h1, h2⟩)
        · exact ⟨Or.inl h1, h1 ▸ hx⟩
        · exact ⟨Or.inr h1, h2⟩
      · rintro ⟨h1 | h1, h2⟩
        · exact Or.inl h1
        · exact Or.inr ⟨h1, h2⟩

theorem FilterEmptyStrings_eq_filter (l : List String) :
    utils.FilterEmptyStrings l = l.filter (fun s => decide (s ≠ "")) := by
  induction l with
  | nil => rfl
  | cons x xs ih =>
    by_cases hx : x = "" <;> simp [utils.FilterEmptyStrings, hx, ih]

theorem segments_clean (pathTail : String) :
    ∀ s ∈ utils.FilterEmptyStrings (strings.Split pathTail '/'), s ≠ "" ∧ '/' ∉ s.data := by
  intro s hs
  rw [FilterEmptyStrings_mem] at hs
  refine ⟨hs.2, ?_⟩
  obtain ⟨hmem, -⟩ := hs
  simp only [strings.Split, List.mem_map] at hmem
  obtain ⟨p, hp, rfl⟩ := hmem
  exact splitChars_pieces '/' _ p hp

theorem Join_cons_cons (a b : String) (rest : List String) (sep : String) :
    strings.Join (a :: b :: rest) sep = a ++ sep ++ strings.Join (b :: rest) sep := rfl

theorem Split_Join (segs : List String) (hne : segs ≠ [])
    (h : ∀ s ∈ segs, '/' ∉ s.data) :
    strings.Split (strings.Join segs "/") '/' = segs := by
  induction segs with
  | nil => exact absurd rfl hne
  | cons a rest ih =>
    cases rest with
    | nil =>
      simp only [strings.Join, strings.Split]
      rw [splitChars_no_sep '/' a.data (h a (List.mem_cons_self _ _))]
      rfl
    | cons b rest2 =>
      have ih2 := ih (by simp) (fun s hs => h s (List.mem_cons_of_mem _ hs))
      rw [Join_cons_cons]
      have hd : (a ++ "/" ++ strings.Join (b :: rest2) "/").data =
          a.data ++ '/' :: (strings.Join (b :: rest2) "/").data := by
        simp [String.data_append]
      simp only [strings.Split] at ih2 ⊢
      rw [hd, splitChars_append_sep '/' _ _ (h a (List.mem_cons_self _ _))]
      simp only [List.map_cons, ih2]

theorem Join_ne_empty (segs : List String) (hne : segs ≠ []) (h : ∀ s ∈ segs, s ≠ "") :
    strings.Join segs "/" ≠ "" := by
  cases segs with
  | nil => exact absurd rfl hne
  | cons a rest =>
    cases rest with
    | nil => exact h a (List.mem_cons_self _ _)
    | cons b rest2 =>
      rw [Join_cons_cons]
      intro he
      have := congrArg String.data he
      simp [String.data_append] at this

theorem Parts_Join (segs : List String) (h : ∀ s ∈ segs, s ≠ "" ∧ '/' ∉ s.data) :
    Keypath.Parts (strings.Join segs Keypath.Separator) = segs := by
  by_cases hne : segs = []
  · subst hne
    rfl
  · have h1 := Join_ne_empty segs hne (fun s hs => (h s hs).1)
    simp only [Keypath.Parts, Keypath.Separator, if_neg h1]
    exact Split_Join segs hne (fun s hs => (h s hs).2)

theorem indexChars_none (c : Char) (l : List Char) (h : c ∉ l) :
    Keypath.indexChars c l = none := by
  induction l with
  | nil => rfl
  | cons x xs ih =>
    simp only [List.mem_cons, not_or] at h
    have hx : ¬ x = c := fun e => h.1 e.symm
    simp [Keypath.indexChars, hx, ih h.2]

theorem indexChars_append (c : Char) (a b : List Char) (h : c ∉ a) :
    Keypath.indexChars c (a ++ c :: b) = some a.length := by
  induction a with
  | nil => simp [Keypath.indexChars]
  | cons x xs ih =>
    simp only [List.mem_cons, not_or] at h
    have hx : ¬ x = c := fun e => h.1 e.symm
    simp [Keypath.indexChars, hx, ih h.2]

theorem ParseInt_range (s : String) (v : Int) (h : strconv.ParseInt s = .ok v) :
    -(2 ^ 63 : Int) ≤ v ∧ v < 2 ^ 63 := by
  unfold strconv.ParseInt at h
  split at h
  · cases h
  · rename_i c cs hs
    simp only at h
    split at h
    · cases h
    · rename_i un hun
      split at h
      · cases h
      · split at h
        · cases h
        · rename_i h1 h2
          simp only [Except.ok.injEq] at h
          subst h
          by_cases hneg : c = '-'
          · simp only [hneg, decide_True, Bool.not_true, Bool.false_eq_true, false_and,
              not_false_eq_true, true_and, not_lt, ge_iff_le, gt_iff_lt, if_true] at h1 h2 ⊢
            omega
          · simp only [hneg, decide_False, Bool.not_false, true_and, ge_iff_le, not_le,
              Bool.false_eq_true, false_and, not_false_eq_true, if_false] at h1 h2 ⊢
            omega

theorem bracket_segment (name X : String) :
    (name ++ "[" ++ X ++ "]").data = name.data ++ '[' :: (X.data ++ [']']) := by
  simp [String.data_append]

theorem getStatePart_plain (d : StateDeps) (seg : String) (h : '[' ∉ seg.data) :
    transport.getStatePart d seg = .ok [seg] := by
  simp only [transport.getStatePart, Keypath.IndexByte, indexChars_none '[' seg.data h]

theorem getStatePart_bracket (d : StateDeps) (name X : String) (h : '[' ∉ name.data) :
    transport.getStatePart d (name ++ "[" ++ X ++ "]") =
      match strconv.ParseInt X with
      | .error _ => .badRequest "bad slice index"
      | .ok x => .ok [name, d.EncodeSliceIndex (x % 2 ^ 64).toNat] := by
  have hd := bracket_segment name X
  have hidx : Keypath.IndexByte (name ++ "[" ++ X ++ "]") '[' = some name.data.length := by
    simp only [Keypath.IndexByte, hd]
    exact indexChars_append '[' _ _ h
  have hlen : (name ++ "[" ++ X ++ "]").length = name.data.length + X.data.length + 2 := by
    show (name ++ "[" ++ X ++ "]").data.length = _
    rw [hd]
    simp only [List.length_append, List.length_cons, List.length_nil]
    omega
  have hnot : ¬ (name.data.length + 1 > name.data.length + X.data.length + 2 - 1) := by omega
  have hslice : ((name ++ "[" ++ X ++ "]").data.drop (name.data.length + 1)).take
      (name.data.length + X.data.length + 2 - 1 - (name.data.length + 1)) = X.data := by
    rw [hd]
    have h1 : (name.data ++ '[' :: (X.data ++ [']'])).drop (name.data.length + 1) =
        X.data ++ [']'] := by
      rw [show name.data ++ '[' :: (X.data ++ [']']) = (name.data ++ ['[']) ++ (X.data ++ [']'])
        by simp]
      exact List.drop_left' (by simp)
    rw [h1]
    have h2 : name.data.length + X.data.length + 2 - 1 - (name.data.length + 1) =
        X.data.length := by omega
    rw [h2]
    exact List.take_left' rfl
  have htake : (name ++ "[" ++ X ++ "]").data.take name.data.length = name.data := by
    rw [hd]
    exact List.take_left' rfl
  simp only [transport.getStatePart, hidx, hlen, if_neg hnot, hslice, htake]

theorem ParseInt_digits (N : String) (n : Nat) (h : strconv.parseDigits N.data = some n) :
    strconv.ParseInt N =
      if n ≥ 2 ^ 63 then .error (.New "value out of range") else .ok (n : Int) := by
  have hd := parseDigits_digits N.data n h
  cases hN : N.data with
  | nil =>
    rw [hN] at h
    simp [strconv.parseDigits] at h
  | cons c cs =>
    rw [hN] at hd h
    have hc := hd c (List.mem_cons_self _ _)
    have h1 : c ≠ '+' := by
      rintro rfl
      exact absurd hc (by decide)
    have h2 : c ≠ '-' := by
      rintro rfl
      exact absurd hc (by decide)
    simp only [strconv.ParseInt, hN, h1, h2, false_or, if_false, h, decide_False,
      Bool.not_false, true_and, Bool.false_eq_true, false_and]

theorem ParseInt_has_digit (s : String) (v : Int) (h : strconv.ParseInt s = .ok v) :
    ∃ ch ∈ s.data, '0'.toNat ≤ ch.toNat ∧ ch.toNat ≤ '9'.toNat := by
  unfold strconv.ParseInt at h
  split at h
  · cases h
  · rename_i c cs hs
    simp only at h
    split at h
    · cases h
    · rename_i un hun
      have hd := parseDigits_digits _ un hun
      rw [hs]
      by_cases hsign : c = '+' ∨ c = '-'
      · rw [if_pos hsign] at hun hd
        cases cs with
        | nil => simp [strconv.parseDigits] at hun
        | cons x xs =>
          exact ⟨x, List.mem_cons_of_mem _ (List.mem_cons_self _ _),
            hd x (List.mem_cons_self _ _)⟩
      · rw [if_neg hsign] at hd
        exact ⟨c, List.mem_cons_self _ _, hd c (List.mem_cons_self _ _)⟩

theorem getStatePart_contributes (d : StateDeps) (seg : String) (parts : List Keypath)
    (h : SegmentParts d seg parts) : transport.getStatePart d seg = .ok parts := by
  cases h with
  | plain _ h => exact getStatePart_plain d seg h
  | subscript name N n hname hN hn =>
    rw [getStatePart_bracket d name N hname, ParseInt_digits N n hN,
      if_neg (by omega : ¬ n ≥ 2 ^ 63)]
    have : ((n : Int) % 2 ^ 64).toNat = n := by omega
    simp only [this]

theorem getStateParts_contribute (d : StateDeps) (segs : List String)
    (contrib : List (List Keypath)) (h : List.Forall₂ (SegmentParts d) segs contrib) :
    transport.getStateParts d segs = .ok contrib.flatten := by
  induction h with
  | nil => rfl
  | cons h1 _ ih =>
    simp only [transport.getStateParts, getStatePart_contributes d _ _ h1, ih, List.flatten_cons]

theorem getStateParts_bad (d : StateDeps) (pre post : List String) (seg msg : String)
    (contrib : List (List Keypath)) (h : List.Forall₂ (SegmentParts d) pre contrib)
    (hbad : transport.getStatePart d seg = .badRequest msg) :
    transport.getStateParts d (pre ++ seg :: post) = .badRequest msg := by
  induction h with
  | nil => simp only [List.nil_append, transport.getStateParts, hbad]
  | cons h1 _ ih =>
    show transport.getStateParts d (_ :: (_ ++ seg :: post)) = _
    simp only [transport.getStateParts, getStatePart_contributes d _ _ h1, ih]

theorem getStateKeypath_parts (d : StateDeps) (pathTail : String) :
    transport.getStateKeypath d pathTail =
      match transport.getStateParts d
          (utils.FilterEmptyStrings (strings.Split pathTail '/')) with
      | .ok newParts => .ok (Keypath.JoinKeypaths newParts "/")
      | .badRequest msg => .badRequest msg
      | .panic msg => .panic msg := by
  simp only [transport.getStateKeypath, Parts_Join _ (segments_clean pathTail)]

theorem serveGetState_bad_keypath (c : Collaborators) (d : StateDeps) (t : transport)
    (w : ResponseWriter) (r : Request) (reqStateURI : String) (version : Option Version)
    (first : Char) (pathTail : List Char) (msg : String)
    (hu : d.UnmarshalGetState r = .ok (reqStateURI, version))
    (hp : r.Path.data = first :: pathTail)
    (hk : transport.getStateKeypath d ⟨pathTail⟩ = .badRequest msg) :
    ∃ w1 : ResponseWriter, w1.status = w.status ∧ w1.body = w.body ∧
      transport.serveGetState c d t w r = ⟨http.Error w1 msg http.StatusBadRequest, [], none⟩ := by
  refine ⟨if (d.QueryGet r "filename").length ≠ 0 then
      { w with
        header := w.header.Set "Content-Disposition"
          ("attachment; filename=" ++ d.QueryGet r "filename") }
    else w, ?_, ?_, ?_⟩
  · split <;> rfl
  · split <;> rfl
  · simp only [transport.serveGetState, hu, hp, hk]

/-! ## C17: the keypath of a state GET -/

/-- C17, as stated, fails: the segment `a[9223372036854775808]` has the form `name[N]` with
`N` a non-negative decimal integer (its digits have the value `2^63`), yet it does not
contribute `a` and the encoded index: the keypath step fails with `bad slice index` and the
state GET of `/a[9223372036854775808]` is answered with 400. The index one below is
accepted. -/
theorem C17_counterexample_large_index :
    strconv.parseDigits "9223372036854775808".data = some (2 ^ 63) ∧
      transport.getStateKeypath Example.d "a[9223372036854775808]" =
        .badRequest "bad slice index" ∧
      (transport.serveGetState Example.c Example.d Example.t {}
        { Path := "/a[9223372036854775808]", Header := [("State-URI", ["chat.com/room"])] }
        ).w.status = some 400 ∧
      (transport.serveGetState Example.c Example.d Example.t {}
        { Path := "/a[9223372036854775808]", Header := [("State-URI", ["chat.com/room"])] }
        ).w.body = "bad slice index\n" ∧
      transport.getStateKeypath Example.d "a[9223372036854775807]" =
        .ok "a/#9223372036854775807" := by
  refine ⟨by decide, by decide, by decide, by decide, by decide⟩

/-- C17, amended. For every state GET path (the text after the first byte of the URL path),
the segments are the non-empty pieces between the `/`. When every segment contributes parts
(a segment without `[` contributes itself; a segment `name[N]` with `N` decimal digits of a
value below `2^63` contributes `name` and the encoded slice index of the value), the keypath
is the contributed parts, in order, joined with `/`. When the segments before one
contribute parts and that one is `name[X]` with `X` a string that
`strconv.ParseInt(_, 10, 64)` rejects, which includes every `X` without digits and every
string of digits with a value of `2^63` or more, the keypath step fails with
`bad slice index`; and a state GET whose keypath step fails so makes no state-resolving
call and writes `bad slice index` with status 400. -/
theorem C17_keypath_from_segments (d : StateDeps) :
    (∀ (pathTail : String) (contrib : List (List Keypath)),
        List.Forall₂ (SegmentParts d)
          (List.filter (fun s => decide (s ≠ "")) (strings.Split pathTail '/')) contrib →
        transport.getStateKeypath d pathTail = .ok (strings.Join contrib.flatten "/")) ∧
      (∀ (pathTail : String) (pre post : List String) (contrib : List (List Keypath))
          (name X : String) (e : Error),
        List.filter (fun s => decide (s ≠ "")) (strings.Split pathTail '/') =
          pre ++ (name ++ "[" ++ X ++ "]") :: post →
        List.Forall₂ (SegmentParts d) pre contrib →
        '[' ∉ name.data →
        strconv.ParseInt X = .error e →
        transport.getStateKeypath d pathTail = .badRequest "bad slice index") ∧
      (∀ (X : String) (n : Nat), strconv.parseDigits X.data = some n → 2 ^ 63 ≤ n →
        ∃ e, strconv.ParseInt X = .error e) ∧
      (∀ X : String, (∀ ch ∈ X.data, ¬ ('0'.toNat ≤ ch.toNat ∧ ch.toNat ≤ '9'.toNat)) →
        ∃ e, strconv.ParseInt X = .error e) ∧
      (∀ (c : Collaborators) (t : transport) (w : ResponseWriter) (r : Request)
          (reqStateURI : String) (version : Option Version) (first : Char)
          (pathTail : List Char),
        d.UnmarshalGetState r = .ok (reqStateURI, version) →
        r.Path.data = first :: pathTail →
        transport.getStateKeypath d ⟨pathTail⟩ = .badRequest "bad slice index" →
        (transport.serveGetState c d t w r).calls = [] ∧
          (transport.serveGetState c d t w r).w.body = w.body ++ "bad slice index\n" ∧
          (w.status = none → (transport.serveGetState c d t w r).w.status = some 400)) := by
  refine ⟨?_, ?_, ?_, ?_, ?_⟩
  · intro pathTail contrib h
    rw [← FilterEmptyStrings_eq_filter] at h
    rw [getStateKeypath_parts, getStateParts_contribute d _ _ h]
    rfl
  · intro pathTail pre post contrib name X e hsegs hpre hname hX
    rw [← FilterEmptyStrings_eq_filter] at hsegs
    have hbad : transport.getStatePart d (name ++ "[" ++ X ++ "]") =
        .badRequest "bad slice index" := by
      rw [getStatePart_bracket d name X hname, hX]
    rw [getStateKeypath_parts, hsegs, getStateParts_bad d pre post _ _ contrib hpre hbad]
  · intro X n hX hn
    rw [ParseInt_digits X n hX, if_pos hn]
    exact ⟨_, rfl⟩
  · intro X hX
    cases hv : strconv.ParseInt X with
    | error e => exact ⟨e, rfl⟩
    | ok v =>
      obtain ⟨ch, hmem, hdig⟩ := ParseInt_has_digit X v hv
      exact absurd hdig (hX ch hmem)
  · intro c t w r reqStateURI version first pathTail hu hp hk
    obtain ⟨w1, hst, hbody, hrun⟩ :=
      serveGetState_bad_keypath c d t w r reqStateURI version first pathTail _ hu hp hk
    rw [hrun]
    refine ⟨rfl, ?_, fun hw => ?_⟩
    · show (http.Error w1 "bad slice index" http.StatusBadRequest).body = _
      rw [http_Error_body, hbody]
      rfl
    · exact http_Error_status w1 _ _ (hst.trans hw)

/-- C17 at the example node: the path tail `a/b[12]//c` gives the keypath `a/b/#12/c`, the
path tail `a/b[x]/c` fails with `bad slice index`, and the state GET of `/a/b[x]/c` is
answered with 400 without a state-resolving call. -/
theorem C17_keypath_from_segments_witness :
    transport.getStateKeypath Example.d "a/b[12]//c" = .ok "a/b/#12/c" ∧
      transport.getStateKeypath Example.d "a/b[x]/c" = .badRequest "bad slice index" ∧
      (transport.serveGetState Example.c Example.d Example.t {}
        { Path := "/a/b[x]/c", Header := [("State-URI", ["chat.com/room"])] }).calls = [] ∧
      (transport.serveGetState Example.c Example.d Example.t {}
        { Path := "/a/b[x]/c", Header := [("State-URI", ["chat.com/room"])] }).w.status =
        some 400 := by
  have hseg : List.Forall₂ (SegmentParts Example.d)
      (List.filter (fun s => decide (s ≠ "")) (strings.Split "a/b[12]//c" '/'))
      [["a"], ["b", Example.d.EncodeSliceIndex 12], ["c"]] := by
    rw [show List.filter (fun s => decide (s ≠ "")) (strings.Split "a/b[12]//c" '/') =
      ["a", "b" ++ "[" ++ "12" ++ "]", "c"] by decide]
    exact .cons (.plain _ (by decide))
      (.cons (.subscript "b" "12" 12 (by decide) (by decide) (by decide))
        (.cons (.plain _ (by decide)) .nil))
  have h1 := (C17_keypath_from_segments Example.d).1 "a/b[12]//c" _ hseg
  have h2 := (C17_keypath_from_segments Example.d).2.1 "a/b[x]/c" ["a"] ["c"] [["a"]] "b" "x"
    (.New "invalid syntax") (by decide) (.cons (.plain _ (by decide)) .nil) (by decide)
    (by decide)
  have h3 := (C17_keypath_from_segments Example.d).2.2.2.2 Example.c Example.t {}
    { Path := "/a/b[x]/c", Header := [("State-URI", ["chat.com/room"])] } "chat.com/room" none
    '/' "a/b[x]/c".data (by decide) (by decide) h2
  exact ⟨h1, h2, h3.1, h3.2.2 (by decide)⟩

/-! ## Lemmas: the Parents header -/

theorem http_Error_sent (w : ResponseWriter) (msg : String) (code : Nat) (key : String)
    (h1 : key ≠ "Content-Type") (h2 : key ≠ "X-Content-Type-Options") (hst : w.status = none) :
    GoMap.get (http.Error w msg code).sentHeader key = GoMap.get w.header key := by
  have hset : GoMap.get ((w.header.Set "Content-Type" "text/plain; charset=utf-8").Set
      "X-Content-Type-Options" "nosniff") key = GoMap.get w.header key := by
    simp only [Header.Set]
    rw [GoMap_get_set_other _ _ _ _ h2, GoMap_get_set_other _ _ _ _ h1]
  simp only [http.Error, ResponseWriter.Write, ResponseWriter.WriteHeader, hst]
  exact hset

theorem Write_sent (w : ResponseWriter) (data : String) (hst : w.status = none) :
    (w.Write data).sentHeader = w.header := by
  simp only [ResponseWriter.Write, ResponseWriter.WriteHeader, hst]

theorem serveGetStateNode_parents (c : Collaborators) (d : StateDeps) (w : ResponseWriter)
    (r : Request) (stateURI : String) (version : Option Version) (keypath : Keypath)
    (rng : Option Range) (calls : List HubCall) (hst : w.status = none) :
    GoMap.get (transport.serveGetStateNode c d w r stateURI version keypath rng calls).w.header
        "Parents" = GoMap.get w.header "Parents" ∧
      ((transport.serveGetStateNode c d w r stateURI version keypath rng calls).w.status = none ∨
        GoMap.get
          (transport.serveGetStateNode c d w r stateURI version keypath rng calls).w.sentHeader
          "Parents" = GoMap.get w.header "Parents") := by
  unfold transport.serveGetStateNode
  dsimp only
  repeat' split
  all_goals first
    | (simp [http.Error, ResponseWriter.Write, ResponseWriter.WriteHeader, hst, Header.Set,
        GoMap_get_set_other])
    | skip
  rename_i handled heq
  repeat' split at heq
  all_goals
    cases heq <;>
      simp [http.Error, ResponseWriter.Write, ResponseWriter.WriteHeader, hst, Header.Set,
        GoMap_get_set_other]

theorem Header_Add_get (h : Header) (key value : String) :
    GoMap.get (Header.Add h key value) key = some ((GoMap.get h key).getD [] ++ [value]) := by
  simp only [Header.Add]
  exact GoMap_get_set_self _ _ _

/-! ## C18: the Parents header of a state GET -/

/-- C18, as stated, fails: on the example node the leaves lookup for the state `broken.com`
succeeds with the leaf 02, the tx of that leaf cannot be fetched, and the state GET is
answered with 404 and the text `can't fetch tx 02`, with no `Parents` entry in the header
that was sent nor in the header map afterwards. -/
theorem C18_counterexample_fetch_fails :
    Example.d.Leaves "broken.com" = .ok [[2]] ∧
      (transport.serveGetState Example.c Example.d Example.t {}
        { Path := "/a", Header := [("State-URI", ["broken.com"])] }).calls =
        [.Leaves "broken.com", .FetchTx "broken.com" [2]] ∧
      (transport.serveGetState Example.c Example.d Example.t {}
        { Path := "/a", Header := [("State-URI", ["broken.com"])] }).w.status = some 404 ∧
      GoMap.get (transport.serveGetState Example.c Example.d Example.t {}
        { Path := "/a", Header := [("State-URI", ["broken.com"])] }).w.sentHeader "Parents" =
        none ∧
      GoMap.get (transport.serveGetState Example.c Example.d Example.t {}
        { Path := "/a", Header := [("State-URI", ["broken.com"])] }).w.header "Parents" =
        none := by
  refine ⟨by decide, by decide, by decide, by decide, by decide⟩

/-- C18, amended. Take a state GET that got as far as the leaves lookup (request fields,
keypath and range were read) on a response whose header was not written yet and holds no
`Parents` entry, and let the leaves lookup for the state URI succeed. If it reports no
leaves, the header map holds `Parents` with the single value `""`. If it reports leaves and
the tx of the first one is fetched, the header map holds `Parents` with the single value
made of the hex encodings of that tx's parents, in order, with `,` between them. In both
cases the entry is in the header map when the handler is done, and in the header that was
sent when the handler wrote one. If the tx of the first leaf cannot be fetched, the answer
is 404 and neither the header sent nor the header map has a `Parents` entry. -/
theorem C18_parents_header (c : Collaborators) (d : StateDeps) (t : transport)
    (w : ResponseWriter) (r : Request) (reqStateURI : String) (version : Option Version)
    (first : Char) (pathTail : List Char) (keypath : Keypath) (rng : Option Range)
    (leaves : List Version)
    (hu : d.UnmarshalGetState r = .ok (reqStateURI, version))
    (hp : r.Path.data = first :: pathTail)
    (hk : transport.getStateKeypath d ⟨pathTail⟩ = .ok keypath)
    (hr : transport.getStateRange (r.Header.Get "Range") = .ok rng)
    (hw : w.status = none) (hfresh : GoMap.get w.header "Parents" = none)
    (hl : d.Leaves (if reqStateURI = "" then t.defaultStateURI else reqStateURI) =
      .ok leaves) :
    (leaves = [] →
        GoMap.get (transport.serveGetState c d t w r).w.header "Parents" = some [""] ∧
          ((transport.serveGetState c d t w r).w.status = none ∨
            GoMap.get (transport.serveGetState c d t w r).w.sentHeader "Parents" =
              some [""])) ∧
      (∀ (leaf : Version) (rest : List Version) (tx : Tx), leaves = leaf :: rest →
        d.FetchTx (if reqStateURI = "" then t.defaultStateURI else reqStateURI) leaf =
          .ok tx →
        GoMap.get (transport.serveGetState c d t w r).w.header "Parents" =
            some [strings.Join (tx.Parents.map Version.Hex) ","] ∧
          ((transport.serveGetState c d t w r).w.status = none ∨
            GoMap.get (transport.serveGetState c d t w r).w.sentHeader "Parents" =
              some [strings.Join (tx.Parents.map Version.Hex) ","])) ∧
      (∀ (leaf : Version) (rest : List Version) (err : Error), leaves = leaf :: rest →
        d.FetchTx (if reqStateURI = "" then t.defaultStateURI else reqStateURI) leaf =
          .error err →
        (transport.serveGetState c d t w r).w.status = some 404 ∧
          GoMap.get (transport.serveGetState c d t w r).w.sentHeader "Parents" = none ∧
          GoMap.get (transport.serveGetState c d t w r).w.header "Parents" = none) := by
  obtain ⟨w1, hst, -, -, hhdr, hrun⟩ :=
    serveGetState_at_range c d t w r reqStateURI version first pathTail keypath hu hp hk
  have hw1 : w1.status = none := hst.trans hw
  have hp1 : GoMap.get w1.header "Parents" = none :=
    (hhdr "Parents" (by decide)).trans hfresh
  rw [hrun, hr, hl]
  refine ⟨?_, ?_, ?_⟩
  · rintro rfl
    have h := serveGetStateNode_parents c d { w1 with header := w1.header.Add "Parents" "" } r
      (if reqStateURI = "" then t.defaultStateURI else reqStateURI) version keypath rng
      [.Leaves (if reqStateURI = "" then t.defaultStateURI else reqStateURI)] hw1
    have hadd : GoMap.get (w1.header.Add "Parents" "") "Parents" = some [""] := by
      rw [Header_Add_get, hp1]
      rfl
    simp only [hadd] at h
    exact h
  · rintro leaf rest tx rfl hf
    simp only [hf]
    have h := serveGetStateNode_parents c d
      { w1 with
        header := w1.header.Add "Parents" (strings.Join (tx.Parents.map Version.Hex) ",") } r
      (if reqStateURI = "" then t.defaultStateURI else reqStateURI) version keypath rng
      [.Leaves (if reqStateURI = "" then t.defaultStateURI else reqStateURI),
        .FetchTx (if reqStateURI = "" then t.defaultStateURI else reqStateURI) leaf] hw1
    have hadd : GoMap.get
        (w1.header.Add "Parents" (strings.Join (tx.Parents.map Version.Hex) ",")) "Parents" =
        some [strings.Join (tx.Parents.map Version.Hex) ","] := by
      rw [Header_Add_get, hp1]
      rfl
    simp only [hadd] at h
    exact h
  · rintro leaf rest err rfl hf
    simp only [hf]
    refine ⟨http_Error_status w1 _ _ hw1, ?_, ?_⟩
    · rw [http_Error_sent w1 _ _ "Parents" (by decide) (by decide) hw1]
      exact hp1
    · rw [http_Error_header_get w1 _ _ "Parents" (by decide) (by decide)]
      exact hp1

/-- C18 at the example node: the state GET of `/a` for `chat.com/room`, whose first leaf 01
has the parents aa and bb, holds `Parents: aa,bb`; for `empty.com`, which has no leaves, it
holds `Parents` with the empty value. -/
theorem C18_parents_header_witness :
    GoMap.get (transport.serveGetState Example.c Example.d Example.t {}
        { Path := "/a", Header := [("State-URI", ["chat.com/room"])] }).w.header "Parents" =
        some ["aa,bb"] ∧
      GoMap.get (transport.serveGetState Example.c Example.d Example.t {}
        { Path := "/a", Header := [("State-URI", ["empty.com"])] }).w.header "Parents" =
        some [""] := by
  have h1 := (C18_parents_header Example.c Example.d Example.t {}
    { Path := "/a", Header := [("State-URI", ["chat.com/room"])] } "chat.com/room" none '/'
    ['a'] "a" none [[1]] (by decide) (by decide) (by decide) (by decide) (by decide)
    (by decide) (by decide)).2.1 [1] [] { ID := [1], Parents := [[0xaa], [0xbb]] } rfl
    (by decide)
  have h2 := (C18_parents_header Example.c Example.d Example.t {}
    { Path := "/a", Header := [("State-URI", ["empty.com"])] } "empty.com" none '/'
    ['a'] "a" none [] (by decide) (by decide) (by decide) (by decide) (by decide)
    (by decide) (by decide)).1 rfl
  exact ⟨h1.1, h2.1⟩

/-! ## C19: the Signature header of a tx PUT -/

theorem Header_Get_missing (h : Header) (key : String) (hm : GoMap.get h key = none) :
    h.Get key = "" := by
  simp only [Header.Get, hm]

/-- C19. For every tx PUT that reaches `servePostTx` (a PUT that is not private): when the
`Signature` header is missing or its value is empty, the handler writes
`missing Signature header` and answers 400; when it has a value that `SignatureFromHex`
rejects, the handler writes `bad Signature header` and answers 400; in both cases no tx is
handed to `HandleTxReceived`. The status is stated for a response whose header was not
written yet. -/
theorem C19_signature_header (c : Collaborators) (p : PostTxDeps) (t : transport)
    (w : ResponseWriter) (r : Request) :
    (GoMap.get r.Header "Signature" = none ∨ r.Header.Get "Signature" = "" →
        (transport.servePostTx c p t w r).handed = none ∧
          (transport.servePostTx c p t w r).w.body = w.body ++ "missing Signature header\n" ∧
          (w.status = none → (transport.servePostTx c p t w r).w.status = some 400)) ∧
      (∀ e : Error, r.Header.Get "Signature" ≠ "" →
        p.SignatureFromHex (r.Header.Get "Signature") = .error e →
        (transport.servePostTx c p t w r).handed = none ∧
          (transport.servePostTx c p t w r).w.body = w.body ++ "bad Signature header\n" ∧
          (w.status = none → (transport.servePostTx c p t w r).w.status = some 400)) := by
  refine ⟨fun h => ?_, fun e hne he => ?_⟩
  · have hs : r.Header.Get "Signature" = "" := by
      rcases h with h | h
      · exact Header_Get_missing _ _ h
      · exact h
    have hrun : transport.servePostTx c p t w r =
        ⟨http.Error w "missing Signature header" http.StatusBadRequest, none⟩ := by
      simp only [transport.servePostTx, hs, if_true]
    rw [hrun]
    refine ⟨rfl, ?_, fun hw => http_Error_status w _ _ hw⟩
    show (http.Error w "missing Signature header" http.StatusBadRequest).body = _
    rw [http_Error_body]
    rfl
  · have hrun : transport.servePostTx c p t w r =
        ⟨http.Error w "bad Signature header" http.StatusBadRequest, none⟩ := by
      simp only [transport.servePostTx, if_neg hne, he]
    rw [hrun]
    refine ⟨rfl, ?_, fun hw => http_Error_status w _ _ hw⟩
    show (http.Error w "bad Signature header" http.StatusBadRequest).body = _
    rw [http_Error_body]
    rfl

/-- C19 at the example node: a PUT without a `Signature` header and a PUT with the header
`Signature: zz`, which is not hex, are answered with 400 and hand no tx on. -/
theorem C19_signature_header_witness :
    (transport.servePostTx Example.c Example.p Example.t {} { Method := "PUT" }).handed = none ∧
      (transport.servePostTx Example.c Example.p Example.t {} { Method := "PUT" }).w.status =
        some 400 ∧
      (transport.servePostTx Example.c Example.p Example.t {}
        { Method := "PUT", Header := [("Signature", ["zz"])] }).w.body =
        "bad Signature header\n" ∧
      (transport.servePostTx Example.c Example.p Example.t {}
        { Method := "PUT", Header := [("Signature", ["zz"])] }).handed = none := by
  have h1 := (C19_signature_header Example.c Example.p Example.t {} { Method := "PUT" }).1
    (Or.inl (by decide))
  have h2 := (C19_signature_header Example.c Example.p Example.t {}
    { Method := "PUT", Header := [("Signature", ["zz"])] }).2 (.InvalidByteError 'z')
    (by decide) (by decide)
  exact ⟨h1.1, h1.2.2 (by decide), h2.2.1, h2.1⟩

/-! ## Lemmas: scanned lines -/

theorem rawLines_no_newline (a cur : List Char) (h : '\n' ∉ a) :
    bufio.rawLines a cur = if cur.reverse ++ a = [] then [] else [cur.reverse ++ a] := by
  induction a generalizing cur with
  | nil => simp [bufio.rawLines]
  | cons x xs ih =>
    simp only [List.mem_cons, not_or] at h
    have hx : ¬ x = '\n' := fun e => h.1 e.symm
    simp only [bufio.rawLines, if_neg hx]
    rw [ih (x :: cur) h.2]
    simp

theorem rawLines_append_newline (a rest cur : List Char) (h : '\n' ∉ a) :
    bufio.rawLines (a ++ '\n' :: rest) cur = (cur.reverse ++ a) :: bufio.rawLines rest [] := by
  induction a generalizing cur with
  | nil => simp [bufio.rawLines]
  | cons x xs ih =>
    simp only [List.mem_cons, not_or] at h
    have hx : ¬ x = '\n' := fun e => h.1 e.symm
    show bufio.rawLines (x :: (xs ++ '\n' :: rest)) cur = _
    simp only [bufio.rawLines, if_neg hx]
    rw [ih (x :: cur) h.2]
    simp

theorem rawLines_Join (lines : List String) (hn : ∀ l ∈ lines, '\n' ∉ l.data)
    (hlast : lines.getLast? ≠ some "") :
    bufio.rawLines (strings.Join lines "\n").data [] = lines.map String.data := by
  induction lines with
  | nil => rfl
  | cons a rest ih =>
    cases rest with
    | nil =>
      have ha : a.data ≠ [] := by
        intro he
        apply hlast
        have : a = "" := by
          cases a
          simp_all
        simp [this]
      simp only [strings.Join, rawLines_no_newline a.data [] (hn a (List.mem_cons_self _ _))]
      simp [ha]
    | cons b rest2 =>
      have ih2 := ih (fun l hl => hn l (List.mem_cons_of_mem _ hl))
        (by simpa [List.getLast?_cons_cons] using hlast)
      have hd : (strings.Join (a :: b :: rest2) "\n").data =
          a.data ++ '\n' :: (strings.Join (b :: rest2) "\n").data := by
        simp [strings.Join, String.data_append]
      rw [hd, rawLines_append_newline _ _ _ (hn a (List.mem_cons_self _ _)), ih2]
      simp

theorem dropCR_keeps (l : List Char) (h : l.getLast? ≠ some '\r') : bufio.dropCR l = l := by
  unfold bufio.dropCR
  split
  · rename_i heq
    exact absurd heq h
  · rfl

theorem scan_lines (lines : List String)
    (hl : ∀ l ∈ lines, '\n' ∉ l.data ∧ l.data.getLast? ≠ some '\r' ∧
      l.length < bufio.MaxScanTokenSize)
    (hlast : lines.getLast? ≠ some "") :
    bufio.scan (strings.Join lines "\n") = (lines, none) := by
  have hraw := rawLines_Join lines (fun l h => (hl l h).1) hlast
  have hgood : (lines.map String.data).takeWhile
      (fun l => decide (l.length < bufio.MaxScanTokenSize)) = lines.map String.data := by
    rw [List.takeWhile_eq_self_iff]
    intro l hmem
    obtain ⟨s, hs, rfl⟩ := List.mem_map.mp hmem
    simpa using (hl s hs).2.2
  have hmap : (lines.map String.data).map (fun l => (⟨bufio.dropCR l⟩ : String)) = lines := by
    rw [List.map_map]
    conv_rhs => rw [← List.map_id lines]
    apply List.map_congr_left
    intro s hs
    simp only [Function.comp, dropCR_keeps s.data (hl s hs).2.1, id]
  simp only [bufio.scan, hraw, hgood, hmap, lt_irrefl, if_false]

theorem postTxPatches_ok (p : PostTxDeps) (lines : List String) (patches : List Patch)
    (h : List.Forall₂ (fun l pt => p.ParsePatch l = .ok pt) lines patches) :
    transport.postTxPatches p lines = .ok patches := by
  induction h with
  | nil => rfl
  | cons h1 _ ih => simp only [transport.postTxPatches, h1, ih]

theorem postTxPatches_bad (p : PostTxDeps) (lines : List String) (l : String) (e : Error)
    (hmem : l ∈ lines) (he : p.ParsePatch l = .error e) :
    ∃ bad, transport.postTxPatches p lines = .error bad := by
  induction lines with
  | nil => cases hmem
  | cons a rest ih =>
    cases ha : p.ParsePatch a with
    | error e2 => exact ⟨a, by simp only [transport.postTxPatches, ha]⟩
    | ok pt =>
      have hrest : l ∈ rest := by
        rcases List.mem_cons.mp hmem with rfl | h
        · rw [ha] at he
          cases he
        · exact h
      obtain ⟨bad, hbad⟩ := ih hrest
      exact ⟨bad, by simp only [transport.postTxPatches, ha, hbad]⟩

theorem servePostTx_stream (c : Collaborators) (p : PostTxDeps) (t : transport)
    (w : ResponseWriter) (r : Request) (text : String) (attachment : Bytes)
    (hstream : (strings.HasPrefix (r.Header.Get "Content-Type") "multipart/form-data" = false ∧
        r.Body = text ∧ attachment = []) ∨
      (strings.HasPrefix (r.Header.Get "Content-Type") "multipart/form-data" = true ∧
        ∃ rest, p.multipart r = .ok (attachment, text :: rest))) :
    transport.servePostTx c p t w r =
      if r.Header.Get "Signature" = "" then
        ⟨http.Error w "missing Signature header" http.StatusBadRequest, none⟩
      else
        match p.SignatureFromHex (r.Header.Get "Signature") with
        | .error _ => ⟨http.Error w "bad Signature header" http.StatusBadRequest, none⟩
        | .ok sig =>
          match (if r.Header.Get "Version" = "" then .ok p.RandomVersion
                 else p.VersionFromHex (r.Header.Get "Version")) with
          | .error _ => ⟨http.Error w "bad Version header" http.StatusBadRequest, none⟩
          | .ok txID =>
            match (if r.Header.Get "Parents" ≠ "" then
                     transport.postTxParents p (strings.Split (r.Header.Get "Parents") ',')
                   else .ok []) with
            | .error _ => ⟨http.Error w "bad Parents header" http.StatusBadRequest, none⟩
            | .ok parents =>
              match transport.postTxPatches p (bufio.scan text).1 with
              | .error line =>
                ⟨http.Error w ("bad patch string: " ++ fmtByteSlice line)
                  http.StatusBadRequest, none⟩
              | .ok patches =>
                match (bufio.scan text).2 with
                | some err =>
                  ⟨http.Error w ("internal server error: " ++ c.errText err)
                    http.StatusInternalServerError, none⟩
                | none =>
                  match crypto.RecoverSigningPubkey c.eth
                      (p.TxHash
                        { ID := txID, Parents := parents, Sig := sig, Patches := patches,
                          Attachment := attachment,
                          StateURI :=
                            if r.Header.Get "State-URI" = "" then t.defaultStateURI
                            else r.Header.Get "State-URI",
                          Checkpoint := decide (r.Header.Get "Checkpoint" = "true") }) sig with
                  | .error _ => ⟨http.Error w "bad signature" http.StatusBadRequest, none⟩
                  | .ok pubkey =>
                    ⟨w,
                      some
                        { ID := txID, Parents := parents, Sig := sig, Patches := patches,
                          Attachment := attachment,
                          StateURI :=
                            if r.Header.Get "State-URI" = "" then t.defaultStateURI
                            else r.Header.Get "State-URI",
                          Checkpoint := decide (r.Header.Get "Checkpoint" = "true"),
                          From := pubkey.Address c.eth }⟩ := by
  rcases hstream with ⟨h1, h2, h3⟩ | ⟨h1, rest, h2⟩
  · subst h2 h3
    simp only [transport.servePostTx, h1, Bool.false_eq_true, if_false]
  · simp only [transport.servePostTx, h1, h2, if_true, List.head?_cons]

/-! ## C20: the patches of a tx PUT -/

theorem rawLines_pieces (pieces : List String) (hn : ∀ l ∈ pieces, '\n' ∉ l.data) :
    bufio.rawLines (strings.Join pieces "\n").data [] =
      (if pieces.getLast? = some "" then pieces.dropLast else pieces).map String.data := by
  induction pieces with
  | nil => rfl
  | cons a rest ih =>
    cases rest with
    | nil =>
      simp only [strings.Join, rawLines_no_newline a.data [] (hn a (List.mem_cons_self _ _))]
      by_cases ha : a = ""
      · subst ha
        rfl
      · have hd : a.data ≠ [] := by
          intro he
          apply ha
          cases a
          simp_all
        simp [ha, hd]
    | cons b rest2 =>
      have ih2 := ih (fun l hl => hn l (List.mem_cons_of_mem _ hl))
      have hd : (strings.Join (a :: b :: rest2) "\n").data =
          a.data ++ '\n' :: (strings.Join (b :: rest2) "\n").data := by
        simp [strings.Join, String.data_append]
      rw [hd, rawLines_append_newline _ _ _ (hn a (List.mem_cons_self _ _)), ih2]
      rw [List.getLast?_cons_cons]
      split <;> simp

theorem scan_pieces_fst (pieces : List String) (hn : ∀ l ∈ pieces, '\n' ∉ l.data) :
    (bufio.scan (strings.Join pieces "\n")).1 =
      ((if pieces.getLast? = some "" then pieces.dropLast else pieces).takeWhile
        (fun l => decide (l.length < bufio.MaxScanTokenSize))).map
        (fun l => (⟨bufio.dropCR l.data⟩ : String)) := by
  simp only [bufio.scan, rawLines_pieces pieces hn, List.takeWhile_map, List.map_map]
  rfl

theorem scan_pieces_short (pieces : List String) (hn : ∀ l ∈ pieces, '\n' ∉ l.data)
    (h : ∀ l ∈ (if pieces.getLast? = some "" then pieces.dropLast else pieces),
      l.length < bufio.MaxScanTokenSize) :
    (bufio.scan (strings.Join pieces "\n")).2 = none := by
  have hgood : ((if pieces.getLast? = some "" then pieces.dropLast else pieces).map
      String.data).takeWhile (fun l => decide (l.length < bufio.MaxScanTokenSize)) =
      (if pieces.getLast? = some "" then pieces.dropLast else pieces).map String.data := by
    rw [List.takeWhile_eq_self_iff]
    intro l hmem
    obtain ⟨s, hs, rfl⟩ := List.mem_map.mp hmem
    simpa using h s hs
  simp only [bufio.scan, rawLines_pieces pieces hn, hgood, lt_irrefl, if_false]

theorem scan_pieces_long (pieces : List String) (hn : ∀ l ∈ pieces, '\n' ∉ l.data)
    (h : ∃ l ∈ (if pieces.getLast? = some "" then pieces.dropLast else pieces),
      bufio.MaxScanTokenSize ≤ l.length) :
    (bufio.scan (strings.Join pieces "\n")).2 =
      some (.New "bufio.Scanner: token too long") := by
  have hlt : (((if pieces.getLast? = some "" then pieces.dropLast else pieces).map
      String.data).takeWhile (fun l => decide (l.length < bufio.MaxScanTokenSize))).length <
      ((if pieces.getLast? = some "" then pieces.dropLast else pieces).map
        String.data).length := by
    rcases Nat.lt_or_ge
      (((if pieces.getLast? = some "" then pieces.dropLast else pieces).map
        String.data).takeWhile (fun l => decide (l.length < bufio.MaxScanTokenSize))).length
      ((if pieces.getLast? = some "" then pieces.dropLast else pieces).map
        String.data).length with hlt | hge
    · exact hlt
    · exfalso
      have heq := List.Sublist.eq_of_length_le (List.takeWhile_sublist _) hge
      rw [List.takeWhile_eq_self_iff] at heq
      obtain ⟨l, hl, hlong⟩ := h
      have := heq l.data (List.mem_map_of_mem _ hl)
      simp only [decide_eq_true_eq] at this
      exact absurd this (Nat.not_lt.mpr hlong)
  simp only [bufio.scan, rawLines_pieces pieces hn, hlt, if_true]

/-- C20, as stated, fails at the example node: the PUT whose patch stream is the two lines
`a = 1` followed by a carriage return and `b = 2`, with a newline between them. Both lines
parse, the first to a patch that keeps the carriage return, yet the tx handed on carries
the patch of the line `a = 1` without the carriage return: the scanner drops a carriage
return that ends a line before `ParsePatch` sees the line. -/
theorem C20_counterexample_carriage_return :
    strings.Join ["a = 1\r", "b = 2"] "\n" = "a = 1\r\nb = 2" ∧
      Example.p.ParsePatch "a = 1\r" = .ok "patch a = 1\r" ∧
      Example.p.ParsePatch "b = 2" = .ok "patch b = 2" ∧
      ((transport.servePostTx Example.c Example.p Example.t {}
          { Method := "PUT", Body := "a = 1\r\nb = 2",
            Header := [("Signature", ["b20800"]), ("Version", ["ab"])] }).handed.map
        fun tx => tx.Patches) = some ["patch a = 1", "patch b = 2"] ∧
      ((transport.servePostTx Example.c Example.p Example.t {}
          { Method := "PUT", Body := "a = 1\r\nb = 2",
            Header := [("Signature", ["b20800"]), ("Version", ["ab"])] }).handed.map
        fun tx => tx.Patches) ≠ some ["patch a = 1\r", "patch b = 2"] := by
  decide

/-- C20, amended. Take a tx PUT whose patch stream (the request body, or the first
`patches` value of a multipart form) is the pieces `P1..Pn` with a newline between them,
no piece holding a newline. The lines of the stream are the pieces, without the last piece
when it is empty (the stream is empty or ends in a newline); the lines the scanner yields
are the lines before the first one of `MaxScanTokenSize` bytes or more, each without a
carriage return at its end. When every line the scanner yields parses, a tx handed to
`HandleTxReceived` carries exactly the patches of these lines, in this order. With the
`Signature`, `Version` and `Parents` headers accepted: when no line has `MaxScanTokenSize`
bytes or more and the signing key is recovered from the signature, the tx is handed on and
the response is left untouched; when some line has `MaxScanTokenSize` bytes or more, the
answer is 500 (on a response whose header was not written yet). A line of that size lets
no tx be handed on. When a line the scanner yields fails to parse, no tx is handed on and
the answer is 400 (on a response whose header was not written yet). -/
theorem C20_patches_in_order (c : Collaborators) (p : PostTxDeps) (t : transport)
    (w : ResponseWriter) (r : Request) (text : String) (attachment : Bytes)
    (pieces cut lines : List String)
    (hstream : (strings.HasPrefix (r.Header.Get "Content-Type") "multipart/form-data" = false ∧
        r.Body = text ∧ attachment = []) ∨
      (strings.HasPrefix (r.Header.Get "Content-Type") "multipart/form-data" = true ∧
        ∃ rest, p.multipart r = .ok (attachment, text :: rest)))
    (htext : text = strings.Join pieces "\n")
    (hn : ∀ l ∈ pieces, '\n' ∉ l.data)
    (hcut : cut = if pieces.getLast? = some "" then pieces.dropLast else pieces)
    (hlines : lines =
      (cut.takeWhile (fun l => decide (l.length < bufio.MaxScanTokenSize))).map
        (fun l => (⟨bufio.dropCR l.data⟩ : String))) :
    (∀ patches : List Patch, List.Forall₂ (fun l pt => p.ParsePatch l = .ok pt) lines patches →
        (∀ tx, (transport.servePostTx c p t w r).handed = some tx → tx.Patches = patches) ∧
          (∀ (sig : Bytes) (txID : Version) (parents : List Version),
            r.Header.Get "Signature" ≠ "" →
            p.SignatureFromHex (r.Header.Get "Signature") = .ok sig →
            (if r.Header.Get "Version" = "" then .ok p.RandomVersion
              else p.VersionFromHex (r.Header.Get "Version")) = .ok txID →
            (if r.Header.Get "Parents" ≠ "" then
                transport.postTxParents p (strings.Split (r.Header.Get "Parents") ',')
              else .ok []) = .ok parents →
            (∀ pubkey : signingPublicKey,
              (∀ l ∈ cut, l.length < bufio.MaxScanTokenSize) →
              crypto.RecoverSigningPubkey c.eth
                  (p.TxHash
                    { ID := txID, Parents := parents, Sig := sig, Patches := patches,
                      Attachment := attachment,
                      StateURI :=
                        if r.Header.Get "State-URI" = "" then t.defaultStateURI
                        else r.Header.Get "State-URI",
                      Checkpoint := decide (r.Header.Get "Checkpoint" = "true") }) sig =
                .ok pubkey →
              (transport.servePostTx c p t w r).w = w ∧
                ∃ tx, (transport.servePostTx c p t w r).handed = some tx ∧
                  tx.Patches = patches) ∧
              ((∃ l ∈ cut, bufio.MaxScanTokenSize ≤ l.length) → w.status = none →
                (transport.servePostTx c p t w r).w.status = some 500))) ∧
      ((∃ l ∈ cut, bufio.MaxScanTokenSize ≤ l.length) →
        (transport.servePostTx c p t w r).handed = none) ∧
      (∀ (l : String) (e : Error), l ∈ lines → p.ParsePatch l = .error e →
        (transport.servePostTx c p t w r).handed = none ∧
          (w.status = none → (transport.servePostTx c p t w r).w.status = some 400)) := by
  have hfst := scan_pieces_fst pieces hn
  rw [← htext, ← hcut, ← hlines] at hfst
  have hshort := scan_pieces_short pieces hn
  rw [← htext, ← hcut] at hshort
  have hlong := scan_pieces_long pieces hn
  rw [← htext, ← hcut] at hlong
  have hrun := servePostTx_stream c p t w r text attachment hstream
  rw [hfst] at hrun
  refine ⟨fun patches hparse => ⟨?_, ?_⟩, ?_, ?_⟩
  · intro tx htx
    rw [hrun] at htx
    simp only [postTxPatches_ok p lines patches hparse] at htx
    repeat' split at htx
    all_goals first
      | (cases htx; done)
      | (simp only [Option.some.injEq, PostTxHandled.mk.injEq] at htx
         cases htx
         rfl)
  · intro sig txID parents hne hsig hver hpar
    refine ⟨fun pubkey hs hrec => ?_, fun hl hw => ?_⟩
    · simp only [if_neg hne, hsig, hver, hpar, postTxPatches_ok p lines patches hparse,
        hshort hs, hrec] at hrun
      rw [hrun]
      exact ⟨rfl, _, rfl, rfl⟩
    · simp only [if_neg hne, hsig, hver, hpar, postTxPatches_ok p lines patches hparse,
        hlong hl] at hrun
      rw [hrun]
      exact http_Error_status w _ _ hw
  · intro hl
    simp only [hlong hl] at hrun
    rw [hrun]
    repeat' split
    all_goals rfl
  · intro l e hmem he
    obtain ⟨bad, hbad⟩ := postTxPatches_bad p lines l e hmem he
    simp only [hbad] at hrun
    rw [hrun]
    repeat' split
    all_goals exact ⟨rfl, fun hw => http_Error_status w _ _ hw⟩

/-- C20 at the example node: the PUT with the body of the line `a = 1` ended by a carriage
return and a newline and the line `b = 2` ended by a newline hands on a tx with the patches
of `a = 1` and `b = 2` in this order and leaves the response untouched; the PUT with the
lines `a = 1`, `b! = 2`, `c`, whose second line does not parse, is answered with 400 and
hands no tx on. -/
theorem C20_patches_in_order_witness :
    ((transport.servePostTx Example.c Example.p Example.t {}
        { Method := "PUT", Body := "a = 1\r\nb = 2\n",
          Header := [("Signature", ["b20800"]), ("Version", ["ab"])] }).w = {} ∧
      ∃ tx, (transport.servePostTx Example.c Example.p Example.t {}
          { Method := "PUT", Body := "a = 1\r\nb = 2\n",
            Header := [("Signature", ["b20800"]), ("Version", ["ab"])] }).handed = some tx ∧
        tx.Patches = ["patch a = 1", "patch b = 2"]) ∧
      (transport.servePostTx Example.c Example.p Example.t {}
        { Method := "PUT", Body := "a = 1\nb! = 2\nc",
          Header := [("Signature", ["b20800"]), ("Version", ["ab"])] }).handed = none ∧
      (transport.servePostTx Example.c Example.p Example.t {}
        { Method := "PUT", Body := "a = 1\nb! = 2\nc",
          Header := [("Signature", ["b20800"]), ("Version", ["ab"])] }).w.status = some 400 := by
  have h1 := ((((C20_patches_in_order Example.c Example.p Example.t {}
    { Method := "PUT", Body := "a = 1\r\nb = 2\n",
      Header := [("Signature", ["b20800"]), ("Version", ["ab"])] } "a = 1\r\nb = 2\n" []
    ["a = 1\r", "b = 2", ""] ["a = 1\r", "b = 2"] ["a = 1", "b = 2"]
    (Or.inl ⟨by decide, rfl, rfl⟩) (by decide) (by decide) (by decide) (by decide)).1
    ["patch a = 1", "patch b = 2"] (.cons (by decide) (.cons (by decide) .nil))).2
    [0xb2, 8, 0] [0xab] [] (by decide) (by decide) (by decide) (by decide)).1
    { PublicKey := { X := 7, Y := 0 } } (by decide) (by decide))
  have h2 := (C20_patches_in_order Example.c Example.p Example.t {}
    { Method := "PUT", Body := "a = 1\nb! = 2\nc",
      Header := [("Signature", ["b20800"]), ("Version", ["ab"])] } "a = 1\nb! = 2\nc" []
    ["a = 1", "b! = 2", "c"] ["a = 1", "b! = 2", "c"] ["a = 1", "b! = 2", "c"]
    (Or.inl ⟨by decide, rfl, rfl⟩) (by decide) (by decide) (by decide)
    (by decide)).2.2 "b! = 2" (.New "bad patch") (by decide) (by decide)
  exact ⟨h1, h2.1, h2.2 (by decide)⟩

/-! ## C21: the sender of a tx PUT -/

theorem servePostTx_handed (c : Collaborators) (p : PostTxDeps) (t : transport)
    (w : ResponseWriter) (r : Request) (tx : Tx)
    (h : (transport.servePostTx c p t w r).handed = some tx) :
    ∃ pubkey : signingPublicKey,
      crypto.RecoverSigningPubkey c.eth (p.TxHash { tx with From := Address.zero }) tx.Sig =
        .ok pubkey ∧
      tx.From = pubkey.Address c.eth ∧ (transport.servePostTx c p t w r).w = w := by
  generalize hres : transport.servePostTx c p t w r = res at h ⊢
  unfold transport.servePostTx at hres
  dsimp only at hres
  repeat' split at hres
  all_goals subst hres
  all_goals first
    | (cases h; done)
    | (rename_i heq hst
       simp only [Option.some.injEq] at h
       subst h
       first
         | rw [if_pos hst] at heq
         | rw [if_neg hst] at heq
       exact ⟨_, heq, rfl, rfl⟩)

theorem servePostTx_at_recover (c : Collaborators) (p : PostTxDeps) (t : transport)
    (w : ResponseWriter) (r : Request) (sig : Bytes) (txID : Version)
    (parents : List Version) (attachment : Bytes) (patchReader : Option String)
    (lines : List String) (patches : List Patch)
    (hne : r.Header.Get "Signature" ≠ "")
    (hsig : p.SignatureFromHex (r.Header.Get "Signature") = .ok sig)
    (hver : (if r.Header.Get "Version" = "" then .ok p.RandomVersion
      else p.VersionFromHex (r.Header.Get "Version")) = .ok txID)
    (hpar : (if r.Header.Get "Parents" ≠ "" then
        transport.postTxParents p (strings.Split (r.Header.Get "Parents") ',')
      else .ok []) = .ok parents)
    (hbody : (strings.HasPrefix (r.Header.Get "Content-Type") "multipart/form-data" = false ∧
        attachment = [] ∧ patchReader = some r.Body) ∨
      (strings.HasPrefix (r.Header.Get "Content-Type") "multipart/form-data" = true ∧
        ∃ strs, p.multipart r = .ok (attachment, strs) ∧ patchReader = strs.head?))
    (hlines : (patchReader = none ∧ lines = []) ∨
      ∃ text, patchReader = some text ∧ bufio.scan text = (lines, none))
    (hpatch : transport.postTxPatches p lines = .ok patches) :
    transport.servePostTx c p t w r =
      match crypto.RecoverSigningPubkey c.eth
          (p.TxHash
            { ID := txID, Parents := parents, Sig := sig, Patches := patches,
              Attachment := attachment,
              StateURI :=
                if r.Header.Get "State-URI" = "" then t.defaultStateURI
                else r.Header.Get "State-URI",
              Checkpoint := decide (r.Header.Get "Checkpoint" = "true") }) sig with
      | .error _ => ⟨http.Error w "bad signature" http.StatusBadRequest, none⟩
      | .ok pubkey =>
        ⟨w,
          some
            { ID := txID, Parents := parents, From := pubkey.Address c.eth, Sig := sig,
              Patches := patches, Attachment := attachment,
              StateURI :=
                if r.Header.Get "State-URI" = "" then t.defaultStateURI
                else r.Header.Get "State-URI",
              Checkpoint := decide (r.Header.Get "Checkpoint" = "true") }⟩ := by
  rcases hbody with ⟨h1, h2, h3⟩ | ⟨h1, strs, h2, h3⟩
  · rcases hlines with ⟨h4, h5⟩ | ⟨text, h4, h5⟩
    · rw [h3] at h4
      cases h4
    · rw [h3] at h4
      cases h4
      subst h2
      simp only [transport.servePostTx, if_neg hne, hsig, hver, hpar, h1, Bool.false_eq_true,
        if_false, h5, hpatch]
  · rcases hlines with ⟨h4, h5⟩ | ⟨text, h4, h5⟩
    · subst h5
      rw [h3] at h4
      simp only [transport.servePostTx, if_neg hne, hsig, hver, hpar, h1, if_true, h2, h4,
        hpatch]
    · rw [h3] at h4
      simp only [transport.servePostTx, if_neg hne, hsig, hver, hpar, h1, if_true, h2, h4, h5,
        hpatch]

/-- C21. For every tx PUT: a tx handed to `HandleTxReceived` has `From` equal to the address
of the public key that `RecoverSigningPubkey` recovers from the tx's signature and the hash
of the tx as assembled from the request, which is the tx with `From` still at its zero
value (the other fields, id, parents, signature, patches, attachment, state URI and
checkpoint, are those of the handed tx), and the response is left untouched. When the
request gets as far as the recovery (headers accepted, patch stream scanned and parsed), a
successful recovery hands the tx on, and a failed recovery answers 400 `bad signature`
(status stated for a response whose header was not written yet) and hands no tx on. -/
theorem C21_from_is_recovered_signer (c : Collaborators) (p : PostTxDeps) (t : transport)
    (w : ResponseWriter) (r : Request) :
    (∀ tx : Tx, (transport.servePostTx c p t w r).handed = some tx →
        ∃ pubkey : signingPublicKey,
          crypto.RecoverSigningPubkey c.eth (p.TxHash { tx with From := Address.zero })
              tx.Sig = .ok pubkey ∧
            tx.From = pubkey.Address c.eth ∧ (transport.servePostTx c p t w r).w = w) ∧
      (∀ (sig : Bytes) (txID : Version) (parents : List Version) (attachment : Bytes)
          (patchReader : Option String) (lines : List String) (patches : List Patch),
        r.Header.Get "Signature" ≠ "" →
        p.SignatureFromHex (r.Header.Get "Signature") = .ok sig →
        (if r.Header.Get "Version" = "" then .ok p.RandomVersion
          else p.VersionFromHex (r.Header.Get "Version")) = .ok txID →
        (if r.Header.Get "Parents" ≠ "" then
            transport.postTxParents p (strings.Split (r.Header.Get "Parents") ',')
          else .ok []) = .ok parents →
        ((strings.HasPrefix (r.Header.Get "Content-Type") "multipart/form-data" = false ∧
            attachment = [] ∧ patchReader = some r.Body) ∨
          (strings.HasPrefix (r.Header.Get "Content-Type") "multipart/form-data" = true ∧
            ∃ strs, p.multipart r = .ok (attachment, strs) ∧ patchReader = strs.head?)) →
        ((patchReader = none ∧ lines = []) ∨
          ∃ text, patchReader = some text ∧ bufio.scan text = (lines, none)) →
        transport.postTxPatches p lines = .ok patches →
        (∀ pubkey : signingPublicKey,
          crypto.RecoverSigningPubkey c.eth
              (p.TxHash
                { ID := txID, Parents := parents, Sig := sig, Patches := patches,
                  Attachment := attachment,
                  StateURI :=
                    if r.Header.Get "State-URI" = "" then t.defaultStateURI
                    else r.Header.Get "State-URI",
                  Checkpoint := decide (r.Header.Get "Checkpoint" = "true") }) sig =
            .ok pubkey →
          (transport.servePostTx c p t w r).handed =
            some
              { ID := txID, Parents := parents, From := pubkey.Address c.eth, Sig := sig,
                Patches := patches, Attachment := attachment,
                StateURI :=
                  if r.Header.Get "State-URI" = "" then t.defaultStateURI
                  else r.Header.Get "State-URI",
                Checkpoint := decide (r.Header.Get "Checkpoint" = "true") }) ∧
          (∀ e : Error,
            crypto.RecoverSigningPubkey c.eth
                (p.TxHash
                  { ID := txID, Parents := parents, Sig := sig, Patches := patches,
                    Attachment := attachment,
                    StateURI :=
                      if r.Header.Get "State-URI" = "" then t.defaultStateURI
                      else r.Header.Get "State-URI",
                    Checkpoint := decide (r.Header.Get "Checkpoint" = "true") }) sig =
              .error e →
            (transport.servePostTx c p t w r).handed = none ∧
              (transport.servePostTx c p t w r).w.body = w.body ++ "bad signature\n" ∧
              (w.status = none →
                (transport.servePostTx c p t w r).w.status = some 400))) := by
  refine ⟨fun tx h => servePostTx_handed c p t w r tx h, ?_⟩
  intro sig txID parents attachment patchReader lines patches hne hsig hver hpar hbody hlines
    hpatch
  have hrun := servePostTx_at_recover c p t w r sig txID parents attachment patchReader lines
    patches hne hsig hver hpar hbody hlines hpatch
  refine ⟨fun pubkey hrec => ?_, fun e hrec => ?_⟩
  · rw [hrun, hrec]
  · rw [hrun, hrec]
    refine ⟨rfl, ?_, fun hw => http_Error_status w _ _ hw⟩
    show (http.Error w "bad signature" http.StatusBadRequest).body = _
    rw [http_Error_body]
    rfl

/-- C21 at the example node: the PUT with the signature b2 08 00 and the version ab hands on
a tx whose `From` is the address of the key recovered from that signature over the hash of
the tx without `From`; the PUT with the signature b2 09 00, from which no key is recovered,
is answered with 400 `bad signature` and hands no tx on. -/
theorem C21_from_is_recovered_signer_witness :
    (∃ pubkey : signingPublicKey,
        crypto.RecoverSigningPubkey Example.c.eth
            (Example.p.TxHash
              { ID := [0xab], Sig := [0xb2, 8, 0], Patches := ["patch a = 1", "patch b = 2"] })
            [0xb2, 8, 0] = .ok pubkey ∧
          copyInto 20 [7] = pubkey.Address Example.c.eth) ∧
      (transport.servePostTx Example.c Example.p Example.t {}
        { Method := "PUT", Body := "a = 1\nb = 2",
          Header := [("Signature", ["b20900"]), ("Version", ["ab"])] }).handed = none ∧
      (transport.servePostTx Example.c Example.p Example.t {}
        { Method := "PUT", Body := "a = 1\nb = 2",
          Header := [("Signature", ["b20900"]), ("Version", ["ab"])] }).w.body =
        "bad signature\n" := by
  obtain ⟨pubkey, h1, h2, -⟩ := (C21_from_is_recovered_signer Example.c Example.p Example.t {}
    { Method := "PUT", Body := "a = 1\nb = 2",
      Header := [("Signature", ["b20800"]), ("Version", ["ab"])] }).1
    { ID := [0xab], From := copyInto 20 [7], Sig := [0xb2, 8, 0],
      Patches := ["patch a = 1", "patch b = 2"] } (by decide)
  have h3 := ((C21_from_is_recovered_signer Example.c Example.p Example.t {}
    { Method := "PUT", Body := "a = 1\nb = 2",
      Header := [("Signature", ["b20900"]), ("Version", ["ab"])] }).2
    [0xb2, 9, 0] [0xab] [] [] (some "a = 1\nb = 2") ["a = 1", "b = 2"]
    ["patch a = 1", "patch b = 2"] (by decide) (by decide) (by decide) (by decide)
    (Or.inl ⟨by decide, rfl, rfl⟩) (Or.inr ⟨_, rfl, by decide⟩) (by decide)).2
    (.WithStack (.New "recovery failed")) (by decide)
  exact ⟨⟨pubkey, h1, h2⟩, h3.1, h3.2.1⟩

/-! ## C22: the providers of a state URI -/

theorem makePeerConn_ownURLs (t : transport) (writer flusher : Bool) (dialAddr : String)
    (sessionID : ID) (deviceUniqueID : String) (address : Address) :
    (t.makePeerConn writer flusher dialAddr sessionID deviceUniqueID address).1.ownURLs =
      t.ownURLs := rfl

theorem storeAltSvcHeaderPeers_ownURLs (c : Collaborators) (t : transport) (hd : Header) :
    (transport.storeAltSvcHeaderPeers c t hd).ownURLs = t.ownURLs := by
  unfold transport.storeAltSvcHeaderPeers
  dsimp only
  split
  · generalize c.forEachAltSvcHeaderPeer (hd.Get "Alt-Svc") = peers
    induction peers generalizing t with
    | nil => rfl
    | cons p ps ih =>
      rw [List.foldl_cons, ih]
  · rfl

theorem sendProviders_sent (t : transport) (providers : List String) :
    (transport.sendProviders t providers).1.ownURLs = t.ownURLs ∧
      (transport.sendProviders t providers).2.map (fun p => p.DialInfo.DialAddr) =
        providers.filter (fun a => decide (a ∉ t.ownURLs)) ∧
      ∀ p ∈ (transport.sendProviders t providers).2,
        p.DialInfo.TransportName = TransportName ∧ p.sessionID = ID.zero ∧
          p.DeviceUniqueID = "" ∧ p.streamWriter = false ∧ p.streamFlusher = false := by
  induction providers generalizing t with
  | nil => exact ⟨rfl, rfl, fun p hp => nomatch hp⟩
  | cons a rest ih =>
    by_cases ha : a ∈ t.ownURLs
    · have hrun : transport.sendProviders t (a :: rest) = transport.sendProviders t rest := by
        simp only [transport.sendProviders, if_pos ha]
      rw [hrun]
      obtain ⟨h1, h2, h3⟩ := ih t
      refine ⟨h1, ?_, h3⟩
      rw [h2]
      simp [ha]
    · have hrun : transport.sendProviders t (a :: rest) =
          ((transport.sendProviders
              (t.makePeerConn false false a ID.zero "" Address.zero).1 rest).1,
            (t.makePeerConn false false a ID.zero "" Address.zero).2 ::
              (transport.sendProviders
                (t.makePeerConn false false a ID.zero "" Address.zero).1 rest).2) := by
        simp only [transport.sendProviders, if_neg ha]
      rw [hrun]
      obtain ⟨h1, h2, h3⟩ := ih (t.makePeerConn false false a ID.zero "" Address.zero).1
      rw [makePeerConn_ownURLs] at h1 h2
      refine ⟨h1, ?_, ?_⟩
      · simp only [List.map_cons, h2]
        rw [List.filter_cons_of_pos (by simpa using ha)]
        rfl
      · intro p hp
        rcases List.mem_cons.mp hp with rfl | hp
        · exact ⟨rfl, rfl, rfl, rfl, rfl⟩
        · exact h3 p hp

theorem doRequest_ok (c : Collaborators) (h : ClientDeps) (t : transport)
    (req : ClientRequest) (resp : Response)
    (hdo : h.Do
        { req with
          Header :=
            req.Header.Set "Alt-Svc" (c.makeAltSvcHeader (c.AllDialInfos t.peerStore)) } =
      .ok resp)
    (h200 : resp.StatusCode = 200) :
    transport.doRequest c h t req =
      (transport.storeAltSvcHeaderPeers c t resp.Header, .ok resp) := by
  simp only [transport.doRequest, hdo, h200, ne_eq, not_true_eq_false, if_false]

/-- C22. Let the request to the authoritative host be made (its URL parses and the request
is built), let the host answer 200 with a body that decodes to the JSON list `L`, and let
`"http://" + stateURI` parse, with the host name `hostname`. Then `ProvidersOfStateURI`
returns a channel on which its goroutine sends peer connections for exactly the dial
addresses of `L` followed by `"http://" + hostname` that are not own URLs, in that order,
each made by `makePeerConn` for the transport `braidhttp` with a zero session id, no device
id and no stream, and then closes the channel. (The goroutine is taken to run to its end
without the process context being done.) -/
theorem C22_providers_of_state_uri (c : Collaborators) (h : ClientDeps) (t : transport)
    (stateURI : String) (u : URL) (req : ClientRequest) (resp : Response) (L : List String)
    (u2 : URL)
    (hparse : h.urlParse ("http://" ++ (strings.Split stateURI '/').headD "" ++
      ":80?state_uri=" ++ stateURI) = .ok u)
    (hreq : h.NewRequest "GET" (h.urlString { u with Path := h.pathJoin u.Path "providers" }) =
      .ok req)
    (hdo : h.Do
        { req with
          Header :=
            req.Header.Set "Alt-Svc" (c.makeAltSvcHeader (c.AllDialInfos t.peerStore)) } =
      .ok resp)
    (h200 : resp.StatusCode = 200)
    (hjson : h.jsonDecodeStrings resp = .ok L)
    (hhost : h.urlParse ("http://" ++ stateURI) = .ok u2) :
    ∃ ch : ProviderChan,
      (transport.ProvidersOfStateURI c h t stateURI).2 = .ok ch ∧ ch.closed = true ∧
        ch.sent.map (fun p => p.DialInfo.DialAddr) =
          (L ++ ["http://" ++ h.urlHostname u2]).filter (fun a => decide (a ∉ t.ownURLs)) ∧
        (∀ p ∈ ch.sent,
          p.DialInfo.TransportName = TransportName ∧ p.sessionID = ID.zero ∧
            p.DeviceUniqueID = "" ∧ p.streamWriter = false ∧ p.streamFlusher = false) ∧
        (transport.ProvidersOfStateURI c h t stateURI).1.ownURLs = t.ownURLs := by
  have hfetch : transport.tryFetchProvidersFromAuthoritativeHost c h t stateURI =
      (transport.storeAltSvcHeaderPeers c t resp.Header, .ok L) := by
    simp only [transport.tryFetchProvidersFromAuthoritativeHost, hparse, hreq,
      doRequest_ok c h t req resp hdo h200, h200, ne_eq, not_true_eq_false, if_false, hjson]
  have hrun : transport.ProvidersOfStateURI c h t stateURI =
      ((transport.sendProviders (transport.storeAltSvcHeaderPeers c t resp.Header)
          (L ++ ["http://" ++ h.urlHostname u2])).1,
        .ok ⟨(transport.sendProviders (transport.storeAltSvcHeaderPeers c t resp.Header)
          (L ++ ["http://" ++ h.urlHostname u2])).2, true⟩) := by
    simp only [transport.ProvidersOfStateURI, hfetch, hhost]
  obtain ⟨h1, h2, h3⟩ := sendProviders_sent (transport.storeAltSvcHeaderPeers c t resp.Header)
    (L ++ ["http://" ++ h.urlHostname u2])
  rw [storeAltSvcHeaderPeers_ownURLs] at h1 h2
  rw [hrun]
  exact ⟨_, rfl, rfl, h2, h3, h1⟩

/-- C22 at the example node with the own URL `http://b`: for `chat.com/room`, whose host
answers with `http://a` and `http://b`, the channel carries peer connections for
`http://a` and `http://chat.com`. -/
theorem C22_providers_of_state_uri_witness :
    ∃ ch : ProviderChan,
      (transport.ProvidersOfStateURI Example.c Example.h Example.tB "chat.com/room").2 =
          .ok ch ∧
        ch.closed = true ∧
        ch.sent.map (fun p => p.DialInfo.DialAddr) = ["http://a", "http://chat.com"] := by
  obtain ⟨ch, h1, h2, h3, -, -⟩ := C22_providers_of_state_uri Example.c Example.h Example.tB
    "chat.com/room"
    { Scheme := "http", Host := "chat.com:80", RawQuery := "state_uri=chat.com/room" }
    { Method := "GET", URL := "http://chat.com:80/providers?state_uri=chat.com/room" }
    { StatusCode := 200, Status := "200 OK", Body := "[\"http://a\",\"http://b\"]" }
    ["http://a", "http://b"] { Scheme := "http", Host := "chat.com", Path := "/room" }
    (by decide) (by decide) (by decide) (by decide) (by decide) (by decide)
  exact ⟨ch, h1, h2, h3.trans (by decide)⟩

/-! ## C23: the own URL registered on Start -/

theorem StringSet_Add_mem (s : List String) (x u : String) :
    u ∈ StringSet.Add s x ↔ u ∈ s ∨ u = x := by
  unfold StringSet.Add
  split
  · rename_i h
    constructor
    · exact fun hu => Or.inl hu
    · rintro (hu | rfl)
      · exact hu
      · exact h
  · simp

theorem findOrCreateCookieSecret_ownURLs (k : SecretDeps) (t : transport) :
    (transport.findOrCreateCookieSecret k t).t.ownURLs = t.ownURLs := by
  unfold transport.findOrCreateCookieSecret
  dsimp only
  repeat' split
  all_goals rfl

theorem Start_ownURLs (eth : Ethereum) (s : StartDeps) (t : transport)
    (hp : s.processStart = none) (hj : s.cookiejarNew = none) :
    (transport.Start eth s t).t.ownURLs = (transport.startOwnURL t).ownURLs := by
  have h := findOrCreateCookieSecret_ownURLs s.secrets (transport.startOwnURL t)
  unfold transport.Start
  simp only [hp, hj]
  split
  · rename_i t2 saved err heq
    rw [heq] at h
    exact h
  · rename_i t2 saved heq
    rw [heq] at h
    split
    · exact h
    · exact h

theorem String_length_pos_iff (a : String) : a.length > 0 ↔ a ≠ "" := by
  constructor
  · rintro h rfl
    exact absurd h (by decide)
  · intro h
    cases a with
    | mk data =>
      cases data with
      | nil => exact absurd rfl h
      | cons c cs => simp [String.length]

/-- C23. When `Start` gets as far as the TLS listen address `a` (the process started and
the cookie jar was made), the own URLs afterwards are those from before and one more: if
`a` begins with `:` the string `https://localhost` followed by `a`, and if `a` is not empty
and does not begin with `:` the string `https://` followed by `a`; for the empty `a` the
own URLs stay as they were. Nothing else is added and nothing is removed, also when a
later step of `Start` fails, and `NewPeerConn` on the registered URL afterwards fails with
`ErrPeerIsSelf`. -/
theorem C23_start_registers_own_url (eth : Ethereum) (s : StartDeps) (t : transport)
    (hp : s.processStart = none) (hj : s.cookiejarNew = none) :
    (t.listenAddrSSL.data.head? = some ':' →
        (∀ u, u ∈ (transport.Start eth s t).t.ownURLs ↔
          u ∈ t.ownURLs ∨ u = "https://localhost" ++ t.listenAddrSSL) ∧
        ((transport.Start eth s t).t.NewPeerConn ("https://localhost" ++ t.listenAddrSSL)).2 =
          .error (.WithStack .ErrPeerIsSelf)) ∧
      (t.listenAddrSSL ≠ "" → t.listenAddrSSL.data.head? ≠ some ':' →
        (∀ u, u ∈ (transport.Start eth s t).t.ownURLs ↔
          u ∈ t.ownURLs ∨ u = "https://" ++ t.listenAddrSSL) ∧
        ((transport.Start eth s t).t.NewPeerConn ("https://" ++ t.listenAddrSSL)).2 =
          .error (.WithStack .ErrPeerIsSelf)) ∧
      (t.listenAddrSSL = "" → (transport.Start eth s t).t.ownURLs = t.ownURLs) := by
  rw [Start_ownURLs eth s t hp hj]
  have hself : ∀ x : String, x ∈ (transport.Start eth s t).t.ownURLs →
      ((transport.Start eth s t).t.NewPeerConn x).2 = .error (.WithStack .ErrPeerIsSelf) := by
    intro x hx
    simp only [transport.NewPeerConn, hx, true_or, if_true]
  rw [Start_ownURLs eth s t hp hj] at hself
  refine ⟨fun hc => ?_, fun hne hc => ?_, fun he => ?_⟩
  · have hpos : t.listenAddrSSL.length > 0 := by
      rw [String_length_pos_iff]
      rintro h
      rw [h] at hc
      exact absurd hc (by decide)
    have hrun : (transport.startOwnURL t).ownURLs =
        StringSet.Add t.ownURLs ("https://localhost" ++ t.listenAddrSSL) := by
      simp only [transport.startOwnURL, if_pos hpos, if_pos hc]
    rw [hrun] at hself ⊢
    exact ⟨fun u => StringSet_Add_mem _ _ _,
      hself _ ((StringSet_Add_mem _ _ _).mpr (Or.inr rfl))⟩
  · have hpos : t.listenAddrSSL.length > 0 := (String_length_pos_iff _).mpr hne
    have hrun : (transport.startOwnURL t).ownURLs =
        StringSet.Add t.ownURLs ("https://" ++ t.listenAddrSSL) := by
      simp only [transport.startOwnURL, if_pos hpos, if_neg hc]
    rw [hrun] at hself ⊢
    exact ⟨fun u => StringSet_Add_mem _ _ _,
      hself _ ((StringSet_Add_mem _ _ _).mpr (Or.inr rfl))⟩
  · have hpos : ¬ t.listenAddrSSL.length > 0 := by
      rw [he]
      decide
    simp only [transport.startOwnURL, if_neg hpos]

/-- C23 at the example node: started with the TLS listen address `:21232`, the node has the
one own URL `https://localhost:21232` and refuses to dial it; started with
`node.example:443` next to the own URL `http://me`, it has both. -/
theorem C23_start_registers_own_url_witness :
    (transport.Start Example.eth Example.s Example.tNew).t.ownURLs =
        ["https://localhost:21232"] ∧
      ((transport.Start Example.eth Example.s Example.tNew).t.NewPeerConn
        "https://localhost:21232").2 = .error (.WithStack .ErrPeerIsSelf) ∧
      (∀ u, u ∈ (transport.Start Example.eth Example.s
          { listenAddrSSL := "node.example:443", ownURLs := ["http://me"] }).t.ownURLs ↔
        u ∈ ["http://me"] ∨ u = "https://node.example:443") := by
  have h1 := (C23_start_registers_own_url Example.eth Example.s Example.tNew rfl rfl).1
    (by decide)
  have h2 := (C23_start_registers_own_url Example.eth Example.s
    { listenAddrSSL := "node.example:443", ownURLs := ["http://me"] } rfl rfl).2.1
    (by decide) (by decide)
  exact ⟨by decide, h1.2, h2.1⟩

/-! ## C24: request paths that end the handler with a panic -/

theorem splitChars_ne_nil (sep : Char) (s : List Char) : strings.splitChars sep s ≠ [] := by
  cases s with
  | nil => simp [strings.splitChars]
  | cons c cs =>
    simp only [strings.splitChars]
    split
    · simp
    · split <;> simp

theorem serveGetTx_dispatched (c : Collaborators) (g : GetTxDeps) (w : ResponseWriter)
    (r : Request) (h : strings.HasPrefix r.Path "/__tx/" = true) :
    (transport.serveGetTx c g w r).panicked = none := by
  obtain ⟨rest, hrest⟩ := (HasPrefix_iff r.Path "/__tx/").mp h
  have hdata : r.Path.data = '/' :: ("__tx".data ++ '/' :: rest.data) := by
    rw [hrest]
    rfl
  have hsplit : strings.Split ⟨"__tx".data ++ '/' :: rest.data⟩ '/' =
      "__tx" :: (strings.splitChars '/' rest.data).map String.mk := by
    simp only [strings.Split]
    rw [splitChars_append_sep '/' _ _ (by decide)]
    rfl
  unfold transport.serveGetTx
  rw [hdata]
  cases hs : strings.splitChars '/' rest.data with
  | nil => exact absurd hs (splitChars_ne_nil _ _)
  | cons p ps =>
    rw [hs] at hsplit
    simp only [hsplit, List.map_cons]
    repeat' split
    all_goals rfl

/-- C24, evaluated on the code. The state GET of the path `/a[`, whose segment ends right
after its `[`, ends with the panic `slice bounds out of range [2:1]` and writes no answer;
the state GET of the empty path ends with the panic `slice bounds out of range [1:0]`. A
tx GET that `ServeHTTP` dispatches, that is one whose path begins with `/__tx/`, does not
panic, and `/__tx/` with nothing after it is answered with 400; `serveGetTx` on the path
`/__tx`, which `ServeHTTP` does not send there, would panic on `parts[1]`. -/
theorem C24_state_get_panics_on_paths :
    (transport.serveGetState Example.c Example.d Example.t {}
        { Path := "/a[", Header := [("State-URI", ["chat.com/room"])] }).panicked =
        some "slice bounds out of range [2:1]" ∧
      (transport.serveGetState Example.c Example.d Example.t {}
        { Path := "/a[", Header := [("State-URI", ["chat.com/room"])] }).w.status = none ∧
      (transport.serveGetState Example.c Example.d Example.t {}
        { Path := "", Header := [("State-URI", ["chat.com/room"])] }).panicked =
        some "slice bounds out of range [1:0]" ∧
      (∀ (c : Collaborators) (g : GetTxDeps) (w : ResponseWriter) (r : Request),
        strings.HasPrefix r.Path "/__tx/" = true →
        (transport.serveGetTx c g w r).panicked = none) ∧
      (transport.serveGetTx Example.c Example.g {}
        { Path := "/__tx/", Header := [("State-URI", ["chat.com/room"])] }).w.status =
        some 400 ∧
      (transport.serveGetTx Example.c Example.g {}
        { Path := "/__tx", Header := [("State-URI", ["chat.com/room"])] }).panicked =
        some "index out of range [1] with length 1" := by
  refine ⟨by decide, by decide, by decide, serveGetTx_dispatched, by decide, by decide⟩

/-- C24 at the example node: the tx GET of `/__tx/01` does not panic. -/
theorem C24_state_get_panics_on_paths_witness :
    (transport.serveGetTx Example.c Example.g {}
      { Path := "/__tx/01", Header := [("State-URI", ["chat.com/room"])] }).panicked = none :=
  C24_state_get_panics_on_paths.2.2.2.1 Example.c Example.g {}
    { Path := "/__tx/01", Header := [("State-URI", ["chat.com/room"])] } (by decide)

/-! ## C25: the cookie secret on Start -/

theorem copyOver_nil (dst : Bytes) : copyOver dst [] = dst := by
  simp [copyOver]

theorem copyOver_long (dst src : Bytes) (h : dst.length ≤ src.length) :
    copyOver dst src = src.take dst.length := by
  simp [copyOver, List.drop_eq_nil_of_le h]

/-- C25. `findOrCreateCookieSecret`, when the key store holds a byte slice under
`http:cookiesecret`: `t.cookieSecret` gets the bytes of that secret copied over its start,
so for a secret of 32 bytes or more it becomes the first 32 bytes of the secret. When the
key store holds nothing under the key: the bytes `rand.Read` produced go to a variable of
the inner block only, `t.cookieSecret` stays what it was, which is 32 zero bytes on a
transport that `NewTransport` made, and the transport is unchanged. In both cases what is
saved under `http:cookiesecret` is the resulting `t.cookieSecret`, and the error returned
is that of the save. -/
theorem C25_cookie_secret_bootstrap (k : SecretDeps) (t : transport) :
    (∀ secret : Bytes, k.ExtraUserData "http:cookiesecret" = .ok (some (.bytes secret), true) →
        (transport.findOrCreateCookieSecret k t).t.cookieSecret =
            copyOver t.cookieSecret secret ∧
          (t.cookieSecret.length = 32 → 32 ≤ secret.length →
            (transport.findOrCreateCookieSecret k t).t.cookieSecret = secret.take 32) ∧
          (transport.findOrCreateCookieSecret k t).saved =
            [("http:cookiesecret", (transport.findOrCreateCookieSecret k t).t.cookieSecret)] ∧
          (transport.findOrCreateCookieSecret k t).err =
            k.SaveExtraUserData "http:cookiesecret"
              (transport.findOrCreateCookieSecret k t).t.cookieSecret) ∧
      (∀ fresh : Bytes, k.ExtraUserData "http:cookiesecret" = .ok (none, false) →
        k.randRead 32 = .ok fresh →
        (transport.findOrCreateCookieSecret k t).t = t ∧
          (t.cookieSecret = List.replicate 32 0 →
            (transport.findOrCreateCookieSecret k t).t.cookieSecret = List.replicate 32 0) ∧
          (transport.findOrCreateCookieSecret k t).saved =
            [("http:cookiesecret", t.cookieSecret)] ∧
          (transport.findOrCreateCookieSecret k t).err =
            k.SaveExtraUserData "http:cookiesecret" t.cookieSecret) := by
  refine ⟨fun secret hs => ?_, fun fresh hn hr => ?_⟩
  · have hrun : transport.findOrCreateCookieSecret k t =
        ⟨{ t with cookieSecret := copyOver t.cookieSecret secret },
          [("http:cookiesecret", copyOver t.cookieSecret secret)],
          k.SaveExtraUserData "http:cookiesecret" (copyOver t.cookieSecret secret)⟩ := by
      simp only [transport.findOrCreateCookieSecret, hs, Bool.not_true, Bool.or_self,
        Bool.false_eq_true, if_false]
    rw [hrun]
    refine ⟨rfl, fun hlen hle => ?_, rfl, rfl⟩
    show copyOver t.cookieSecret secret = _
    rw [copyOver_long _ _ (by omega), hlen]
  · have hrun : transport.findOrCreateCookieSecret k t =
        ⟨{ t with cookieSecret := copyOver t.cookieSecret [] },
          [("http:cookiesecret", copyOver t.cookieSecret [])],
          k.SaveExtraUserData "http:cookiesecret" (copyOver t.cookieSecret [])⟩ := by
      simp only [transport.findOrCreateCookieSecret, hn, hr, Bool.not_false, Bool.or_true,
        Bool.true_or, if_true]
    rw [hrun, copyOver_nil]
    exact ⟨rfl, fun hz => hz, rfl, rfl⟩

/-- C25 at the example key stores: with the stored secret 1, 2, …, 32 the transport gets
that secret; with no stored secret the transport keeps its 32 zero bytes, although
`rand.Read` produced the bytes 7, 7, …, and the zero bytes are saved. -/
theorem C25_cookie_secret_bootstrap_witness :
    (transport.findOrCreateCookieSecret Example.kStored Example.tNew).t.cookieSecret =
        (List.range 32).map (fun i => Fin.ofNat (i + 1)) ∧
      (transport.findOrCreateCookieSecret Example.kEmpty Example.tNew).t.cookieSecret =
        List.replicate 32 0 ∧
      (transport.findOrCreateCookieSecret Example.kEmpty Example.tNew).saved =
        [("http:cookiesecret", List.replicate 32 0)] := by
  have h1 := ((C25_cookie_secret_bootstrap Example.kStored Example.tNew).1
    ((List.range 32).map fun i => Fin.ofNat (i + 1)) (by decide)).2.1 (by decide) (by decide)
  have h2 := (C25_cookie_secret_bootstrap Example.kEmpty Example.tNew).2
    (List.replicate 32 7) (by decide) (by decide)
  exact ⟨h1.trans (by decide), h2.2.1 (by decide), h2.2.2.1⟩

/-! ## Lemmas: the stages of a state GET -/

theorem getStateResolve_anyMissing (c : Collaborators) (d : StateDeps) (w : ResponseWriter)
    (r : Request) (raw : Bool) (stateURI : String) (version : Option Version)
    (keypath : Keypath) (rng : Option Range) (calls : List HubCall) (node : Node)
    (keypath1 : Keypath) (calls1 : List HubCall) (anyMissing : Bool)
    (h : transport.getStateResolve c d w r raw stateURI version keypath rng calls =
      .ok (node, keypath1, calls1, anyMissing)) : anyMissing = false := by
  unfold transport.getStateResolve at h
  dsimp only at h
  repeat' split at h
  all_goals first
    | (cases h; done)
    | (simp only [Except.ok.injEq, Prod.mk.injEq] at h
       exact h.2.2.2.symm)

/-- The second half of `serveGetState` is the resolution stage followed by the response
stage, which runs with the `anyMissing` the resolution stage left. -/
theorem serveGetStateNode_stages (c : Collaborators) (d : StateDeps) (w : ResponseWriter)
    (r : Request) (stateURI : String) (version : Option Version) (keypath : Keypath)
    (rng : Option Range) (calls : List HubCall) :
    transport.serveGetStateNode c d w r stateURI version keypath rng calls =
      match d.parseRawParam r with
      | .error err =>
        ⟨http.Error w ("error: " ++ c.errText err) http.StatusBadRequest, calls, none⟩
      | .ok raw =>
        match transport.getStateResolve c d w r raw stateURI version keypath rng calls with
        | .error handled => handled
        | .ok (node, keypath1, calls1, anyMissing) =>
          transport.getStateRespond c d w raw node keypath1 calls1 anyMissing := by
  cases hraw : d.parseRawParam r with
  | error err => simp only [transport.serveGetStateNode, hraw]
  | ok raw =>
    rcases hpi : d.parseIndexParams r with ⟨indexName, indexArg⟩
    simp only [transport.serveGetStateNode, transport.getStateResolve, hraw, hpi]
    by_cases hidx : indexName ≠ ""
    · simp only [if_pos hidx]
      cases hq : d.QueryIndex stateURI version keypath indexName
          (if indexArg ≠ "*" then some indexArg else none) rng with
      | error err =>
        by_cases h404 : errors.Cause err = .Err404
        · simp only [if_pos h404]
        · simp only [if_neg h404]
      | ok node =>
        simp only []
        rfl
    · simp only [if_neg hidx]
      cases hs : d.StateAtVersion stateURI version with
      | error err => simp only []
      | ok node =>
        cases raw with
        | true =>
          simp only [if_true]
          rfl
        | false =>
          simp only [Bool.false_eq_true, if_false]
          cases hseek : d.Seek node keypath with
          | error err => simp only []
          | ok found =>
            cases found with
            | none => simp only []
            | some node1 =>
              simp only []
              cases hex : d.Exists node1 (Keypath.Push "" "index.html") with
              | error err => simp only []
              | ok indexHTMLExists =>
                cases indexHTMLExists with
                | true =>
                  simp only [if_true]
                  rfl
                | false =>
                  simp only [Bool.false_eq_true, if_false]
                  rfl

theorem Header_Set_get_other (h : Header) (key key2 value : String) (hne : key2 ≠ key) :
    GoMap.get (h.Set key value) key2 = GoMap.get h key2 := by
  simp only [Header.Set]
  exact GoMap_get_set_other _ _ _ _ hne

theorem Header_Set_get_self (h : Header) (key value : String) :
    GoMap.get (h.Set key value) key = some [value] := by
  simp only [Header.Set]
  exact GoMap_get_set_self _ _ _

theorem WriteHeader_header (w : ResponseWriter) (code : Nat) :
    (w.WriteHeader code).header = w.header := by
  unfold ResponseWriter.WriteHeader
  cases w.status <;> rfl

/-! ## C26: the Subscribe header of a state GET -/

/-- C26, as stated, fails: on a node whose nodes report the content type `text/html` and
hold plain values, the state GET of `/a` is answered with 200, its `Content-Type` header is
`text/html`, which is none of the three types, and it carries `Subscribe: Allow`. -/
theorem C26_counterexample_html_with_subscribe :
    (transport.serveGetState Example.c Example.dHtml Example.t {}
        { Path := "/a", Header := [("State-URI", ["chat.com/room"])] }).w.status = some 200 ∧
      GoMap.get (transport.serveGetState Example.c Example.dHtml Example.t {}
        { Path := "/a", Header := [("State-URI", ["chat.com/room"])] }).w.sentHeader
        "Content-Type" = some ["text/html"] ∧
      GoMap.get (transport.serveGetState Example.c Example.dHtml Example.t {}
        { Path := "/a", Header := [("State-URI", ["chat.com/room"])] }).w.sentHeader
        "Subscribe" = some ["Allow"] ∧
      "text/html" ∉ ["application/json", "application/js", "text/plain"] := by
  refine ⟨by decide, by decide, by decide, by decide⟩

theorem getStateRespond_body (c : Collaborators) (d : StateDeps) (w : ResponseWriter)
    (raw : Bool) (node : Node) (keypath : Keypath) (calls : List HubCall) (anyMissing : Bool)
    (contentType0 : String) (contentLength : Int) (resourceLength : Nat) (val : NodeValue)
    (hct : d.GetContentType node = .ok contentType0)
    (hlen : d.GetContentLength node = .ok contentLength)
    (hrl : d.Length node = .ok resourceLength)
    (hval : (if !raw then d.GetValueRecursive node else d.Value node) = .ok (some val)) :
    ∃ w3 : ResponseWriter, w3.status = w.status ∧ w3.body = w.body ∧
      GoMap.get w3.header "Content-Type" =
        some [if contentType0 = "application/octet-stream" then
          d.GuessContentTypeFromFilename (Keypath.lastPart keypath) else contentType0] ∧
      GoMap.get w3.header "Subscribe" = GoMap.get w.header "Subscribe" ∧
      transport.getStateRespond c d w raw node keypath calls anyMissing =
        match (match d.GetReadCloser val with
          | some (data, readErr) =>
            .ok (if contentType0 = "application/octet-stream" then
              d.GuessContentTypeFromFilename (Keypath.lastPart keypath) else contentType0,
              data, readErr)
          | none =>
            match d.jsonMarshal val with
            | .error err => .error err
            | .ok j => .ok ("application/json", j, none) :
          Except Error (String × String × Option Error)) with
        | .error err => ⟨w3, calls, some (c.errText err)⟩
        | .ok (contentType1, data, readErr) =>
          let w4 :=
            if contentType1 = "application/json" ∨ contentType1 = "application/js" ∨
                contentType1 = "text/plain" then
              { w3 with header := w3.header.Set "Subscribe" "Allow" }
            else w3
          let w5 := if anyMissing then w4.WriteHeader http.StatusPartialContent else w4
          let w6 := if data = "" then w5 else w5.Write data
          match readErr with
          | some _ =>
            ⟨http.Error w6 "could not copy response" http.StatusInternalServerError,
              calls, none⟩
          | none => ⟨w6, calls, none⟩ := by
  refine ⟨{ w with
      header := (if contentLength > 0 then
          (w.header.Set "Content-Type"
              (if contentType0 = "application/octet-stream" then
                d.GuessContentTypeFromFilename (Keypath.lastPart keypath)
              else contentType0)).Set "Content-Length" (toString contentLength)
        else
          w.header.Set "Content-Type"
            (if contentType0 = "application/octet-stream" then
              d.GuessContentTypeFromFilename (Keypath.lastPart keypath)
            else contentType0)).Set "Resource-Length" (toString resourceLength) },
    ?_, ?_, ?_, ?_, ?_⟩
  · rfl
  · rfl
  · by_cases hpos : contentLength > 0
    · simp only [if_pos hpos]
      rw [Header_Set_get_other _ _ _ _ (by decide), Header_Set_get_other _ _ _ _ (by decide),
        Header_Set_get_self]
    · simp only [if_neg hpos]
      rw [Header_Set_get_other _ _ _ _ (by decide), Header_Set_get_self]
  · by_cases hpos : contentLength > 0
    · simp only [if_pos hpos]
      rw [Header_Set_get_other _ _ _ _ (by decide), Header_Set_get_other _ _ _ _ (by decide),
        Header_Set_get_other _ _ _ _ (by decide)]
    · simp only [if_neg hpos]
      rw [Header_Set_get_other _ _ _ _ (by decide), Header_Set_get_other _ _ _ _ (by decide)]
  · simp only [transport.getStateRespond, hct, hlen, hrl, hval]
    by_cases hpos : contentLength > 0
    · simp only [if_pos hpos]
    · simp only [if_neg hpos]

theorem getStateRespond_w4_header (w3 : ResponseWriter) (P : Prop) [Decidable P] (key : String)
    (hne : key ≠ "Subscribe") :
    GoMap.get (if P then { w3 with header := w3.header.Set "Subscribe" "Allow" }
      else w3).header key = GoMap.get w3.header key := by
  by_cases hP : P
  · rw [if_pos hP]
    exact Header_Set_get_other _ _ _ _ hne
  · rw [if_neg hP]

theorem getStateRespond_w6_header (w4 : ResponseWriter) (anyMissing : Bool) (data : String) :
    (if data = "" then
        (if anyMissing then w4.WriteHeader http.StatusPartialContent else w4)
      else
        (if anyMissing then w4.WriteHeader http.StatusPartialContent
          else w4).Write data).header = w4.header := by
  have hw5 : (if anyMissing then w4.WriteHeader http.StatusPartialContent else w4).header =
      w4.header := by
    split
    · exact WriteHeader_header _ _
    · rfl
  split
  · exact hw5
  · rw [Write_header, hw5]

theorem getStateRespond_tail_header (w4 : ResponseWriter) (anyMissing : Bool) (data : String)
    (readErr : Option Error) (calls : List HubCall) (key : String)
    (h1 : key ≠ "Content-Type") (h2 : key ≠ "X-Content-Type-Options") :
    GoMap.get
        (match readErr with
          | some _ =>
            (⟨http.Error
                (if data = "" then
                  (if anyMissing then w4.WriteHeader http.StatusPartialContent else w4)
                else
                  (if anyMissing then w4.WriteHeader http.StatusPartialContent
                    else w4).Write data)
                "could not copy response" http.StatusInternalServerError, calls, none⟩ :
              Handled)
          | none =>
            ⟨if data = "" then
                (if anyMissing then w4.WriteHeader http.StatusPartialContent else w4)
              else
                (if anyMissing then w4.WriteHeader http.StatusPartialContent
                  else w4).Write data, calls, none⟩).w.header key =
      GoMap.get w4.header key := by
  have hw6 := getStateRespond_w6_header w4 anyMissing data
  cases readErr with
  | none =>
    show GoMap.get (ResponseWriter.header _) key = _
    rw [hw6]
  | some e =>
    show GoMap.get (http.Error _ _ _).header key = _
    rw [http_Error_header_get _ _ _ _ h1 h2, hw6]

/-- C26, amended. Take a state GET at the body stage (content type, content length and
length of the node were read and its value was found) whose response had no `Subscribe`
header before. The handler ends with a content type of its own: for a value that is
streamed from a reader it is the value of the `Content-Type` header it set (the node's
type, or the guess for `application/octet-stream`); for a value that is JSON-encoded it is
`application/json`, whatever the `Content-Type` header says. The response carries
`Subscribe: Allow` if and only if that content type is one of `application/json`,
`application/js`, `text/plain`: so for a streamed value exactly when the `Content-Type`
header is one of the three, and for a JSON-encoded value always. -/
theorem C26_subscribe_by_final_content_type (c : Collaborators) (d : StateDeps)
    (w : ResponseWriter) (raw : Bool) (node : Node) (keypath : Keypath)
    (calls : List HubCall) (anyMissing : Bool) (contentType0 : String) (contentLength : Int)
    (resourceLength : Nat) (val : NodeValue)
    (hct : d.GetContentType node = .ok contentType0)
    (hlen : d.GetContentLength node = .ok contentLength)
    (hrl : d.Length node = .ok resourceLength)
    (hval : (if !raw then d.GetValueRecursive node else d.Value node) = .ok (some val))
    (hsub : GoMap.get w.header "Subscribe" = none) :
    (∀ (data : String) (readErr : Option Error), d.GetReadCloser val = some (data, readErr) →
        (GoMap.get (transport.getStateRespond c d w raw node keypath calls anyMissing).w.header
              "Subscribe" = some ["Allow"] ↔
            (if contentType0 = "application/octet-stream" then
                d.GuessContentTypeFromFilename (Keypath.lastPart keypath)
              else contentType0) ∈ ["application/json", "application/js", "text/plain"]) ∧
          (readErr = none →
            GoMap.get
                (transport.getStateRespond c d w raw node keypath calls anyMissing).w.header
                "Content-Type" =
              some [if contentType0 = "application/octet-stream" then
                d.GuessContentTypeFromFilename (Keypath.lastPart keypath)
              else contentType0])) ∧
      (∀ j : String, d.GetReadCloser val = none → d.jsonMarshal val = .ok j →
        GoMap.get (transport.getStateRespond c d w raw node keypath calls anyMissing).w.header
            "Subscribe" = some ["Allow"] ∧
          GoMap.get (transport.getStateRespond c d w raw node keypath calls anyMissing).w.header
            "Content-Type" =
          some [if contentType0 = "application/octet-stream" then
            d.GuessContentTypeFromFilename (Keypath.lastPart keypath)
          else contentType0]) := by
  obtain ⟨w3, -, -, hctype, hsub3, hrun⟩ :=
    getStateRespond_body c d w raw node keypath calls anyMissing contentType0 contentLength
      resourceLength val hct hlen hrl hval
  refine ⟨fun data readErr hrc => ?_, fun j hrc hj => ?_⟩
  · rw [hrun, hrc]
    dsimp only
    refine ⟨?_, fun hre => ?_⟩
    · rw [getStateRespond_tail_header _ _ _ _ _ "Subscribe" (by decide) (by decide)]
      by_cases hin : (if contentType0 = "application/octet-stream" then
          d.GuessContentTypeFromFilename (Keypath.lastPart keypath)
        else contentType0) = "application/json" ∨
        (if contentType0 = "application/octet-stream" then
          d.GuessContentTypeFromFilename (Keypath.lastPart keypath)
        else contentType0) = "application/js" ∨
        (if contentType0 = "application/octet-stream" then
          d.GuessContentTypeFromFilename (Keypath.lastPart keypath)
        else contentType0) = "text/plain"
      · rw [if_pos hin]
        simp only [Header_Set_get_self, true_iff, List.mem_cons, List.mem_singleton,
          List.mem_nil_iff, or_false]
        exact hin
      · rw [if_neg hin, hsub3, hsub]
        simp only [List.mem_cons, List.mem_singleton, List.mem_nil_iff, or_false, hin, iff_false]
        exact fun h => nomatch h
    · subst hre
      show GoMap.get (ResponseWriter.header _) "Content-Type" = _
      rw [getStateRespond_w6_header, getStateRespond_w4_header _ _ _ (by decide), hctype]
  · rw [hrun, hrc, hj]
    dsimp only
    refine ⟨?_, ?_⟩
    · show GoMap.get (ResponseWriter.header _) "Subscribe" = _
      rw [getStateRespond_w6_header, if_pos (Or.inl rfl)]
      exact Header_Set_get_self _ _ _
    · show GoMap.get (ResponseWriter.header _) "Content-Type" = _
      rw [getStateRespond_w6_header, if_pos (Or.inl rfl)]
      show GoMap.get (w3.header.Set "Subscribe" "Allow") "Content-Type" = _
      rw [Header_Set_get_other _ _ _ _ (by decide), hctype]

/-- C26 at the example nodes: a JSON-encoded value under the `Content-Type` header
`text/html` carries `Subscribe: Allow`; a value streamed under the guessed type
`text/html` does not. -/
theorem C26_subscribe_by_final_content_type_witness :
    GoMap.get (transport.getStateRespond Example.c Example.dHtml {} false ⟨0⟩ "a" []
        false).w.header "Subscribe" = some ["Allow"] ∧
      ¬ GoMap.get (transport.getStateRespond Example.c Example.dSite {} false ⟨0⟩ "index.html"
        [] false).w.header "Subscribe" = some ["Allow"] := by
  have h1 := (C26_subscribe_by_final_content_type Example.c Example.dHtml {} false ⟨0⟩ "a" []
    false "text/html" 0 2 "42" (by decide) (by decide) (by decide) (by decide)
    (by decide)).2 "42" (by decide) (by decide)
  have h2 := ((C26_subscribe_by_final_content_type Example.c Example.dSite {} false ⟨0⟩
    "index.html" [] false "application/octet-stream" 0 2 "42" (by decide) (by decide)
    (by decide) (by decide) (by decide)).1 "42" none (by decide)).1
  exact ⟨h1.1, fun h => absurd (h2.mp h) (by decide)⟩

/-! ## C27: the guessed content type of a state GET -/

/-- C27, as stated, fails: on a node that serves files, the state GET of `/site` goes
through the resolver, the resolved node has a child `index.html` and reports
`application/octet-stream`; the `Content-Type` sent is `text/html`, the guess from
`index.html`, and not the guess from `site`, the last segment of the requested keypath,
which is `application/octet-stream`. -/
theorem C27_counterexample_index_html :
    transport.getStateKeypath Example.dSite "site" = .ok "site" ∧
      Keypath.lastPart "site" = "site" ∧
      Example.dSite.parseRawParam { Path := "/site" } = .ok false ∧
      Example.dSite.GetContentType ⟨0⟩ = .ok "application/octet-stream" ∧
      GoMap.get (transport.serveGetState Example.c Example.dSite Example.t {}
        { Path := "/site", Header := [("State-URI", ["chat.com/room"])] }).w.sentHeader
        "Content-Type" = some ["text/html"] ∧
      Example.dSite.GuessContentTypeFromFilename "site" = "application/octet-stream" ∧
      Example.dSite.GuessContentTypeFromFilename "index.html" = "text/html" := by
  refine ⟨by decide, by decide, by decide, by decide, by decide, by decide, by decide⟩

theorem getStateResolve_keypath (c : Collaborators) (d : StateDeps) (w : ResponseWriter)
    (r : Request) (raw : Bool) (stateURI : String) (version : Option Version)
    (keypath : Keypath) (rng : Option Range) (calls : List HubCall) (node : Node)
    (keypath1 : Keypath) (calls1 : List HubCall) (anyMissing : Bool)
    (h : transport.getStateResolve c d w r raw stateURI version keypath rng calls =
      .ok (node, keypath1, calls1, anyMissing)) :
    ((d.parseIndexParams r).1 ≠ "" ∨ raw = true → keypath1 = keypath) ∧
      ((d.parseIndexParams r).1 = "" → raw = false →
        ∀ node0 node1 : Node, d.StateAtVersion stateURI version = .ok node0 →
          d.Seek node0 keypath = .ok (some node1) →
          d.Exists node1 (Keypath.Push "" "index.html") = .ok true →
          keypath1 = "index.html" ∧ node = d.NodeAt node1 "index.html" none) := by
  unfold transport.getStateResolve at h
  dsimp only at h
  repeat' split at h
  all_goals first
    | (cases h; done)
    | skip
  all_goals simp only [Except.ok.injEq, Prod.mk.injEq] at h
  all_goals obtain ⟨h1, h2, -, -⟩ := h
  all_goals subst h1 h2
  all_goals refine ⟨fun hor => ?_, fun h0 hr node0 node1 hs hseek hex => ?_⟩
  all_goals first
    | rfl
    | (exact absurd h0 ‹_›)
    | (rcases hor with hor | hor <;> contradiction)
    | (subst hr; contradiction)
    | skip
  all_goals simp_all
  all_goals decide

/-- C27, amended. Take a state GET whose resolved node reports the content type
`application/octet-stream` and which goes on to send the value (content length, length and
value of the node are read, the value is streamed without a read error or JSON-encoded).
The `Content-Type` header of the response is the type guessed from the last segment of the
keypath the handler holds at that point, taken as a file name. In the raw branch and for an
index query that keypath is the requested keypath; in the resolver branch, when the
resolved node has a child `index.html`, the node sent is that child and the keypath is
`index.html`, so the type is guessed from `index.html`. -/
theorem C27_content_type_guess (c : Collaborators) (d : StateDeps) (w : ResponseWriter)
    (r : Request) (raw : Bool) (stateURI : String) (version : Option Version)
    (keypath : Keypath) (rng : Option Range) (calls : List HubCall) (node : Node)
    (keypath1 : Keypath) (calls1 : List HubCall) (anyMissing : Bool) (contentLength : Int)
    (resourceLength : Nat) (val : NodeValue)
    (hres : transport.getStateResolve c d w r raw stateURI version keypath rng calls =
      .ok (node, keypath1, calls1, anyMissing))
    (hct : d.GetContentType node = .ok "application/octet-stream")
    (hlen : d.GetContentLength node = .ok contentLength)
    (hrl : d.Length node = .ok resourceLength)
    (hval : (if !raw then d.GetValueRecursive node else d.Value node) = .ok (some val))
    (hbody : (∃ data, d.GetReadCloser val = some (data, none)) ∨
      (d.GetReadCloser val = none ∧ ∃ j, d.jsonMarshal val = .ok j)) :
    GoMap.get
        (transport.getStateRespond c d w raw node keypath1 calls1 anyMissing).w.header
        "Content-Type" =
        some [d.GuessContentTypeFromFilename (Keypath.lastPart keypath1)] ∧
      ((d.parseIndexParams r).1 ≠ "" ∨ raw = true → keypath1 = keypath) ∧
      ((d.parseIndexParams r).1 = "" → raw = false →
        ∀ node0 node1 : Node, d.StateAtVersion stateURI version = .ok node0 →
          d.Seek node0 keypath = .ok (some node1) →
          d.Exists node1 (Keypath.Push "" "index.html") = .ok true →
          keypath1 = "index.html" ∧ node = d.NodeAt node1 "index.html" none) := by
  obtain ⟨hk1, hk2⟩ := getStateResolve_keypath c d w r raw stateURI version keypath rng calls
    node keypath1 calls1 anyMissing hres
  refine ⟨?_, hk1, hk2⟩
  obtain ⟨w3, -, -, hctype, -, hrun⟩ :=
    getStateRespond_body c d w raw node keypath1 calls1 anyMissing "application/octet-stream"
      contentLength resourceLength val hct hlen hrl hval
  rw [if_pos rfl] at hctype
  rw [hrun]
  rcases hbody with ⟨data, hrc⟩ | ⟨hrc, j, hj⟩
  · rw [hrc]
    dsimp only
    show GoMap.get (ResponseWriter.header _) "Content-Type" = _
    rw [getStateRespond_w6_header, getStateRespond_w4_header _ _ _ (by decide), hctype]
  · rw [hrc, hj]
    dsimp only
    show GoMap.get (ResponseWriter.header _) "Content-Type" = _
    rw [getStateRespond_w6_header, getStateRespond_w4_header _ _ _ (by decide), hctype]

/-- C27 at the example node that serves files: in the raw branch the state GET of
`a/b/pic.png` gets the type guessed from `pic.png`; through the resolver the type is
guessed from `index.html`. -/
theorem C27_content_type_guess_witness :
    GoMap.get
        (transport.getStateRespond Example.c Example.dSite {} true ⟨0⟩ "a/b/pic.png"
          [.StateAtVersion "chat.com/room" none] false).w.header "Content-Type" =
        some ["image/png"] ∧
      GoMap.get
        (transport.getStateRespond Example.c Example.dSite {} false ⟨0⟩ "index.html"
          [.StateAtVersion "chat.com/room" none, .Seek ⟨0⟩ "a/b/pic.png"] false).w.header
        "Content-Type" = some ["text/html"] := by
  have h1 := (C27_content_type_guess Example.c Example.dSite {} {} true "chat.com/room" none
    "a/b/pic.png" none [] ⟨0⟩ "a/b/pic.png" [.StateAtVersion "chat.com/room" none] false 0 2
    "42" (by decide) (by decide) (by decide) (by decide) (by decide)
    (Or.inl ⟨"42", by decide⟩)).1
  have h2 := (C27_content_type_guess Example.c Example.dSite {} {} false "chat.com/room" none
    "a/b/pic.png" none [] ⟨0⟩ "index.html"
    [.StateAtVersion "chat.com/room" none, .Seek ⟨0⟩ "a/b/pic.png"] false 0 2
    "42" (by decide) (by decide) (by decide) (by decide) (by decide)
    (Or.inl ⟨"42", by decide⟩)).1
  exact ⟨h1, h2⟩

/-! ## Lemmas: no state GET is answered with 206 -/

theorem serveGetStateNode_never_206 (c : Collaborators) (d : StateDeps) (w : ResponseWriter)
    (r : Request) (stateURI : String) (version : Option Version) (keypath : Keypath)
    (rng : Option Range) (calls : List HubCall) (hst : w.status = none) :
    (transport.serveGetStateNode c d w r stateURI version keypath rng calls).w.status ≠
      some 206 := by
  unfold transport.serveGetStateNode
  dsimp only
  repeat' split
  all_goals try simp [http.Error, ResponseWriter.Write, ResponseWriter.WriteHeader, hst,
    http.StatusBadRequest, http.StatusInternalServerError]
  rename_i handled heq
  repeat' split at heq
  all_goals
    cases heq <;>
      simp [http.Error, ResponseWriter.Write, ResponseWriter.WriteHeader, hst,
        http.StatusBadRequest, http.StatusInternalServerError]

theorem serveGetState_never_206 (c : Collaborators) (d : StateDeps) (t : transport)
    (w : ResponseWriter) (r : Request) (hst : w.status = none) :
    (transport.serveGetState c d t w r).w.status ≠ some 206 := by
  have hnode : ∀ (w1 : ResponseWriter) (stateURI : String) (version : Option Version)
      (keypath : Keypath) (rng : Option Range) (calls : List HubCall), w1.status = none →
      (transport.serveGetStateNode c d w1 r stateURI version keypath rng calls).w.status ≠
        some 206 :=
    fun w1 stateURI version keypath rng calls h =>
      serveGetStateNode_never_206 c d w1 r stateURI version keypath rng calls h
  have herr : ∀ (w1 : ResponseWriter) (msg : String) (code : Nat), w1.status = none →
      code ≠ 206 → (http.Error w1 msg code).status ≠ some 206 := by
    intro w1 msg code h hc
    rw [http_Error_status w1 msg code h]
    simpa using hc
  unfold transport.serveGetState
  dsimp only
  repeat' split
  all_goals first
    | (apply hnode; exact hst)
    | (apply herr <;> first | exact hst | rfl | decide)
    | simp [hst]

/-! ## C28: the status of a state GET that sends a value -/

theorem Write_finalStatus (w : ResponseWriter) (data : String) :
    (w.Write data).finalStatus = w.finalStatus := by
  cases hst : w.status with
  | none => simp only [ResponseWriter.finalStatus, ResponseWriter.Write,
      ResponseWriter.WriteHeader, hst, Option.getD_some, Option.getD_none]
  | some v => simp only [ResponseWriter.finalStatus, ResponseWriter.Write,
      ResponseWriter.WriteHeader, hst, Option.getD_some]

theorem getStateRespond_w4_status (w3 : ResponseWriter) (P : Prop) [Decidable P] :
    (if P then { w3 with header := w3.header.Set "Subscribe" "Allow" } else w3).status =
      w3.status := by
  split <;> rfl

theorem getStateRespond_w6_finalStatus (w4 : ResponseWriter) (anyMissing : Bool)
    (data : String) (hst : w4.status = none) :
    (if data = "" then
        (if anyMissing then w4.WriteHeader http.StatusPartialContent else w4)
      else
        (if anyMissing then w4.WriteHeader http.StatusPartialContent
          else w4).Write data).finalStatus = if anyMissing then 206 else 200 := by
  have hw5 : (if anyMissing then w4.WriteHeader http.StatusPartialContent
      else w4).finalStatus = if anyMissing then 206 else 200 := by
    cases anyMissing with
    | true =>
      simp only [if_true, ResponseWriter.finalStatus, ResponseWriter.WriteHeader, hst]
      rfl
    | false =>
      simp only [Bool.false_eq_true, if_false, ResponseWriter.finalStatus, hst]
      rfl
  split
  · exact hw5
  · rw [Write_finalStatus, hw5]

/-- C28. Take a state GET that sends a value (the raw parameter is read, the node is
resolved, content type, content length, length and value of the node are read, the value is
streamed without a read error or JSON-encoded) on a response whose header was not written
yet, and let `anyMissing` be what the resolution of the node left in the handler's local of
that name. The GET is answered with 206 when `anyMissing` is set and with 200 when it is
not. The response stage, lines 788 to 857, does so for either value of the local, writing
206 before the body. The resolution stage, lines 718 to 786, leaves the local at `false` in
every run (the resolver call that would set it is commented out), so as the handler stands
the case that occurs is the answer 200. -/
theorem C28_partial_content_status (c : Collaborators) (d : StateDeps) (w : ResponseWriter)
    (r : Request) (stateURI : String) (version : Option Version) (keypath0 : Keypath)
    (rng : Option Range) (calls0 : List HubCall) (raw : Bool) (node : Node)
    (keypath : Keypath) (calls : List HubCall) (anyMissing : Bool)
    (contentType0 : String) (contentLength : Int) (resourceLength : Nat) (val : NodeValue)
    (hraw : d.parseRawParam r = .ok raw)
    (hres : transport.getStateResolve c d w r raw stateURI version keypath0 rng calls0 =
      .ok (node, keypath, calls, anyMissing))
    (hct : d.GetContentType node = .ok contentType0)
    (hlen : d.GetContentLength node = .ok contentLength)
    (hrl : d.Length node = .ok resourceLength)
    (hval : (if !raw then d.GetValueRecursive node else d.Value node) = .ok (some val))
    (hbody : (∃ data, d.GetReadCloser val = some (data, none)) ∨
      (d.GetReadCloser val = none ∧ ∃ j, d.jsonMarshal val = .ok j))
    (hw : w.status = none) :
    (transport.serveGetStateNode c d w r stateURI version keypath0 rng calls0).w.finalStatus =
        (if anyMissing then 206 else 200) ∧
      (∀ am : Bool,
        (transport.getStateRespond c d w raw node keypath calls am).w.finalStatus =
            (if am then 206 else 200) ∧
          (am = true →
            (transport.getStateRespond c d w raw node keypath calls am).w.status =
              some 206)) ∧
      anyMissing = false := by
  have hstage : ∀ am : Bool,
      (transport.getStateRespond c d w raw node keypath calls am).w.finalStatus =
        (if am then 206 else 200) := by
    intro am
    obtain ⟨w3, hst3, -, -, -, hrun⟩ :=
      getStateRespond_body c d w raw node keypath calls am contentType0 contentLength
        resourceLength val hct hlen hrl hval
    rw [hrun]
    rcases hbody with ⟨data, hrc⟩ | ⟨hrc, j, hj⟩
    · rw [hrc]
      dsimp only
      show ResponseWriter.finalStatus _ = _
      exact getStateRespond_w6_finalStatus _ _ _
        ((getStateRespond_w4_status w3 _).trans (hst3.trans hw))
    · rw [hrc, hj]
      dsimp only
      show ResponseWriter.finalStatus _ = _
      exact getStateRespond_w6_finalStatus _ _ _
        ((getStateRespond_w4_status w3 _).trans (hst3.trans hw))
  refine ⟨?_, fun am => ⟨hstage am, fun ham => ?_⟩, ?_⟩
  · rw [serveGetStateNode_stages, hraw]
    dsimp only
    rw [hres]
    exact hstage anyMissing
  · have hfinal := hstage am
    rw [ham, if_pos rfl] at hfinal
    rw [ham]
    unfold ResponseWriter.finalStatus at hfinal
    cases hs : (transport.getStateRespond c d w raw node keypath calls true).w.status with
    | none =>
      rw [hs] at hfinal
      exact absurd hfinal (by decide)
    | some n =>
      rw [hs] at hfinal
      exact congrArg some hfinal
  · exact getStateResolve_anyMissing c d w r raw stateURI version keypath0 rng calls0 node
      keypath calls anyMissing hres

/-- C28 at the example node: the state GET of the keypath `a` ends with 200, and the
response stage run with `anyMissing` set writes 206. -/
theorem C28_partial_content_status_witness :
    (transport.serveGetStateNode Example.c Example.d {} {} "chat.com/room" none "a" none
        []).w.finalStatus = 200 ∧
      (transport.getStateRespond Example.c Example.d {} false ⟨0⟩ ""
        [.StateAtVersion "chat.com/room" none, .Seek ⟨0⟩ "a"] true).w.status = some 206 := by
  have h := C28_partial_content_status Example.c Example.d {} {} "chat.com/room" none "a"
    none [] false ⟨0⟩ "" [.StateAtVersion "chat.com/room" none, .Seek ⟨0⟩ "a"] false
    "application/json" 0 2 "42" (by decide) (by decide) (by decide) (by decide) (by decide)
    (by decide) (Or.inr ⟨by decide, "42", by decide⟩) (by decide)
  exact ⟨h.1, (h.2.1 true).2 rfl⟩

/-! ## C29: the endpoint of makePeerConn -/

/-- C29. For every call of `makePeerConn`, the `PeerEndpoint` of the returned connection is
the endpoint that `peerStore.AddDialInfo((TransportName, dialAddr), deviceUniqueID)`
returned, and that call is the last one made on the peer store. When the address is not
zero, `AddVerifiedCredentials` was called just before it, with that address and nil keys,
and the endpoint it returned is not the one the connection holds; when the address is zero,
`AddDialInfo` is the only call made. -/
theorem C29_makePeerConn_endpoint (t : transport) (writer flusher : Bool) (dialAddr : String)
    (sessionID : ID) (deviceUniqueID : String) (address : Address) :
    (t.makePeerConn writer flusher dialAddr sessionID deviceUniqueID address).2.PeerEndpoint.call
        = .AddDialInfo ⟨TransportName, dialAddr⟩ deviceUniqueID ∧
      (address.IsZero = false →
        (t.makePeerConn writer flusher dialAddr sessionID deviceUniqueID address).1.peerStore =
            t.peerStore ++
              [.AddVerifiedCredentials ⟨TransportName, dialAddr⟩ deviceUniqueID address none
                  none,
                .AddDialInfo ⟨TransportName, dialAddr⟩ deviceUniqueID] ∧
          (t.makePeerConn writer flusher dialAddr sessionID deviceUniqueID
              address).2.PeerEndpoint =
            (PeerStore.AddDialInfo
              (t.peerStore.AddVerifiedCredentials ⟨TransportName, dialAddr⟩ deviceUniqueID
                address none none).1 ⟨TransportName, dialAddr⟩ deviceUniqueID).2 ∧
          (t.makePeerConn writer flusher dialAddr sessionID deviceUniqueID
              address).2.PeerEndpoint ≠
            (t.peerStore.AddVerifiedCredentials ⟨TransportName, dialAddr⟩ deviceUniqueID
              address none none).2) ∧
      (address.IsZero = true →
        (t.makePeerConn writer flusher dialAddr sessionID deviceUniqueID address).1.peerStore =
            t.peerStore ++ [.AddDialInfo ⟨TransportName, dialAddr⟩ deviceUniqueID] ∧
          (t.makePeerConn writer flusher dialAddr sessionID deviceUniqueID
              address).2.PeerEndpoint =
            (PeerStore.AddDialInfo t.peerStore ⟨TransportName, dialAddr⟩ deviceUniqueID).2) := by
  refine ⟨?_, fun hz => ?_, fun hz => ?_⟩
  · simp only [transport.makePeerConn, PeerStore.AddDialInfo]
  · simp only [transport.makePeerConn, PeerStore.AddDialInfo, PeerStore.AddVerifiedCredentials,
      hz, Bool.not_false, if_true, List.append_assoc, List.singleton_append, true_and]
    intro h
    have := congrArg PeerEndpoint.call h
    simp at this
  · simp only [transport.makePeerConn, PeerStore.AddDialInfo, hz, Bool.not_true,
      Bool.false_eq_true, if_false, and_self]

/-- C29 at the example node: with the address 09… the peer store gets the two calls and
the connection holds the endpoint of `AddDialInfo`; with the zero address it gets the one
call. -/
theorem C29_makePeerConn_endpoint_witness :
    (Example.t.makePeerConn false false "http://a" ID.zero "dev" (copyInto 20 [9])).1.peerStore =
        [.AddVerifiedCredentials ⟨"braidhttp", "http://a"⟩ "dev" (copyInto 20 [9]) none none,
          .AddDialInfo ⟨"braidhttp", "http://a"⟩ "dev"] ∧
      (Example.t.makePeerConn false false "http://a" ID.zero "dev" Address.zero).1.peerStore =
        [.AddDialInfo ⟨"braidhttp", "http://a"⟩ "dev"] :=
  ⟨((C29_makePeerConn_endpoint Example.t false false "http://a" ID.zero "dev"
      (copyInto 20 [9])).2.1 (by decide)).1,
    ((C29_makePeerConn_endpoint Example.t false false "http://a" ID.zero "dev"
      Address.zero).2.2 (by decide)).1⟩

/-! ## C30: the recovery id is not checked -/

/-- C30. For every hash and every non-empty signature, `signingPublicKey.VerifySignature`
returns what the library check says about the signature without its last byte (the recovery
id); so two non-empty signatures that differ only in their last byte (the same bytes before
it) get the same verdict. -/
theorem C30_recovery_id_not_checked (eth : Ethereum) (pubkey : signingPublicKey) (hash : Hash) :
    (∀ sig : Bytes, sig ≠ [] →
        pubkey.VerifySignature eth hash sig =
          some (eth.VerifySignature (pubkey.Bytes eth) hash sig.dropLast)) ∧
      (∀ sig1 sig2 : Bytes, sig1 ≠ [] → sig2 ≠ [] → sig1.dropLast = sig2.dropLast →
        pubkey.VerifySignature eth hash sig1 = pubkey.VerifySignature eth hash sig2) ∧
      (∀ (front : Bytes) (b b2 : Byte),
        pubkey.VerifySignature eth hash (front ++ [b]) =
          pubkey.VerifySignature eth hash (front ++ [b2])) := by
  have h1 : ∀ sig : Bytes, sig ≠ [] →
      pubkey.VerifySignature eth hash sig =
        some (eth.VerifySignature (pubkey.Bytes eth) hash sig.dropLast) := by
    intro sig hne
    have hlen : ¬ sig.length = 0 := fun h => hne (List.length_eq_zero.mp h)
    simp only [signingPublicKey.VerifySignature, if_neg hlen, List.dropLast_eq_take]
  refine ⟨h1, fun sig1 sig2 hn1 hn2 hd => ?_, fun front b b2 => ?_⟩
  · rw [h1 sig1 hn1, h1 sig2 hn2, hd]
  · rw [h1 _ (by simp), h1 _ (by simp), List.dropLast_concat, List.dropLast_concat]

/-- C30 at the example key: the signature 13 0d 00 of the example node and the same
signature with the last byte 01 get the same verdict, which is that of the library check
on 13 0d. -/
theorem C30_recovery_id_not_checked_witness :
    Example.keypair.SigningPublicKey.VerifySignature Example.eth [0x0c, 0x06]
        [0x13, 0x0d, 0x00] =
      Example.keypair.SigningPublicKey.VerifySignature Example.eth [0x0c, 0x06]
        [0x13, 0x0d, 0x01] :=
  (C30_recovery_id_not_checked Example.eth Example.keypair.SigningPublicKey [0x0c, 0x06]).2.1
    [0x13, 0x0d, 0x00] [0x13, 0x0d, 0x01] (by decide) (by decide) (by decide)

end Redwood
